import Mathlib

/-!
# rtcom-eventlogger: event store, group cache and query compiler

A shallow embedding of the storage layer of rtcom-eventlogger
(`src/db.c`, `src/eventlogger.c`, `src/event.c`, `src/eventlogger-query.c`,
`src/eventlogger-iter.c`).

Modelling conventions.

* A table is the list of its rows in insertion order.  SQL statements issued by
  the C code are modelled by functions on `Tables`; each function documents the
  statement text it stands for, including the schema constraints and triggers
  of `db_schema_sql` that fire with it.
* The connection (`Conn`) carries the tables, the snapshot taken by `BEGIN`
  (absent in autocommit mode), the engine's last result code, the log of the
  statements handed to `rtcom_el_db_exec`, and an oracle of engine faults
  (disk full, lock contention, ...) indexed by the position of the statement in
  the log.
* `gint`, `time_t` and SQLite integers are `Int`; values are assumed to stay
  inside the 32-bit range of `gint`, so no wrap-around is modelled.
  `gboolean` values and the `is_read` and `outgoing` columns, which only ever
  receive a `gboolean`, are `Bool`.
* A C string pointer is `Option String` (`none` is `NULL`).
* A run that reads released memory has undefined behaviour and no value in the
  model: `update_group_cache` and the deletion functions built on it return an
  `Option`, and `none` is such a run.
-/

namespace RtcomEl

/-! ## Engine result codes (sqlite3.h) and error kinds (eventlogger-types.h) -/

def SQLITE_OK : Int := 0
def SQLITE_ERROR : Int := 1
def SQLITE_BUSY : Int := 5
def SQLITE_LOCKED : Int := 6
def SQLITE_IOERR : Int := 10
def SQLITE_CORRUPT : Int := 11
def SQLITE_FULL : Int := 13
def SQLITE_CONSTRAINT : Int := 19
def SQLITE_FORMAT : Int := 24
def SQLITE_NOTADB : Int := 26
def SQLITE_ROW : Int := 100
def SQLITE_DONE : Int := 101

/-- The enum `RTComElError` of eventlogger-types.h. -/
inductive RTComElError where
  | RTCOM_EL_INTERNAL_ERROR
  | RTCOM_EL_INVALID_ARGUMENT_ERROR
  | RTCOM_EL_TEMPORARY_ERROR
  | RTCOM_EL_DATABASE_FULL
  | RTCOM_EL_DATABASE_CORRUPTED
deriving DecidableEq, Repr

open RTComElError

/-! ## Tables of `db_schema_sql` -/

/-- A row of `Events`.  `id` is the INTEGER PRIMARY KEY (the rowid). -/
structure EventRow where
  id : Int
  service_id : Int
  event_type_id : Int
  storage_time : Int
  start_time : Int
  end_time : Int
  is_read : Bool
  outgoing : Bool
  flags : Int
  bytes_sent : Int
  bytes_received : Int
  local_uid : Option String
  local_name : Option String
  remote_uid : Option String
  channel : Option String
  free_text : Option String
  group_uid : Option String
deriving DecidableEq, Repr

/-- A row of `Remotes`; `UNIQUE(local_uid, remote_uid)`, both NOT NULL. -/
structure RemoteRow where
  local_uid : String
  remote_uid : String
  remote_name : Option String
  abook_uid : Option String
deriving DecidableEq, Repr

/-- A row of `Headers`; `UNIQUE(event_id, name)`. -/
structure HeaderRow where
  id : Int
  event_id : Int
  name : String
  value : String
deriving DecidableEq, Repr

/-- A row of `Attachments`. -/
structure AttachmentRow where
  id : Int
  event_id : Int
  path : String
  desc : Option String
deriving DecidableEq, Repr

/-- A row of `GroupCache`; `event_id` is UNIQUE NOT NULL and
`UNIQUE(service_id, group_uid)` holds. -/
structure GroupCacheRow where
  event_id : Int
  service_id : Int
  group_uid : String
  total_events : Int
  read_events : Int
  flags : Int
deriving DecidableEq, Repr

/-- A row of `Flags` (the `desc` column is not modelled). -/
structure FlagRow where
  id : Int
  service_id : Int
  name : String
  value : Int
deriving DecidableEq, Repr

/-- A row of `Services` or of `EventTypes` (`plugin_id`, `desc` not modelled). -/
structure NameRow where
  id : Int
  name : String
deriving DecidableEq, Repr

/-- The tables of one database file. -/
structure Tables where
  Events : List EventRow
  Remotes : List RemoteRow
  Headers : List HeaderRow
  Attachments : List AttachmentRow
  GroupCache : List GroupCacheRow
  Flags : List FlagRow
  Services : List NameRow
  EventTypes : List NameRow
deriving DecidableEq, Repr

/-! ## The connection and `rtcom_el_db_exec` (db.c) -/

/-- An engine failure injected into one statement: reported either by
`sqlite3_prepare_v2` or by `sqlite3_step`. -/
inductive EngineFault where
  | atPrepare (code : Int)
  | atStep (code : Int)
deriving DecidableEq, Repr

/-- The `sqlite3 *` handle.  `saved` is the snapshot a ROLLBACK restores; it is
`none` exactly when `sqlite3_get_autocommit` is true. -/
structure Conn where
  tables : Tables
  saved : Option Tables
  errcode : Int
  log : List String
  fault : Nat → Option EngineFault

/-- The oracle of an engine that never fails. -/
def noFault : Nat → Option EngineFault := fun _ => none

/-- The codes both switches of db.c accept as "All is well". -/
def allIsWell (code : Int) : Bool :=
  code == SQLITE_DONE || code == SQLITE_ROW || code == SQLITE_OK

/-- The non-default arms of the two identical switches in `rtcom_el_db_exec`
(result of prepare) and `rtcom_el_db_iterate` (result of step). -/
def classify (code : Int) : RTComElError :=
  if code == SQLITE_FULL || code == SQLITE_IOERR then RTCOM_EL_DATABASE_FULL
  else if code == SQLITE_CORRUPT || code == SQLITE_FORMAT || code == SQLITE_NOTADB then
    RTCOM_EL_DATABASE_CORRUPTED
  else RTCOM_EL_INTERNAL_ERROR

/-- The error `rtcom_el_db_iterate` sets for a result code of `sqlite3_step`
that is not "All is well": BUSY and LOCKED leave the busy loop only through its
timeout, which sets RTCOM_EL_TEMPORARY_ERROR; every other code goes through the
switch. -/
def iterateError (code : Int) : RTComElError :=
  if code == SQLITE_BUSY || code == SQLITE_LOCKED then RTCOM_EL_TEMPORARY_ERROR
  else classify code

/-- The step phase of `rtcom_el_db_exec`: `rtcom_el_db_iterate` until the
statement is done.  A BUSY or LOCKED code stands for contention that outlasts
`RTCOM_EL_DB_MAX_BUSYLOOP_TIME`; `run` is the effect of the statement on the
tables together with what the row callback collects, or the result code the
statement itself fails with (constraint violation, syntax error).  A failed
statement leaves the tables as they were. -/
def execStep {β : Type} (db : Conn) (stepFault : Option Int)
    (run : Tables → Except Int (Tables × β)) : Conn × Except RTComElError β :=
  match stepFault with
  | some code => ({ db with errcode := code }, .error (iterateError code))
  | none =>
    match run db.tables with
    | .error code => ({ db with errcode := code }, .error (iterateError code))
    | .ok (t, b) => ({ db with tables := t, errcode := SQLITE_OK }, .ok b)

/-- `rtcom_el_db_exec` (and `rtcom_el_db_exec_printf`, whose formatting is done
by the caller of this model): log the statement, consult the fault oracle, then
prepare and step. -/
def rtcom_el_db_exec {β : Type} (db : Conn) (sql : String)
    (run : Tables → Except Int (Tables × β)) : Conn × Except RTComElError β :=
  let db1 := { db with log := db.log ++ [sql] }
  match db.fault db.log.length with
  | some (EngineFault.atPrepare code) =>
    if allIsWell code then execStep db1 none run
    else ({ db1 with errcode := code }, .error (classify code))
  | some (EngineFault.atStep code) =>
    if allIsWell code then execStep db1 none run else execStep db1 (some code) run
  | none => execStep db1 none run

/-- A statement without effect on the modelled tables (BEGIN, COMMIT, PRAGMA). -/
def runNothing : Tables → Except Int (Tables × Unit) := fun t => .ok (t, ())

/-- `rtcom_el_db_transaction`: refuses to nest, otherwise BEGIN. -/
def rtcom_el_db_transaction (db : Conn) (exclusive : Bool) :
    Conn × Bool × Option RTComElError :=
  if db.saved.isSome then (db, false, none)
  else
    match rtcom_el_db_exec db (if exclusive then "BEGIN EXCLUSIVE;" else "BEGIN DEFERRED;")
        runNothing with
    | (db1, .ok _) => ({ db1 with saved := some db1.tables }, true, none)
    | (db1, .error k) => (db1, false, some k)

/-- `rtcom_el_db_commit`. -/
def rtcom_el_db_commit (db : Conn) : Conn × Bool × Option RTComElError :=
  if db.saved.isNone then (db, false, none)
  else
    match rtcom_el_db_exec db "COMMIT;" runNothing with
    | (db1, .ok _) => ({ db1 with saved := none }, true, none)
    | (db1, .error k) => (db1, false, some k)

/-- `rtcom_el_db_rollback`.  The engine's ROLLBACK is taken to be infallible:
it restores the snapshot of BEGIN and returns to autocommit mode. -/
def rtcom_el_db_rollback (db : Conn) : Conn × Bool :=
  match db.saved with
  | none => (db, false)
  | some t =>
    ({ db with tables := t, saved := none, errcode := SQLITE_OK,
               log := db.log ++ ["ROLLBACK;"] }, true)

/-! ## The event structure (event.h) -/

/-- One field of `RTComElEvent` together with its bit of `_mask`:
`RTCOM_EL_EVENT_IS_SET` reads `is_set`, `RTCOM_EL_EVENT_GET_FIELD` reads
`value`. -/
structure Field (α : Type) where
  is_set : Bool
  value : α
deriving DecidableEq, Repr

/-- `RTCOM_EL_EVENT_SET_FIELD`. -/
def Field.set {α : Type} (v : α) : Field α := ⟨true, v⟩

/-- The struct `_RTComElEvent`. -/
structure RTComElEvent where
  id : Field Int
  service_id : Field Int
  event_type_id : Field Int
  storage_time : Field Int
  start_time : Field Int
  end_time : Field Int
  is_read : Field Bool
  flags : Field Int
  bytes_sent : Field Int
  bytes_received : Field Int
  local_uid : Field (Option String)
  local_name : Field (Option String)
  remote_uid : Field (Option String)
  remote_name : Field (Option String)
  remote_ebook_uid : Field (Option String)
  channel : Field (Option String)
  free_text : Field (Option String)
  group_uid : Field (Option String)
  service : Field (Option String)
  event_type : Field (Option String)
  additional_text : Field (Option String)
  icon_name : Field (Option String)
  pango_markup : Field (Option String)
  outgoing : Field Bool
deriving DecidableEq, Repr

/-- `rtcom_el_event_new`: a zeroed structure (`g_slice_new0`). -/
def rtcom_el_event_new : RTComElEvent :=
  { id := ⟨false, 0⟩, service_id := ⟨false, 0⟩, event_type_id := ⟨false, 0⟩,
    storage_time := ⟨false, 0⟩, start_time := ⟨false, 0⟩, end_time := ⟨false, 0⟩,
    is_read := ⟨false, false⟩, flags := ⟨false, 0⟩, bytes_sent := ⟨false, 0⟩,
    bytes_received := ⟨false, 0⟩, local_uid := ⟨false, none⟩, local_name := ⟨false, none⟩,
    remote_uid := ⟨false, none⟩, remote_name := ⟨false, none⟩,
    remote_ebook_uid := ⟨false, none⟩, channel := ⟨false, none⟩, free_text := ⟨false, none⟩,
    group_uid := ⟨false, none⟩, service := ⟨false, none⟩, event_type := ⟨false, none⟩,
    additional_text := ⟨false, none⟩, icon_name := ⟨false, none⟩,
    pango_markup := ⟨false, none⟩, outgoing := ⟨false, false⟩ }

/-- The C idiom `RTCOM_EL_EVENT_IS_SET(ev, f) ? RTCOM_EL_EVENT_GET_FIELD(ev, f) : dflt`. -/
def Field.getD {α : Type} (f : Field α) (dflt : α) : α :=
  if f.is_set then f.value else dflt

/-! ## SQL building blocks -/

/-- SQL `col = %Q`: a comparison with NULL on either side is not true. -/
def sqlEq (col arg : Option String) : Bool :=
  match col, arg with
  | some a, some b => a == b
  | _, _ => false

/-- `g_strcmp0 (a, b) != 0`: NULL equals only NULL. -/
def g_strcmp0_differs (a b : Option String) : Bool := a != b

/-- A C boolean used as an SQL integer. -/
def b2i (b : Bool) : Int := if b then 1 else 0

/-- The rowid the engine allocates for an INTEGER PRIMARY KEY that is not
given: one more than the largest rowid in use, 1 in an empty table. -/
def nextRowid (ids : List Int) : Int :=
  match ids with
  | [] => 1
  | a :: t => t.foldl max a + 1

/-! ## Triggers on `Events` (db_schema_sql) -/

/-- Trigger `gc_update_ev_add1`, BEFORE INSERT ON Events WHEN NEW.group_uid IS
NOT NULL: `INSERT OR IGNORE INTO GroupCache (...) VALUES (0, NEW.service_id,
NEW.group_uid, 0, 0, 0)`.  The row is ignored when it collides with the UNIQUE
column `event_id` or with `UNIQUE(service_id, group_uid)`. -/
def gc_update_ev_add1 (gc : List GroupCacheRow) (new : EventRow) : List GroupCacheRow :=
  match new.group_uid with
  | none => gc
  | some g =>
    if gc.any (fun r => r.event_id == 0 || (r.service_id == new.service_id && r.group_uid == g))
    then gc
    else gc ++ [⟨0, new.service_id, g, 0, 0, 0⟩]

/-- Trigger `gc_update_ev_add4`, AFTER INSERT ON Events WHEN NEW.group_uid IS
NOT NULL: `UPDATE GroupCache SET event_id = NEW.id, total_events =
total_events + 1, read_events = read_events + NEW.is_read, flags = flags |
NEW.flags WHERE group_uid = NEW.group_uid`.  The UPDATE has the default
conflict policy ABORT: it fails with SQLITE_CONSTRAINT when `event_id` would
stop being unique, that is when it rewrites two rows, or one row while another
row already holds `NEW.id` (`GroupCache` is taken to satisfy its constraints
before the statement). -/
def gc_update_ev_add4 (gc : List GroupCacheRow) (new : EventRow) :
    Except Int (List GroupCacheRow) :=
  match new.group_uid with
  | none => .ok gc
  | some g =>
    let hit := (gc.filter (fun r => r.group_uid == g)).length
    let clash := gc.any (fun r => r.group_uid != g && r.event_id == new.id)
    if decide (2 ≤ hit) || (hit == 1 && clash) then .error SQLITE_CONSTRAINT
    else .ok (gc.map (fun r =>
      if r.group_uid == g then
        { r with event_id := new.id, total_events := r.total_events + 1,
                 read_events := r.read_events + b2i new.is_read,
                 flags := Int.lor r.flags new.flags }
      else r))

/-- Trigger `gc_update_ev_update`, AFTER UPDATE ON Events WHEN NEW.group_uid IS
NOT NULL: `UPDATE GroupCache SET read_events = read_events - OLD.is_read +
NEW.is_read, flags = (flags & (~OLD.flags)) | NEW.flags WHERE group_uid =
NEW.group_uid`. -/
def gc_update_ev_update (gc : List GroupCacheRow) (old new : EventRow) : List GroupCacheRow :=
  match new.group_uid with
  | none => gc
  | some g =>
    gc.map (fun r =>
      if r.group_uid == g then
        { r with read_events := r.read_events - b2i old.is_read + b2i new.is_read,
                 flags := Int.lor (Int.land r.flags (Int.lnot old.flags)) new.flags }
      else r)

/-- Trigger `fkd_headers_atts_event_id`, BEFORE DELETE ON Events: delete the
headers and attachments of the event. -/
def fkd_headers_atts_event_id (t : Tables) (old : EventRow) : Tables :=
  { t with Headers := t.Headers.filter (fun h => h.event_id != old.id),
           Attachments := t.Attachments.filter (fun a => a.event_id != old.id) }

/-! ## Statements of the event store (eventlogger.c) -/

/-- `INSERT INTO Events (service_id, ..., group_uid) VALUES (...)` with its two
triggers; `row.id` is ignored, the engine allocates it.  Yields
`sqlite3_last_insert_rowid`. -/
def sqlInsertEvent (row : EventRow) : Tables → Except Int (Tables × Int) := fun t =>
  let new := { row with id := nextRowid (t.Events.map (fun e => e.id)) }
  match gc_update_ev_add4 (gc_update_ev_add1 t.GroupCache new) new with
  | .error c => .error c
  | .ok gc => .ok ({ t with Events := t.Events ++ [new], GroupCache := gc }, new.id)

/-- The struct `remotes_ctx`. -/
structure remotes_ctx where
  «exists» : Bool
  abook_uid : Option String
  remote_name : Option String
deriving DecidableEq, Repr

/-- `_fetch_remote_data`, the row callback of `SELECT abook_uid, remote_name
FROM Remotes ...`.  It reads result columns 1 and 2 of a two-column row:
column 1 is `remote_name`, column 2 does not exist and reads as NULL. -/
def _fetch_remote_data (row : RemoteRow) : remotes_ctx :=
  { «exists» := true, abook_uid := row.remote_name, remote_name := none }

/-- `SELECT abook_uid, remote_name FROM Remotes WHERE remote_uid = %Q AND
local_uid = %Q;` with `_fetch_remote_data` called on every row. -/
def sqlSelectRemote (remote_uid local_uid : Option String) :
    Tables → Except Int (Tables × remotes_ctx) := fun t =>
  .ok (t, (t.Remotes.filter (fun r =>
      sqlEq (some r.remote_uid) remote_uid && sqlEq (some r.local_uid) local_uid)).foldl
    (fun _ r => _fetch_remote_data r) ⟨false, none, none⟩)

/-- `INSERT INTO Remotes (local_uid, remote_uid, remote_name, abook_uid)
VALUES (%Q, %Q, %Q, %Q);` under NOT NULL and `UNIQUE(local_uid, remote_uid)`. -/
def sqlInsertRemote (local_uid remote_uid remote_name abook_uid : Option String) :
    Tables → Except Int (Tables × Unit) := fun t =>
  match local_uid, remote_uid with
  | some l, some r =>
    if t.Remotes.any (fun x => x.local_uid == l && x.remote_uid == r) then
      .error SQLITE_CONSTRAINT
    else .ok ({ t with Remotes := t.Remotes ++ [⟨l, r, remote_name, abook_uid⟩] }, ())
  | _, _ => .error SQLITE_CONSTRAINT

/-- `UPDATE Remotes SET abook_uid = %Q WHERE remote_uid = %Q AND local_uid = %Q;` -/
def sqlUpdateRemoteAbook (abook_uid remote_uid local_uid : Option String) :
    Tables → Except Int (Tables × Unit) := fun t =>
  .ok ({ t with Remotes := t.Remotes.map (fun r =>
      if sqlEq (some r.remote_uid) remote_uid && sqlEq (some r.local_uid) local_uid then
        { r with abook_uid := abook_uid } else r) }, ())

/-- `UPDATE Remotes SET remote_name = %Q WHERE remote_uid = %Q AND local_uid = %Q;` -/
def sqlUpdateRemoteName (remote_name remote_uid local_uid : Option String) :
    Tables → Except Int (Tables × Unit) := fun t =>
  .ok ({ t with Remotes := t.Remotes.map (fun r =>
      if sqlEq (some r.remote_uid) remote_uid && sqlEq (some r.local_uid) local_uid then
        { r with remote_name := remote_name } else r) }, ())

/-! ## The logger object and event insertion (eventlogger.c) -/

/-- The struct `_RTComElPrivate`.  `opened` says that `priv->db` is not NULL;
`services` and `event_types` are the name-to-id hash tables filled by
`_build_db_representation`. -/
structure RTComEl where
  opened : Bool
  db : Conn
  services : List (String × Int)
  event_types : List (String × Int)
  last_group_uid : Option String

/-- `_ensure_db`: TRUE at once when the handle is open.  Opening a database is
outside this model; a logger without a handle stays without one. -/
def _ensure_db (el : RTComEl) : Bool := el.opened

/-- The shared body of `rtcom_el_get_service_id` and
`rtcom_el_get_eventtype_id`: `p = g_hash_table_lookup (table, name); if (!p)
return -1; return GPOINTER_TO_INT (p);`.  An id stored as 0 is a NULL pointer
and reads as not found.  The tables hash their keys with `g_str_hash`, which
dereferences the name: for a NULL name the source does not return.  The model
has no value for that run; the -1 below stands in for it, and the statements
about a lookup are made for names that are not NULL. -/
def lookupId (table : List (String × Int)) (name : Option String) : Int :=
  match name with
  | none => -1
  | some s =>
    match table.lookup s with
    | none => -1
    | some p => if p == 0 then -1 else p

def rtcom_el_get_service_id (el : RTComEl) (service : Option String) : Int :=
  lookupId el.services service

def rtcom_el_get_eventtype_id (el : RTComEl) (eventtype : Option String) : Int :=
  lookupId el.event_types eventtype

/-- The backwards-compatibility block of `_add_event_precheck`. -/
def rewriteLegacyEventType (ev : RTComElEvent) : RTComElEvent :=
  let eventtype := ev.event_type.value
  if eventtype == some "RTCOM_EL_EVENTTYPE_CHAT_INBOUND" then
    { ev with event_type := Field.set (some "RTCOM_EL_EVENTTYPE_CHAT_MESSAGE") }
  else if eventtype == some "RTCOM_EL_EVENTTYPE_CHAT_OUTBOUND" then
    { ev with event_type := Field.set (some "RTCOM_EL_EVENTTYPE_CHAT_MESSAGE"),
              outgoing := Field.set true }
  else if eventtype == some "RTCOM_EL_EVENTTYPE_SMS_INBOUND" then
    { ev with event_type := Field.set (some "RTCOM_EL_EVENTTYPE_SMS_MESSAGE") }
  else if eventtype == some "RTCOM_EL_EVENTTYPE_SMS_OUTBOUND" then
    { ev with event_type := Field.set (some "RTCOM_EL_EVENTTYPE_SMS_MESSAGE"),
              outgoing := Field.set true }
  else ev

/-- What `_add_event_precheck` hands back: its return value, the error it set,
the two out-parameters and the event, which it may have rewritten. -/
structure Precheck where
  ok : Bool
  error : Option RTComElError
  service_id : Int
  eventtype_id : Int
  ev : RTComElEvent

/-- `_add_event_precheck`.  (`el` and `ev` are never NULL here.) -/
def _add_event_precheck (el : RTComEl) (ev : RTComElEvent) : Precheck :=
  if !_ensure_db el then ⟨false, some RTCOM_EL_INTERNAL_ERROR, 0, 0, ev⟩
  else if !ev.service.is_set then ⟨false, some RTCOM_EL_INVALID_ARGUMENT_ERROR, 0, 0, ev⟩
  else if !ev.event_type.is_set then ⟨false, some RTCOM_EL_INVALID_ARGUMENT_ERROR, 0, 0, ev⟩
  else if !ev.local_uid.is_set then ⟨false, some RTCOM_EL_INVALID_ARGUMENT_ERROR, 0, 0, ev⟩
  else
    let service_id := rtcom_el_get_service_id el ev.service.value
    if service_id == -1 then ⟨false, some RTCOM_EL_INVALID_ARGUMENT_ERROR, service_id, 0, ev⟩
    else
      let ev1 := rewriteLegacyEventType ev
      let eventtype_id := rtcom_el_get_eventtype_id el ev1.event_type.value
      if eventtype_id == -1 then
        ⟨false, some RTCOM_EL_INVALID_ARGUMENT_ERROR, service_id, eventtype_id, ev1⟩
      else if !el.opened then
        ⟨false, some RTCOM_EL_INTERNAL_ERROR, service_id, eventtype_id, ev1⟩
      else ⟨true, none, service_id, eventtype_id, ev1⟩

/-- The values `_add_event_core` passes to `INSERT INTO Events`; `now` is
`time(NULL)`.  The `id` is a placeholder, the engine allocates it. -/
def eventRowOf (el : RTComEl) (ev : RTComElEvent) (service_id eventtype_id now : Int) :
    EventRow :=
  { id := 0, service_id := service_id, event_type_id := eventtype_id, storage_time := now,
    start_time := ev.start_time.getD 0, end_time := ev.end_time.getD 0,
    is_read := ev.is_read.getD false, outgoing := ev.outgoing.getD false,
    flags := ev.flags.getD 0, bytes_sent := ev.bytes_sent.getD 0,
    bytes_received := ev.bytes_received.getD 0,
    local_uid := ev.local_uid.getD none, local_name := ev.local_name.getD none,
    remote_uid := ev.remote_uid.getD none, channel := ev.channel.getD none,
    free_text := ev.free_text.getD none,
    group_uid := ev.group_uid.getD el.last_group_uid }

/-- The label `db_error` of `_add_event_core`: the error kind is chosen from
`sqlite3_errcode`. -/
def db_error (db : Conn) : RTComElError :=
  if db.errcode == SQLITE_FULL || db.errcode == SQLITE_IOERR then RTCOM_EL_DATABASE_FULL
  else if db.errcode == SQLITE_BUSY then RTCOM_EL_TEMPORARY_ERROR
  else RTCOM_EL_INTERNAL_ERROR

/-- The part of `_add_event_core` after the event row is in: create the Remote
row, or bring the existing one up to date. -/
def addEventRemote (db : Conn) (ev : RTComElEvent) (ctx : remotes_ctx) :
    Conn × Except RTComElError Unit :=
  if ev.remote_uid.is_set then
    if !ctx.exists then
      rtcom_el_db_exec db "INSERT INTO Remotes (local_uid, remote_uid, remote_name, abook_uid) VALUES (%Q, %Q, %Q, %Q);"
        (sqlInsertRemote ev.local_uid.value ev.remote_uid.value
          (ev.remote_name.getD none) (ev.remote_ebook_uid.getD none))
    else
      let local_uid := ev.local_uid.value
      let new_abook_uid := ev.remote_ebook_uid.getD none
      let new_remote_name := ev.remote_name.getD none
      match (if g_strcmp0_differs new_abook_uid ctx.abook_uid then
               rtcom_el_db_exec db "UPDATE Remotes SET abook_uid = %Q WHERE remote_uid = %Q AND local_uid = %Q;"
                 (sqlUpdateRemoteAbook new_abook_uid ev.remote_uid.value local_uid)
             else (db, .ok ())) with
      | (db1, .error k) => (db1, .error k)
      | (db1, .ok _) =>
        if g_strcmp0_differs new_remote_name ctx.remote_name then
          rtcom_el_db_exec db1 "UPDATE Remotes SET remote_name = %Q WHERE remote_uid = %Q AND local_uid = %Q;"
            (sqlUpdateRemoteName new_remote_name ev.remote_uid.value local_uid)
        else (db1, .ok ())
  else (db, .ok ())

/-- `_add_event_core`: yields the logger, the new event id or -1, and the
error set at `db_error`. -/
def _add_event_core (el : RTComEl) (ev : RTComElEvent) (service_id eventtype_id now : Int) :
    RTComEl × Int × Option RTComElError :=
  let el1 := if ev.group_uid.is_set then { el with last_group_uid := ev.group_uid.value } else el
  match (if ev.remote_uid.is_set then
           rtcom_el_db_exec el1.db "SELECT abook_uid, remote_name FROM Remotes WHERE remote_uid = %Q AND local_uid = %Q;"
             (sqlSelectRemote ev.remote_uid.value ev.local_uid.value)
         else (el1.db, .ok ⟨false, none, none⟩)) with
  | (db1, .error _) => ({ el1 with db := db1 }, -1, some (db_error db1))
  | (db1, .ok ctx) =>
    match rtcom_el_db_exec db1 "INSERT INTO Events (...) VALUES (...);"
        (sqlInsertEvent (eventRowOf el1 ev service_id eventtype_id now)) with
    | (db2, .error _) => ({ el1 with db := db2 }, -1, some (db_error db2))
    | (db2, .ok event_id) =>
      match addEventRemote db2 ev ctx with
      | (db3, .error _) => ({ el1 with db := db3 }, -1, some (db_error db3))
      | (db3, .ok _) => ({ el1 with db := db3 }, event_id, none)

/-- What an insertion call leaves behind: the logger, the event (which the
precheck may rewrite), the return value and the error it set. -/
structure AddResult where
  el : RTComEl
  ev : RTComElEvent
  ret : Int
  error : Option RTComElError

/-- `rtcom_el_add_event`.  (The D-Bus signal is not modelled.) -/
def rtcom_el_add_event (el : RTComEl) (ev : RTComElEvent) (now : Int) : AddResult :=
  let pc := _add_event_precheck el ev
  if !pc.ok then ⟨el, pc.ev, -1, pc.error⟩
  else
    match rtcom_el_db_transaction el.db true with
    | (db1, false, err) => ⟨{ el with db := db1 }, pc.ev, -1, err⟩
    | (db1, true, _) =>
      match _add_event_core { el with db := db1 } pc.ev pc.service_id pc.eventtype_id now with
      | (el2, event_id, err) =>
        if event_id == -1 then
          ⟨{ el2 with db := (rtcom_el_db_rollback el2.db).1 }, pc.ev, -1, err⟩
        else
          match rtcom_el_db_commit el2.db with
          | (db3, false, err3) =>
            ⟨{ el2 with db := (rtcom_el_db_rollback db3).1 }, pc.ev, -1, err3⟩
          | (db3, true, _) => ⟨{ el2 with db := db3 }, pc.ev, event_id, none⟩

/-! ## The group-cache invariant (spec, section 8) -/

/-- The events of group `g`. -/
def groupEvents (events : List EventRow) (g : String) : List EventRow :=
  events.filter (fun e => e.group_uid == some g)

/-- Bitwise OR of the flags of a list of events. -/
def flagsOr (events : List EventRow) : Int :=
  events.foldl (fun acc e => Int.lor acc e.flags) 0

/-- Number of read events in a list of events. -/
def readCount (events : List EventRow) : Int :=
  ((events.filter (fun e => e.is_read)).length : Int)

/-- `m` is the largest event id in a non-empty list of events. -/
def IsMaxId (events : List EventRow) (m : Int) : Prop :=
  (∃ e ∈ events, e.id = m) ∧ ∀ e ∈ events, e.id ≤ m

instance (events : List EventRow) (m : Int) : Decidable (IsMaxId events m) :=
  inferInstanceAs (Decidable ((∃ e ∈ events, e.id = m) ∧ ∀ e ∈ events, e.id ≤ m))

/-- The cache row `r` carries the aggregates of its group. -/
def RowAgrees (events : List EventRow) (r : GroupCacheRow) : Prop :=
  IsMaxId (groupEvents events r.group_uid) r.event_id ∧
  r.total_events = ((groupEvents events r.group_uid).length : Int) ∧
  r.read_events = readCount (groupEvents events r.group_uid) ∧
  r.flags = flagsOr (groupEvents events r.group_uid)

instance (events : List EventRow) (r : GroupCacheRow) : Decidable (RowAgrees events r) :=
  inferInstanceAs (Decidable (_ ∧ _ ∧ _ ∧ _))

/-- GroupCache equals the per-group aggregates of Events: every cache row
carries the aggregates of a group that has events, and every group that has
events has exactly one cache row. -/
def Coherent (t : Tables) : Prop :=
  (∀ r ∈ t.GroupCache, RowAgrees t.Events r) ∧
  ∀ e ∈ t.Events, ∀ g ∈ e.group_uid,
    (t.GroupCache.filter (fun r => r.group_uid == g)).length = 1

instance (t : Tables) : Decidable (Coherent t) :=
  inferInstanceAs (Decidable (_ ∧ _))

/-! ## Read mark and flags (eventlogger.c) -/

/-- `UPDATE Events SET <f> WHERE id = %d;` together with trigger
`gc_update_ev_update`, which fires once for every row the WHERE clause
selects. -/
def sqlUpdateEvent (f : EventRow → EventRow) (event_id : Int) :
    Tables → Except Int (Tables × Unit) := fun t =>
  .ok ({ t with
          Events := t.Events.map (fun e => if e.id == event_id then f e else e),
          GroupCache := (t.Events.filter (fun e => e.id == event_id)).foldl
            (fun gc e => gc_update_ev_update gc e (f e)) t.GroupCache }, ())

/-- `SELECT value FROM Flags WHERE name=%Q` with callback
`rtcom_el_db_single_int` writing into a variable that starts at -1. -/
def sqlSelectFlagValue (flag : String) : Tables → Except Int (Tables × Int) := fun t =>
  .ok (t, (t.Flags.filter (fun r => r.name == flag)).foldl (fun _ r => r.value) (-1))

/-- `rtcom_el_get_flag_value`. -/
def rtcom_el_get_flag_value (el : RTComEl) (flag : Option String) : RTComEl × Int :=
  match flag with
  | none => (el, -1)
  | some name =>
    if !_ensure_db el then (el, -1)
    else
      match rtcom_el_db_exec el.db "SELECT value FROM Flags WHERE name=%Q"
          (sqlSelectFlagValue name) with
      | (db1, .error _) => ({ el with db := db1 }, -1)
      | (db1, .ok v) => ({ el with db := db1 }, v)

/-- What a mutating call leaves behind: the logger, the return value and the
error it set. -/
structure OpResult where
  el : RTComEl
  ret : Int
  error : Option RTComElError

/-- `rtcom_el_set_read_event`; the statement stores `read == TRUE`. -/
def rtcom_el_set_read_event (el : RTComEl) (event_id : Int) (read : Bool) : OpResult :=
  if !_ensure_db el then ⟨el, -1, some RTCOM_EL_INTERNAL_ERROR⟩
  else if event_id < 1 then ⟨el, -1, some RTCOM_EL_INVALID_ARGUMENT_ERROR⟩
  else
    match rtcom_el_db_exec el.db "UPDATE Events SET is_read = %d WHERE id = %d;"
        (sqlUpdateEvent (fun e => { e with is_read := read }) event_id) with
    | (db1, .error k) => ⟨{ el with db := db1 }, -1, some k⟩
    | (db1, .ok _) => ⟨{ el with db := db1 }, 0, none⟩

/-- `rtcom_el_set_event_flag`. -/
def rtcom_el_set_event_flag (el : RTComEl) (event_id : Int) (flag : Option String) : OpResult :=
  if !_ensure_db el then ⟨el, -1, some RTCOM_EL_INTERNAL_ERROR⟩
  else if event_id < 1 then ⟨el, -1, some RTCOM_EL_INVALID_ARGUMENT_ERROR⟩
  else
    match rtcom_el_get_flag_value el flag with
    | (el1, flag_value) =>
      if flag_value == -1 then ⟨el1, -1, some RTCOM_EL_INVALID_ARGUMENT_ERROR⟩
      else
        match rtcom_el_db_exec el1.db "UPDATE Events SET flags = flags | %d WHERE id = %d;"
            (sqlUpdateEvent (fun e => { e with flags := Int.lor e.flags flag_value })
              event_id) with
        | (db1, .error k) => ⟨{ el1 with db := db1 }, -1, some k⟩
        | (db1, .ok _) => ⟨{ el1 with db := db1 }, 0, none⟩

/-- `rtcom_el_unset_event_flag`. -/
def rtcom_el_unset_event_flag (el : RTComEl) (event_id : Int) (flag : Option String) :
    OpResult :=
  if !_ensure_db el then ⟨el, -1, some RTCOM_EL_INTERNAL_ERROR⟩
  else if event_id < 1 then ⟨el, -1, some RTCOM_EL_INVALID_ARGUMENT_ERROR⟩
  else
    match rtcom_el_get_flag_value el flag with
    | (el1, flag_value) =>
      if flag_value == -1 then ⟨el1, -1, some RTCOM_EL_INVALID_ARGUMENT_ERROR⟩
      else
        match rtcom_el_db_exec el1.db "UPDATE Events SET flags = flags & ~%d WHERE id = %d;"
            (sqlUpdateEvent
              (fun e => { e with flags := Int.land e.flags (Int.lnot flag_value) })
              event_id) with
        | (db1, .error k) => ⟨{ el1 with db := db1 }, -1, some k⟩
        | (db1, .ok _) => ⟨{ el1 with db := db1 }, 0, none⟩

/-- The `while (event_ids[i])` loop of `rtcom_el_set_read_events`, entered with
the value `ret` holds so far.  The array is the list of its entries: the scan
ends at the first 0, and a list without a 0 is read as ending with one. -/
def setReadLoop (el : RTComEl) (read : Bool) (ret : Int) (error : Option RTComElError) :
    List Int → OpResult
  | [] => ⟨el, ret, error⟩
  | id :: rest =>
    if id == 0 then ⟨el, ret, error⟩
    else
      let r := rtcom_el_set_read_event el id read
      if r.ret == -1 then r else setReadLoop r.el read r.ret r.error rest

/-- `rtcom_el_set_read_events`; `none` is a NULL array.  The function returns
its local `ret`, which holds what the last `rtcom_el_set_read_event` returned
(`ret` is a `guint`: the -1 it holds as 0xFFFFFFFF is -1 again as the `gint`
that is returned). -/
def rtcom_el_set_read_events (el : RTComEl) (event_ids : Option (List Int)) (read : Bool) :
    OpResult :=
  match event_ids with
  | none => ⟨el, -1, some RTCOM_EL_INVALID_ARGUMENT_ERROR⟩
  | some [] => ⟨el, -1, some RTCOM_EL_INVALID_ARGUMENT_ERROR⟩
  | some (id :: rest) =>
    if id == 0 then ⟨el, -1, some RTCOM_EL_INVALID_ARGUMENT_ERROR⟩
    else setReadLoop el read (-1) none (id :: rest)

/-! ## Counters and group information (eventlogger.c) -/

/-- `SELECT COUNT(*) FROM Events WHERE service_id=%d;` with callback
`rtcom_el_db_single_int`. -/
def sqlCountByService (service_id : Int) : Tables → Except Int (Tables × Int) := fun t =>
  .ok (t, ((t.Events.filter (fun e => e.service_id == service_id)).length : Int))

/-- `rtcom_el_count_by_service`; `service_id` starts at -1 and both branches
format it into the same statement. -/
def rtcom_el_count_by_service (el : RTComEl) (service : Option String) : RTComEl × Int :=
  if !_ensure_db el then (el, -1)
  else
    match service with
    | some s =>
      let service_id := rtcom_el_get_service_id el (some s)
      if service_id == -1 then (el, 0)
      else
        match rtcom_el_db_exec el.db "SELECT COUNT(*) FROM Events WHERE service_id=%d;"
            (sqlCountByService service_id) with
        | (db1, .error _) => ({ el with db := db1 }, -1)
        | (db1, .ok n) => ({ el with db := db1 }, n)
    | none =>
      match rtcom_el_db_exec el.db "SELECT COUNT(*) FROM Events WHERE service_id=%d;"
          (sqlCountByService (-1)) with
      | (db1, .error _) => ({ el with db := db1 }, -1)
      | (db1, .ok n) => ({ el with db := db1 }, n)

/-- `_get_group_info_slave`: total events, unread events, group flags. -/
def _get_group_info_slave (row : GroupCacheRow) : Int × Int × Int :=
  (row.total_events, row.total_events - row.read_events, row.flags)

/-- `SELECT total_events, read_events, flags FROM GroupCache WHERE group_uid =
%Q` with `_get_group_info_slave` called on every row; `vars` starts as
`{ 0, 0, 0 }`. -/
def sqlSelectGroupInfo (group_uid : String) :
    Tables → Except Int (Tables × (Int × Int × Int)) := fun t =>
  .ok (t, (t.GroupCache.filter (fun r => r.group_uid == group_uid)).foldl
    (fun _ r => _get_group_info_slave r) (0, 0, 0))

/-- `rtcom_el_get_group_info`: the return value and, when it is TRUE, what the
three out-parameters `total_events`, `unread_events` and `group_flags`
receive. -/
def rtcom_el_get_group_info (el : RTComEl) (group_uid : Option String) :
    RTComEl × Bool × Option (Int × Int × Int) :=
  match group_uid with
  | none => (el, false, none)
  | some g =>
    if !_ensure_db el then (el, false, none)
    else
      match rtcom_el_db_exec el.db "SELECT total_events, read_events, flags FROM GroupCache WHERE group_uid = %Q"
          (sqlSelectGroupInfo g) with
      | (db1, .error _) => ({ el with db := db1 }, false, none)
      | (db1, .ok vars) => ({ el with db := db1 }, true, some vars)

/-! ## Deletion and the repair of the group cache (eventlogger.c) -/

/-- The character `'`. -/
def quoteChar : Char := Char.ofNat 39

/-- The `while (li != NULL)` loop of `update_group_cache` over the nodes from
`li` on, with the text `tmp` built so far.  One iteration reads `li->next` and
`li->data`, appends a non-NULL uid as `'%s'`, followed by a comma when the node
has a successor, and then calls `g_slist_free (li)`, which releases the node and
every node after it.  `released` says that the nodes from `li` on have been
released by an earlier iteration: reading one of them is undefined behaviour,
for which the model has no value (`none`).  Testing `li != NULL` reads no
node. -/
def groupUidLoop (tmp : String) (released : Bool) : List (Option String) → Option String
  | [] => some tmp
  | data :: n =>
    if released then none
    else
      groupUidLoop
        (match data with
         | none => tmp
         | some g =>
           tmp ++ String.singleton quoteChar ++ g ++ String.singleton quoteChar ++
             (if n.isEmpty then "" else ","))
        true n

/-- The IN list that `update_group_cache` renders for the list `li`; `none`
when the loop reads a released node. -/
def groupUidInList (li : List (Option String)) : Option String :=
  groupUidLoop "" false li

/-- The statement text `update_group_cache` builds around the IN list. -/
def updateGroupCacheSql (inList : String) : String :=
  "INSERT OR REPLACE INTO GroupCache SELECT MAX(id), service_id, group_uid, COUNT(*), SUM(is_read), SUM(flags) FROM Events WHERE group_uid IN (" ++
    inList ++ ") GROUP BY group_uid;"

/-- Scanner states for the text between the parentheses of an IN list. -/
inductive LitState where
  | expectLit (first : Bool)
  | inLit (cur : List Char)
  | quoteSeen (cur : List Char)

/-- Reads the text between the parentheses of `IN (...)` as the engine's
tokenizer does for a list of string literals: nothing at all, or literals in
single quotes (a doubled quote stands for one quote) separated by single
commas.  `none` is a syntax error.  Texts that are valid SQL of another shape
(a uid that closes the parenthesis and goes on) are outside this model and
count as errors. -/
def scanInList : LitState → List String → List Char → Option (List String)
  | .expectLit first, acc, [] => if first then some acc.reverse else none
  | .expectLit _, acc, c :: cs =>
    if c == quoteChar then scanInList (.inLit []) acc cs else none
  | .inLit _, _, [] => none
  | .inLit cur, acc, c :: cs =>
    if c == quoteChar then scanInList (.quoteSeen cur) acc cs
    else scanInList (.inLit (c :: cur)) acc cs
  | .quoteSeen cur, acc, [] => some ((String.mk cur.reverse :: acc).reverse)
  | .quoteSeen cur, acc, c :: cs =>
    if c == quoteChar then scanInList (.inLit (c :: cur)) acc cs
    else if c == ',' then scanInList (.expectLit false) (String.mk cur.reverse :: acc) cs
    else none

/-- The event with the largest id among `e :: rest`. -/
def newestEvent (e : EventRow) (rest : List EventRow) : EventRow :=
  rest.foldl (fun best x => if best.id < x.id then x else best) e

/-- One result row of `SELECT MAX(id), service_id, group_uid, COUNT(*),
SUM(is_read), SUM(flags) FROM Events ... GROUP BY group_uid` for the non-empty
group `e :: rest`.  The bare column `service_id` is taken from the row that
holds the maximum, as the engine does for a query with a single MAX. -/
def groupAggregate (g : String) (e : EventRow) (rest : List EventRow) : GroupCacheRow :=
  { event_id := (newestEvent e rest).id,
    service_id := (newestEvent e rest).service_id,
    group_uid := g,
    total_events := ((e :: rest).length : Int),
    read_events := ((e :: rest).map (fun x => b2i x.is_read)).sum,
    flags := ((e :: rest).map (fun x => x.flags)).sum }

/-- `INSERT OR REPLACE INTO GroupCache`: rows that collide with the new row on
`event_id` or on `(service_id, group_uid)` are deleted, then the row goes in. -/
def insertOrReplaceGroupCache (gc : List GroupCacheRow) (n : GroupCacheRow) :
    List GroupCacheRow :=
  gc.filter (fun r => !(r.event_id == n.event_id ||
      (r.service_id == n.service_id && r.group_uid == n.group_uid))) ++ [n]

/-- The statement of `updateGroupCacheSql`, for the literals read from its IN
list: one aggregate row for every listed group that has events. -/
def sqlRepairGroupCache (inList : String) : Tables → Except Int (Tables × Unit) := fun t =>
  match scanInList (.expectLit true) [] inList.toList with
  | none => .error SQLITE_ERROR
  | some lits =>
    let gc := lits.eraseDups.foldl (fun gc g =>
      match groupEvents t.Events g with
      | [] => gc
      | e :: rest => insertOrReplaceGroupCache gc (groupAggregate g e rest)) t.GroupCache
    .ok ({ t with GroupCache := gc }, ())

/-- `DELETE FROM GroupCache WHERE NOT EXISTS (SELECT id FROM Events WHERE
events.group_uid = groupcache.group_uid LIMIT 1)`. -/
def sqlClearEmptyGroups : Tables → Except Int (Tables × Unit) := fun t =>
  let gc := t.GroupCache.filter (fun r => t.Events.any (fun e => e.group_uid == some r.group_uid))
  .ok ({ t with GroupCache := gc }, ())

/-- `DELETE FROM GroupCache WHERE service_id=%d;` -/
def sqlDeleteGroupCacheByService (service_id : Int) : Tables → Except Int (Tables × Unit) :=
  fun t => .ok ({ t with GroupCache := t.GroupCache.filter (fun r => r.service_id != service_id) }, ())

/-- `DELETE FROM GroupCache WHERE group_uid=%Q;` -/
def sqlDeleteGroupCacheByGroup (g : String) : Tables → Except Int (Tables × Unit) :=
  fun t => .ok ({ t with GroupCache := t.GroupCache.filter (fun r => r.group_uid != g) }, ())

/-- `DELETE FROM Events WHERE <p>` with trigger `fkd_headers_atts_event_id`. -/
def sqlDeleteEvents (p : EventRow → Bool) : Tables → Except Int (Tables × Unit) := fun t =>
  let t1 := (t.Events.filter p).foldl fkd_headers_atts_event_id t
  .ok ({ t1 with Events := t.Events.filter (fun e => !p e) }, ())

/-- `SELECT DISTINCT(group_uid) FROM Events WHERE <p>` with callback
`get_group_uid_slave`, which prepends each result to the list. -/
def sqlSelectGroupUids (p : EventRow → Bool) :
    Tables → Except Int (Tables × List (Option String)) := fun t =>
  .ok (t, (((t.Events.filter p).map (fun e => e.group_uid)).eraseDups).reverse)

/-- `get_event_group_uids` for a single event (`event_id > 0`); a failed
statement yields NULL, the empty list. -/
def get_event_group_uids (db : Conn) (event_id : Int) : Conn × List (Option String) :=
  if 0 < event_id then
    match rtcom_el_db_exec db "SELECT DISTINCT(group_uid) FROM Events WHERE id=%d;"
        (sqlSelectGroupUids (fun e => e.id == event_id)) with
    | (db1, .error _) => (db1, [])
    | (db1, .ok li) => (db1, li)
  else (db, [])

/-- `update_group_cache`: nothing for the empty list; otherwise the loop that
renders the IN list, the repair statement, whose failure is reported, then the
clean-up statement, whose result is ignored.  `none` when the loop reads a
released node: the run has undefined behaviour. -/
def update_group_cache (db : Conn) (li : List (Option String)) : Option (Conn × Bool) :=
  if li.isEmpty then some (db, true)
  else
    match groupUidInList li with
    | none => none
    | some inList =>
      match rtcom_el_db_exec db (updateGroupCacheSql inList) (sqlRepairGroupCache inList) with
      | (db1, .error _) => some (db1, false)
      | (db1, .ok _) =>
        some ((rtcom_el_db_exec db1 "DELETE FROM GroupCache WHERE NOT EXISTS (SELECT id FROM Events WHERE events.group_uid = groupcache.group_uid LIMIT 1)"
            sqlClearEmptyGroups).1, true)

/-- `PRAGMA journal_mode = ...;` issued with its result ignored.  The journal
mode itself is not modelled. -/
def pragmaJournalMode (db : Conn) (mode : String) : Conn :=
  (rtcom_el_db_exec db ("PRAGMA journal_mode = " ++ mode ++ ";") runNothing).1

/-- The error exit shared by the deletion functions: roll back and restore the
journal mode.  The return value and the error are what the source sets.  The
tables are those of `rtcom_el_db_rollback`, the snapshot of BEGIN; every
deletion function has issued `PRAGMA journal_mode = OFF;` before, and with the
journal off the engine leaves the effect of ROLLBACK undefined, so the tables
after a failed deletion are not those of the program and no statement of this
development reads them. -/
def deleteFailed (el : RTComEl) (db : Conn) (ret : Int) (error : Option RTComElError) :
    OpResult :=
  ⟨{ el with db := pragmaJournalMode (rtcom_el_db_rollback db).1 "TRUNCATE" }, ret, error⟩

/-- `rtcom_el_delete_event`: 0 on success, -1 on failure; `none` when
`update_group_cache` reads a released list node. -/
def rtcom_el_delete_event (el : RTComEl) (event_id : Int) : Option OpResult :=
  if !_ensure_db el then some ⟨el, -1, some RTCOM_EL_INTERNAL_ERROR⟩
  else if event_id < 1 then some ⟨el, -1, some RTCOM_EL_INVALID_ARGUMENT_ERROR⟩
  else
    let db0 := pragmaJournalMode el.db "OFF"
    match rtcom_el_db_transaction db0 false with
    | (db1, false, _) => some (deleteFailed el db1 (-1) (some RTCOM_EL_INTERNAL_ERROR))
    | (db1, true, _) =>
      match get_event_group_uids db1 event_id with
      | (db2, li) =>
        match rtcom_el_db_exec db2 "DELETE FROM Events WHERE id=%d;"
            (sqlDeleteEvents (fun e => e.id == event_id)) with
        | (db3, .error _) => some (deleteFailed el db3 (-1) (some RTCOM_EL_INTERNAL_ERROR))
        | (db3, .ok _) =>
          match update_group_cache db3 li with
          | none => none
          | some (db4, false) =>
            some (deleteFailed el db4 (-1) (some RTCOM_EL_INTERNAL_ERROR))
          | some (db4, true) =>
            match rtcom_el_db_commit db4 with
            | (db5, false, _) =>
              some (deleteFailed el db5 (-1) (some RTCOM_EL_INTERNAL_ERROR))
            | (db5, true, _) =>
              some ⟨{ el with db := pragmaJournalMode db5 "TRUNCATE" }, 0, none⟩

/-- `rtcom_el_delete_by_service`: 1 (TRUE) on success, 0 (FALSE) on failure. -/
def rtcom_el_delete_by_service (el : RTComEl) (service : Option String) : OpResult :=
  if !_ensure_db el then ⟨el, 0, none⟩
  else
    let service_id := rtcom_el_get_service_id el service
    if service_id == -1 then ⟨el, 0, none⟩
    else
      let db0 := pragmaJournalMode el.db "OFF"
      match rtcom_el_db_transaction db0 false with
      | (db1, false, _) => deleteFailed el db1 0 none
      | (db1, true, _) =>
        match rtcom_el_db_exec db1 "DELETE FROM Events WHERE service_id=%d;"
            (sqlDeleteEvents (fun e => e.service_id == service_id)) with
        | (db2, .error _) => deleteFailed el db2 0 none
        | (db2, .ok _) =>
          match rtcom_el_db_exec db2 "DELETE FROM GroupCache WHERE service_id=%d;"
              (sqlDeleteGroupCacheByService service_id) with
          | (db3, .error _) => deleteFailed el db3 0 none
          | (db3, .ok _) =>
            match rtcom_el_db_commit db3 with
            | (db4, false, _) => deleteFailed el db4 0 none
            | (db4, true, _) => ⟨{ el with db := pragmaJournalMode db4 "TRUNCATE" }, 1, none⟩

/-- The loop of `rtcom_el_delete_by_group_uids`: for each uid delete its events,
then its cache rows; stop at the first failing statement. -/
def deleteGroupsLoop (db : Conn) : List String → Conn × Bool
  | [] => (db, true)
  | g :: rest =>
    match rtcom_el_db_exec db "DELETE FROM Events WHERE group_uid=%Q;"
        (sqlDeleteEvents (fun e => e.group_uid == some g)) with
    | (db1, .error _) => (db1, false)
    | (db1, .ok _) =>
      match rtcom_el_db_exec db1 "DELETE FROM GroupCache WHERE group_uid=%Q;"
          (sqlDeleteGroupCacheByGroup g) with
      | (db2, .error _) => (db2, false)
      | (db2, .ok _) => deleteGroupsLoop db2 rest

/-- `rtcom_el_delete_by_group_uids` for a non-NULL, NULL-terminated array. -/
def rtcom_el_delete_by_group_uids (el : RTComEl) (group_uids : List String) : OpResult :=
  if !_ensure_db el then ⟨el, 0, none⟩
  else
    let db0 := pragmaJournalMode el.db "OFF"
    match rtcom_el_db_transaction db0 false with
    | (db1, false, _) => deleteFailed el db1 0 none
    | (db1, true, _) =>
      match deleteGroupsLoop db1 group_uids with
      | (db2, false) => deleteFailed el db2 0 none
      | (db2, true) =>
        match rtcom_el_db_commit db2 with
        | (db3, false, _) => deleteFailed el db3 0 none
        | (db3, true, _) => ⟨{ el with db := pragmaJournalMode db3 "TRUNCATE" }, 1, none⟩

/-- `rtcom_el_delete_all`: `DELETE FROM Events;` and nothing else. -/
def rtcom_el_delete_all (el : RTComEl) : OpResult :=
  if !_ensure_db el then ⟨el, 0, none⟩
  else
    let db0 := pragmaJournalMode el.db "OFF"
    match rtcom_el_db_transaction db0 false with
    | (db1, false, _) => deleteFailed el db1 0 none
    | (db1, true, _) =>
      match rtcom_el_db_exec db1 "DELETE FROM Events;" (sqlDeleteEvents (fun _ => true)) with
      | (db2, .error _) => deleteFailed el db2 0 none
      | (db2, .ok _) =>
        match rtcom_el_db_commit db2 with
        | (db3, false, _) => deleteFailed el db3 0 none
        | (db3, true, _) => ⟨{ el with db := pragmaJournalMode db3 "TRUNCATE" }, 1, none⟩

/-! ## Headers, attachments and `rtcom_el_add_event_full` (eventlogger.c) -/

/-- `INSERT INTO Headers (event_id, name, value) VALUES (%d, %Q, %Q);` under
`UNIQUE(event_id, name)`; yields `sqlite3_last_insert_rowid`. -/
def sqlInsertHeader (event_id : Int) (name value : String) :
    Tables → Except Int (Tables × Int) := fun t =>
  if t.Headers.any (fun h => h.event_id == event_id && h.name == name) then
    .error SQLITE_CONSTRAINT
  else
    let id := nextRowid (t.Headers.map (fun h => h.id))
    .ok ({ t with Headers := t.Headers ++ [⟨id, event_id, name, value⟩] }, id)

/-- `rtcom_el_add_header`: the id of the new header, or -1. -/
def rtcom_el_add_header (el : RTComEl) (event_id : Int) (header value : Option String) :
    OpResult :=
  if event_id < 1 then ⟨el, -1, some RTCOM_EL_INVALID_ARGUMENT_ERROR⟩
  else
    match header, value with
    | none, _ => ⟨el, -1, some RTCOM_EL_INVALID_ARGUMENT_ERROR⟩
    | some _, none => ⟨el, -1, some RTCOM_EL_INVALID_ARGUMENT_ERROR⟩
    | some h, some v =>
      if !_ensure_db el then ⟨el, -1, some RTCOM_EL_INTERNAL_ERROR⟩
      else
        match rtcom_el_db_exec el.db "INSERT INTO Headers (event_id, name, value) VALUES (%d, %Q, %Q);"
            (sqlInsertHeader event_id h v) with
        | (db1, .error k) => ⟨{ el with db := db1 }, -1, some k⟩
        | (db1, .ok header_id) => ⟨{ el with db := db1 }, header_id, none⟩

/-- `INSERT INTO Attachments (event_id, path, desc) VALUES (%d, %Q, %Q);` -/
def sqlInsertAttachment (event_id : Int) (path : String) (desc : Option String) :
    Tables → Except Int (Tables × Int) := fun t =>
  let id := nextRowid (t.Attachments.map (fun a => a.id))
  .ok ({ t with Attachments := t.Attachments ++ [⟨id, event_id, path, desc⟩] }, id)

/-- `rtcom_el_add_attachment`.  The work on the file system (creating the
directories, copying the file) is an input: `copied` is the destination path
when it all succeeds and `none` when any step of it fails. -/
def rtcom_el_add_attachment (el : RTComEl) (event_id : Int) (path desc : Option String)
    (copied : Option String) : OpResult :=
  if !_ensure_db el then ⟨el, -1, some RTCOM_EL_INTERNAL_ERROR⟩
  else if event_id < 0 then ⟨el, -1, some RTCOM_EL_INVALID_ARGUMENT_ERROR⟩
  else
    match path with
    | none => ⟨el, -1, some RTCOM_EL_INVALID_ARGUMENT_ERROR⟩
    | some _ =>
      match copied with
      | none => ⟨el, -1, some RTCOM_EL_INTERNAL_ERROR⟩
      | some dest_path =>
        match rtcom_el_db_exec el.db "INSERT INTO Attachments (event_id, path, desc) VALUES (%d, %Q, %Q);"
            (sqlInsertAttachment event_id dest_path desc) with
        | (db1, .error k) => ⟨{ el with db := db1 }, -1, some k⟩
        | (db1, .ok attachment_id) => ⟨{ el with db := db1 }, attachment_id, none⟩

/-- The struct `_RTComElAttachment`. -/
structure RTComElAttachment where
  id : Int
  event_id : Int
  path : Option String
  desc : Option String
deriving DecidableEq, Repr

/-- The attachment loop of `rtcom_el_add_event_full`; each attachment comes
with the outcome of its file copy.  Stops at the first failure. -/
def addAttachments (el : RTComEl) (event_id : Int) :
    List (RTComElAttachment × Option String) → RTComEl × Bool × Option RTComElError
  | [] => (el, true, none)
  | (att, copied) :: rest =>
    let r := rtcom_el_add_attachment el event_id att.path att.desc copied
    if r.ret == -1 then (r.el, false, r.error) else addAttachments r.el event_id rest

/-- The header loop of `rtcom_el_add_event_full` over the entries of the hash
table, in the order the iterator yields them.  Stops at the first failure. -/
def addHeaders (el : RTComEl) (event_id : Int) :
    List (String × Option String) → RTComEl × Bool × Option RTComElError
  | [] => (el, true, none)
  | (hk, hv) :: rest =>
    let r := rtcom_el_add_header el event_id (some hk) hv
    if r.ret == -1 then (r.el, false, r.error) else addHeaders r.el event_id rest

/-- `rtcom_el_add_event_full`.  (The D-Bus signal is not modelled.) -/
def rtcom_el_add_event_full (el : RTComEl) (ev : RTComElEvent)
    (headers : List (String × Option String))
    (attachments : List (RTComElAttachment × Option String)) (now : Int) : AddResult :=
  let pc := _add_event_precheck el ev
  if !pc.ok then ⟨el, pc.ev, -1, pc.error⟩
  else
    match rtcom_el_db_transaction el.db true with
    | (db1, false, err) => ⟨{ el with db := db1 }, pc.ev, -1, err⟩
    | (db1, true, _) =>
      match _add_event_core { el with db := db1 } pc.ev pc.service_id pc.eventtype_id now with
      | (el2, event_id, err) =>
        if event_id == -1 then
          ⟨{ el2 with db := (rtcom_el_db_rollback el2.db).1 }, pc.ev, -1, err⟩
        else
          match addAttachments el2 event_id attachments with
          | (el3, false, err3) =>
            ⟨{ el3 with db := (rtcom_el_db_rollback el3.db).1 }, pc.ev, -1, err3⟩
          | (el3, true, _) =>
            match addHeaders el3 event_id headers with
            | (el4, false, err4) =>
              ⟨{ el4 with db := (rtcom_el_db_rollback el4.db).1 }, pc.ev, -1, err4⟩
            | (el4, true, _) =>
              match rtcom_el_db_commit el4.db with
              | (db5, false, err5) =>
                ⟨{ el4 with db := (rtcom_el_db_rollback db5).1 }, pc.ev, -1, err5⟩
              | (db5, true, _) => ⟨{ el4 with db := db5 }, pc.ev, event_id, none⟩

/-! ## The query compiler (db.c, eventlogger-query.c) -/

/-- The GLib fundamental types the `fields` table uses; `G_TYPE_INVALID` (0) is
what a failed lookup in the `typing` hash table converts to. -/
inductive GType where
  | G_TYPE_INVALID
  | G_TYPE_INT
  | G_TYPE_BOOLEAN
  | G_TYPE_STRING
deriving DecidableEq, Repr

open GType

/-- The struct `EventField`. -/
structure EventField where
  name : String
  type : GType
  column : String
deriving DecidableEq, Repr

/-- The table `fields` of db.c. -/
def fields : List EventField :=
  [ ⟨"service", G_TYPE_STRING, "Services.name"⟩,
    ⟨"event-type", G_TYPE_STRING, "EventTypes.name"⟩,
    ⟨"id", G_TYPE_INT, "Events.id"⟩,
    ⟨"service-id", G_TYPE_INT, "Events.service_id"⟩,
    ⟨"event-type-id", G_TYPE_INT, "Events.event_type_id"⟩,
    ⟨"storage-time", G_TYPE_INT, "Events.storage_time"⟩,
    ⟨"start-time", G_TYPE_INT, "Events.start_time"⟩,
    ⟨"end-time", G_TYPE_INT, "Events.end_time"⟩,
    ⟨"flags", G_TYPE_INT, "Events.flags"⟩,
    ⟨"is-read", G_TYPE_BOOLEAN, "Events.is_read"⟩,
    ⟨"bytes-sent", G_TYPE_INT, "Events.bytes_sent"⟩,
    ⟨"bytes-received", G_TYPE_INT, "Events.bytes_received"⟩,
    ⟨"local-uid", G_TYPE_STRING, "Events.local_uid"⟩,
    ⟨"local-name", G_TYPE_STRING, "Events.local_name"⟩,
    ⟨"group-uid", G_TYPE_STRING, "Events.group_uid"⟩,
    ⟨"remote-ebook-uid", G_TYPE_STRING, "Remotes.abook_uid"⟩,
    ⟨"remote-uid", G_TYPE_STRING, "Remotes.remote_uid"⟩,
    ⟨"remote-name", G_TYPE_STRING, "Remotes.remote_name"⟩,
    ⟨"message-token", G_TYPE_STRING, "Headers.value"⟩,
    ⟨"channel", G_TYPE_STRING, "Events.channel"⟩,
    ⟨"outgoing", G_TYPE_BOOLEAN, "Events.outgoing"⟩,
    ⟨"free-text", G_TYPE_STRING, "Events.free_text"⟩ ]

/-- The macro `UNIQUE_REMOTE`. -/
def UNIQUE_REMOTE : String :=
  " CASE abook_uid IS NOT NULL WHEN 1 THEN ('ab:' || abook_uid) ELSE ('lr:' || Events.local_uid || ';' || Events.remote_uid) END AS unique_remote "

/-- The `selection` string of `rtcom_el_db_schema_get_mappings`:
`g_strjoinv (", ", ...)` over the columns of `fields` and `UNIQUE_REMOTE`. -/
def selection : String :=
  String.intercalate ", " (fields.map (fun f => f.column) ++ [UNIQUE_REMOTE])

/-- Lookup in the `typing` hash table, converted with `GPOINTER_TO_UINT`. -/
def typingLookup (key : String) : GType :=
  match fields.find? (fun f => f.name == key) with
  | some f => f.type
  | none => G_TYPE_INVALID

/-- Lookup in the `mapping` hash table, printed with `%s`. -/
def mappingLookup (key : String) : String :=
  match fields.find? (fun f => f.name == key) with
  | some f => f.column
  | none => "(null)"

/-- The enum `RTComElOp`. -/
inductive RTComElOp where
  | RTCOM_EL_OP_EQUAL
  | RTCOM_EL_OP_NOT_EQUAL
  | RTCOM_EL_OP_GREATER
  | RTCOM_EL_OP_GREATER_EQUAL
  | RTCOM_EL_OP_LESS
  | RTCOM_EL_OP_LESS_EQUAL
  | RTCOM_EL_OP_IN_STRV
  | RTCOM_EL_OP_STR_ENDS_WITH
  | RTCOM_EL_OP_STR_LIKE
deriving DecidableEq, Repr

open RTComElOp

/-- `_build_operator`; `none` is the NULL of `g_return_val_if_reached`. -/
def _build_operator : RTComElOp → Option String
  | RTCOM_EL_OP_EQUAL => some "="
  | RTCOM_EL_OP_NOT_EQUAL => some "<>"
  | RTCOM_EL_OP_GREATER => some ">"
  | RTCOM_EL_OP_GREATER_EQUAL => some ">="
  | RTCOM_EL_OP_LESS => some "<"
  | RTCOM_EL_OP_LESS_EQUAL => some "<="
  | RTCOM_EL_OP_IN_STRV => none
  | RTCOM_EL_OP_STR_ENDS_WITH => none
  | RTCOM_EL_OP_STR_LIKE => none

/-- The escaping shared by `%q` and `%Q` of `sqlite3_mprintf`: every single
quote is doubled. -/
def doubleQuotes : List Char → List Char
  | [] => []
  | c :: cs => if c == quoteChar then quoteChar :: quoteChar :: doubleQuotes cs
               else c :: doubleQuotes cs

/-- `sqlite3_mprintf ("%q", s)`. -/
def mprintf_q (s : Option String) : String :=
  match s with
  | none => "(NULL)"
  | some v => String.mk (doubleQuotes v.toList)

/-- `sqlite3_mprintf ("%Q", s)`. -/
def mprintf_Q (s : Option String) : String :=
  match s with
  | none => "NULL"
  | some v => String.mk (quoteChar :: doubleQuotes v.toList ++ [quoteChar])

/-- The `gpointer val` of a predicate, by what the caller put into it. -/
inductive QueryVal where
  | int (v : Int)
  | str (s : Option String)
  | strv (l : List String)
deriving DecidableEq, Repr

/-- `GPOINTER_TO_UINT (val)` as printed by `%d`.  The address of a string is
not modelled: it reads as 0, as the NULL pointer does. -/
def QueryVal.toInt : QueryVal → Int
  | .int v => v
  | _ => 0

/-- `(gchar *) val`; an integer read as a string pointer is not modelled and
reads as NULL. -/
def QueryVal.toStr : QueryVal → Option String
  | .str s => s
  | _ => none

/-- `(gchar **) val`; anything but a string vector reads as the empty vector. -/
def QueryVal.toStrv : QueryVal → List String
  | .strv l => l
  | _ => []

/-- The enum `RTComElQueryGroupBy`. -/
inductive RTComElQueryGroupBy where
  | RTCOM_EL_QUERY_GROUP_BY_NONE
  | RTCOM_EL_QUERY_GROUP_BY_CONTACT
  | RTCOM_EL_QUERY_GROUP_BY_UIDS
  | RTCOM_EL_QUERY_GROUP_BY_GROUP
deriving DecidableEq, Repr

open RTComElQueryGroupBy

/-- The struct `_RTComElQueryPrivate`; `has_el` says that `priv->el` is not
NULL. -/
structure RTComElQuery where
  has_el : Bool
  is_caching : Bool
  limit : Int
  offset : Int
  group_by : RTComElQueryGroupBy
  sql : Option String
  where_clause : Option String
deriving DecidableEq, Repr

/-- `rtcom_el_query_new` with `rtcom_el_query_init`. -/
def rtcom_el_query_new (has_el : Bool) : RTComElQuery :=
  { has_el := has_el, is_caching := false, limit := -1, offset := 0,
    group_by := RTCOM_EL_QUERY_GROUP_BY_NONE, sql := none, where_clause := none }

/-- The loop of the IN_STRV branch of `_build_where_clause`:
`sqlite3_mprintf ("%Q%c", *strv_val, *(strv_val + 1) ? ',' : ' ')`. -/
def strvList : List String → String
  | [] => ""
  | s :: rest => mprintf_Q (some s) ++ (if rest.isEmpty then " " else ",") ++ strvList rest

/-- `_build_where_clause`: appends the fragment of one predicate to `ret`. -/
def _build_where_clause (query : RTComElQuery) (key : String) (val : QueryVal)
    (op : RTComElOp) (ret : String) : Bool × String :=
  if !query.has_el then (false, ret)
  else
    match typingLookup key with
    | G_TYPE_INT | G_TYPE_BOOLEAN =>
      match _build_operator op with
      | none => (false, ret)
      | some op_string =>
        (true, ret ++ mappingLookup key ++ " " ++ op_string ++ " " ++ toString val.toInt)
    | G_TYPE_STRING =>
      if op == RTCOM_EL_OP_IN_STRV then
        (true, ret ++ mappingLookup key ++ " IN (" ++ strvList val.toStrv ++ ")")
      else if op == RTCOM_EL_OP_STR_ENDS_WITH then
        (true, ret ++ mappingLookup key ++ " LIKE " ++ String.singleton quoteChar ++ "%" ++
          mprintf_q val.toStr ++ String.singleton quoteChar)
      else
        match _build_operator op with
        | none => (false, ret)
        | some op_string =>
          (true, ret ++ mappingLookup key ++ " " ++ op_string ++ " " ++ mprintf_Q val.toStr)
    | G_TYPE_INVALID => (false, ret)

/-- The text up to the joins that `rtcom_el_query_refresh` prints first. -/
def selectFrom (group_by : RTComElQueryGroupBy) : String :=
  if group_by == RTCOM_EL_QUERY_GROUP_BY_GROUP then
    "SELECT " ++ selection ++ " FROM GroupCache JOIN Events ON GroupCache.event_id = Events.id JOIN Services ON GroupCache.service_id = Services.id JOIN EventTypes ON Events.event_type_id = EventTypes.id LEFT JOIN Remotes ON Events.remote_uid = Remotes.remote_uid AND Events.local_uid = Remotes.local_uid LEFT JOIN Headers ON Headers.event_id = Events.id AND Headers.name = 'message-token'"
  else
    "SELECT " ++ selection ++ " FROM Events JOIN Services ON Events.service_id = Services.id JOIN EventTypes ON Events.event_type_id = EventTypes.id LEFT JOIN Remotes ON Events.remote_uid = Remotes.remote_uid AND Events.local_uid = Remotes.local_uid LEFT JOIN Headers ON Headers.event_id = Events.id AND Headers.name = 'message-token'"

/-- The `g_string_append_printf (priv->sql, " WHERE %s", priv->where_clause)`
that both branches of `rtcom_el_query_refresh` guard with
`if (priv->where_clause)`. -/
def whereText (where_clause : Option String) : String :=
  match where_clause with
  | none => ""
  | some w => " WHERE " ++ w

/-- The GROUP BY that `rtcom_el_query_refresh` appends. -/
def groupByText (group_by : RTComElQueryGroupBy) : String :=
  match group_by with
  | RTCOM_EL_QUERY_GROUP_BY_CONTACT => " GROUP BY unique_remote"
  | RTCOM_EL_QUERY_GROUP_BY_UIDS => " GROUP BY Remotes.local_uid, Remotes.remote_uid"
  | _ => ""

/-- The tail `" ORDER BY Events.id DESC LIMIT %d OFFSET %d;"`. -/
def orderTail (limit offset : Int) : String :=
  " ORDER BY Events.id DESC LIMIT " ++ toString limit ++ " OFFSET " ++ toString offset ++ ";"

/-- `rtcom_el_query_refresh`; it always returns TRUE. -/
def rtcom_el_query_refresh (query : RTComElQuery) : RTComElQuery :=
  { query with sql := some (selectFrom query.group_by ++ whereText query.where_clause ++
      groupByText query.group_by ++ orderTail query.limit query.offset) }

/-- The `while (col)` loop of `rtcom_el_query_prepare` over the predicate
triples that remain; `none` when `_build_where_clause` refuses one. -/
def buildWhere (query : RTComElQuery) :
    List (String × QueryVal × RTComElOp) → String → Option String
  | [], where_buf => some where_buf
  | (col, val, op) :: rest, where_buf =>
    match _build_where_clause query col val op where_buf with
    | (false, _) => none
    | (true, buf1) => buildWhere query rest (if rest.isEmpty then buf1 else buf1 ++ " AND ")

/-- `rtcom_el_query_prepare` for the predicate triples of its variable
argument list (up to the terminating NULL). -/
def rtcom_el_query_prepare (query : RTComElQuery)
    (preds : List (String × QueryVal × RTComElOp)) : Bool × RTComElQuery :=
  let q0 := { query with where_clause := none }
  if preds.isEmpty then (true, rtcom_el_query_refresh q0)
  else
    match buildWhere q0 preds "" with
    | none => (false, { q0 with sql := none })
    | some w => (true, rtcom_el_query_refresh { q0 with where_clause := some w })

/-! ## Reading an event back (eventlogger-iter.c, event.c) -/

/-- The row of an iterator: the hash table `columns`, with the slots that
`rtcom_el_db_schema_update_row` fills from the result columns by position,
named after the API names of `fields`. -/
structure Columns where
  service : Option String
  event_type : Option String
  id : Int
  service_id : Int
  event_type_id : Int
  storage_time : Int
  start_time : Int
  end_time : Int
  flags : Int
  is_read : Bool
  bytes_sent : Int
  bytes_received : Int
  local_uid : Option String
  local_name : Option String
  group_uid : Option String
  remote_ebook_uid : Option String
  remote_uid : Option String
  remote_name : Option String
  message_token : Option String
  channel : Option String
  outgoing : Bool
  free_text : Option String
deriving DecidableEq, Repr

/-- The right-hand side of a LEFT JOIN: the matching rows, or one all-NULL row. -/
def leftJoin {α : Type} (l : List α) : List (Option α) :=
  if l.isEmpty then [none] else l.map some

/-- One row of the canonical join, projected on `selection`. -/
def columnsOf (e : EventRow) (s et : NameRow) (r : Option RemoteRow) (h : Option HeaderRow) :
    Columns :=
  { service := some s.name, event_type := some et.name, id := e.id,
    service_id := e.service_id, event_type_id := e.event_type_id,
    storage_time := e.storage_time, start_time := e.start_time, end_time := e.end_time,
    flags := e.flags, is_read := e.is_read, bytes_sent := e.bytes_sent,
    bytes_received := e.bytes_received, local_uid := e.local_uid,
    local_name := e.local_name, group_uid := e.group_uid,
    remote_ebook_uid := r.bind (fun x => x.abook_uid),
    remote_uid := r.map (fun x => x.remote_uid),
    remote_name := r.bind (fun x => x.remote_name),
    message_token := h.map (fun x => x.value),
    channel := e.channel, outgoing := e.outgoing, free_text := e.free_text }

/-- The rows of the statement that `rtcom_el_query_prepare (query, "id",
event_id, RTCOM_EL_OP_EQUAL, NULL)` compiles for a fresh query: `SELECT
<selection> FROM Events JOIN Services ON Events.service_id = Services.id JOIN
EventTypes ON Events.event_type_id = EventTypes.id LEFT JOIN Remotes ON
Events.remote_uid = Remotes.remote_uid AND Events.local_uid =
Remotes.local_uid LEFT JOIN Headers ON Headers.event_id = Events.id AND
Headers.name = 'message-token' WHERE Events.id = <event_id> ORDER BY Events.id
DESC LIMIT -1 OFFSET 0;`. -/
def sqlSelectById (t : Tables) (event_id : Int) : List Columns :=
  (t.Events.filter (fun e => e.id == event_id)).flatMap (fun e =>
    (t.Services.filter (fun s => s.id == e.service_id)).flatMap (fun s =>
      (t.EventTypes.filter (fun et => et.id == e.event_type_id)).flatMap (fun et =>
        (leftJoin (t.Remotes.filter (fun r =>
            sqlEq e.remote_uid (some r.remote_uid) &&
              sqlEq e.local_uid (some r.local_uid)))).flatMap (fun r =>
          (leftJoin (t.Headers.filter (fun h =>
              h.event_id == e.id && h.name == "message-token"))).map (fun h =>
            columnsOf e s et r h)))))

/-- `rtcom_el_get_events` for that query followed by `rtcom_el_iter_first`: the
columns of the first result row, `none` when there is no iterator (no row, or
no database). -/
def rtcom_el_get_events_by_id (el : RTComEl) (event_id : Int) : Option Columns :=
  if !_ensure_db el then none else (sqlSelectById el.db.tables event_id).head?

/-- `rtcom_el_iter_get_full` on a row, for a service without plugin (a plugin
may replace `additional_text`, `icon_name` and `pango_markup` only). -/
def rtcom_el_iter_get_full (columns : Columns) (ev : RTComElEvent) : RTComElEvent :=
  { ev with
    id := Field.set columns.id,
    service_id := Field.set columns.service_id,
    event_type_id := Field.set columns.event_type_id,
    service := Field.set columns.service,
    event_type := Field.set columns.event_type,
    storage_time := Field.set columns.storage_time,
    start_time := Field.set columns.start_time,
    end_time := Field.set columns.end_time,
    is_read := Field.set columns.is_read,
    outgoing := Field.set columns.outgoing,
    flags := Field.set columns.flags,
    bytes_sent := Field.set columns.bytes_sent,
    bytes_received := Field.set columns.bytes_received,
    remote_ebook_uid := Field.set columns.remote_ebook_uid,
    local_uid := Field.set columns.local_uid,
    local_name := Field.set columns.local_name,
    remote_uid := Field.set columns.remote_uid,
    remote_name := Field.set columns.remote_name,
    channel := Field.set columns.channel,
    free_text := Field.set columns.free_text,
    group_uid := Field.set columns.group_uid,
    additional_text := Field.set none,
    icon_name := Field.set columns.service,
    pango_markup := Field.set columns.service }

/-- One integer test of `rtcom_el_event_equals`: the fields differ when both
are set and their values are unequal. -/
def intFieldDiffers (a b : Field Int) : Bool :=
  a.is_set && b.is_set && a.value != b.value

/-- One string test of `rtcom_el_event_equals`: both set and `strcmp` is not 0.
`strcmp` on a NULL pointer is undefined; it is counted as a difference, so that
TRUE is only reported by a run in which every `strcmp` was defined. -/
def strFieldDiffers (a b : Field (Option String)) : Bool :=
  a.is_set && b.is_set &&
    (match a.value, b.value with
     | some x, some y => x != y
     | _, _ => true)

/-- `rtcom_el_event_equals`. -/
def rtcom_el_event_equals (first second : RTComElEvent) : Bool :=
  if intFieldDiffers first.id second.id then false
  else if intFieldDiffers first.service_id second.service_id then false
  else if intFieldDiffers first.event_type_id second.event_type_id then false
  else if intFieldDiffers first.storage_time second.storage_time then false
  else if intFieldDiffers first.start_time second.start_time then false
  else if intFieldDiffers first.end_time second.end_time then false
  else if intFieldDiffers first.flags second.flags then false
  else if intFieldDiffers first.bytes_sent second.bytes_sent then false
  else if intFieldDiffers first.bytes_received second.bytes_received then false
  else if strFieldDiffers first.remote_ebook_uid second.remote_ebook_uid then false
  else if strFieldDiffers first.remote_ebook_uid second.remote_ebook_uid then false
  else if strFieldDiffers first.local_uid second.local_uid then false
  else if strFieldDiffers first.local_name second.local_name then false
  else if strFieldDiffers first.remote_uid second.remote_uid then false
  else if strFieldDiffers first.remote_name second.remote_name then false
  else if strFieldDiffers first.channel second.channel then false
  else if strFieldDiffers first.free_text second.free_text then false
  else if strFieldDiffers first.group_uid second.group_uid then false
  else true

/-- A string field on which `strcmp` is defined whenever `rtcom_el_event_equals`
reads it: not set, or set to a string (not to NULL). -/
def Field.nonNull (f : Field (Option String)) : Bool := !f.is_set || f.value.isSome

/-- One field of a retrieved event agrees with the same field of the inserted
event: it is set, and it holds the inserted value when the inserted event set
the field. -/
def Field.agrees {α : Type} (e r : Field α) : Prop :=
  r.is_set = true ∧ (e.is_set = true → r.value = e.value)

instance {α : Type} [DecidableEq α] (e r : Field α) : Decidable (Field.agrees e r) := by
  unfold Field.agrees
  infer_instance

/-- The retrieved event `r` agrees with the inserted event `e` on every field
that the Events and Remotes tables and the two name tables store: all fields
but `id`, `service_id`, `event_type_id`, `storage_time` (supplied by the engine,
the lookup tables and the clock) and the presentation fields `additional_text`,
`icon_name`, `pango_markup` (filled in on retrieval). -/
def storedFieldsAgree (e r : RTComElEvent) : Prop :=
  e.service.agrees r.service ∧ e.event_type.agrees r.event_type ∧
  e.start_time.agrees r.start_time ∧ e.end_time.agrees r.end_time ∧
  e.is_read.agrees r.is_read ∧ e.outgoing.agrees r.outgoing ∧
  e.flags.agrees r.flags ∧ e.bytes_sent.agrees r.bytes_sent ∧
  e.bytes_received.agrees r.bytes_received ∧
  e.local_uid.agrees r.local_uid ∧ e.local_name.agrees r.local_name ∧
  e.remote_uid.agrees r.remote_uid ∧ e.remote_name.agrees r.remote_name ∧
  e.remote_ebook_uid.agrees r.remote_ebook_uid ∧
  e.channel.agrees r.channel ∧ e.free_text.agrees r.free_text ∧
  e.group_uid.agrees r.group_uid

instance (e r : RTComElEvent) : Decidable (storedFieldsAgree e r) := by
  unfold storedFieldsAgree
  infer_instance

/-! ## Remote uniqueness (spec, section 8) -/

/-- `COUNT(Remote rows with (local_uid, remote_uid))`. -/
def remotePairCount (remotes : List RemoteRow) (local_uid remote_uid : String) : Nat :=
  (remotes.filter (fun x => x.local_uid == local_uid && x.remote_uid == remote_uid)).length

/-! ## How the engine reads the compiled fragments

The tokenizer and the LIKE operator belong to the database engine; the
definitions below follow its documented behaviour for the texts the query
compiler produces. -/

/-- Tokenizer states for a list of string literals. -/
inductive StrvState where
  | start
  | needLit
  | inLit (cur : List Char)
  | quoteSeen (cur : List Char)
  | afterLit

/-- Reads a text as the engine's tokenizer reads a list of string literals:
nothing but blanks, or literals in single quotes (a doubled quote stands for one
quote) separated by commas, with blanks allowed between the tokens.  `none` is a
syntax error; a text of any other shape counts as one. -/
def readLiterals : StrvState → List String → List Char → Option (List String)
  | .start, acc, [] => some acc.reverse
  | .start, acc, c :: cs =>
    if c == ' ' then readLiterals .start acc cs
    else if c == quoteChar then readLiterals (.inLit []) acc cs
    else none
  | .needLit, _, [] => none
  | .needLit, acc, c :: cs =>
    if c == ' ' then readLiterals .needLit acc cs
    else if c == quoteChar then readLiterals (.inLit []) acc cs
    else none
  | .inLit _, _, [] => none
  | .inLit cur, acc, c :: cs =>
    if c == quoteChar then readLiterals (.quoteSeen cur) acc cs
    else readLiterals (.inLit (c :: cur)) acc cs
  | .quoteSeen cur, acc, [] => some ((String.mk cur.reverse :: acc).reverse)
  | .quoteSeen cur, acc, c :: cs =>
    if c == quoteChar then readLiterals (.inLit (c :: cur)) acc cs
    else if c == ',' then readLiterals .needLit (String.mk cur.reverse :: acc) cs
    else if c == ' ' then readLiterals .afterLit (String.mk cur.reverse :: acc) cs
    else none
  | .afterLit, acc, [] => some acc.reverse
  | .afterLit, acc, c :: cs =>
    if c == ' ' then readLiterals .afterLit acc cs
    else if c == ',' then readLiterals .needLit acc cs
    else none

/-- The literals of a text, read from its start. -/
def literalsOf (text : String) : Option (List String) :=
  readLiterals .start [] text.toList

/-- The engine's `column IN (literals)` on one column value: a NULL column
satisfies nothing. -/
def sqlIn (lits : List String) (col : Option String) : Bool :=
  match col with
  | none => false
  | some c => lits.contains c

/-- The engine's `text LIKE pattern` with its default settings: `%` stands for
any run of characters, `_` for any one character, and every other character
for itself, upper and lower case ASCII letters taken as equal. -/
def sqlLike : List Char → List Char → Bool
  | [], t => t.isEmpty
  | c :: p, t =>
    if c == '%' then t.tails.any (fun s => sqlLike p s)
    else
      match t with
      | [] => false
      | d :: rest => (c == '_' || c.toLower == d.toLower) && sqlLike p rest

/-- A pattern character that `sqlLike` does not read as itself. -/
def isWildcard (c : Char) : Bool := c == '%' || c == '_'

/-! ## The contact-grouping key (db.c) -/

/-- The engine's `a || b`: NULL when either side is NULL. -/
def sqlConcat (a b : Option String) : Option String :=
  match a, b with
  | some x, some y => some (x ++ y)
  | _, _ => none

/-- The value of the expression of `UNIQUE_REMOTE` on one row of the join:
`abook_uid` comes from the Remote row, the two uids from the event. -/
def unique_remote (abook_uid local_uid remote_uid : Option String) : Option String :=
  if abook_uid.isSome then sqlConcat (some "ab:") abook_uid
  else sqlConcat (sqlConcat (sqlConcat (some "lr:") local_uid) (some ";")) remote_uid

/-! ## Attribute lookup on the iterator (eventlogger-iter.c) -/

/-- A `GValue`: `unset` is the zero-initialised value of type 0 that has not
been through `g_value_init`; a string value may hold NULL. -/
inductive GValue where
  | unset
  | int (v : Int)
  | boolean (b : Bool)
  | string (s : Option String)
deriving DecidableEq, Repr

/-- The part of `RTComElPlugin` the lookup uses: the optional hook
`get_value (it, key, value)`, which reports whether it supplied a value and
leaves the slot as it returns it. -/
structure RTComElPlugin where
  get_value : Option (String → GValue → Bool × GValue)

/-- The part of `RTComElIterPrivate` the lookup uses, at the current row. -/
structure RTComElIter where
  currently_active_plugin : Option RTComElPlugin
  columns : Option (List (String × GValue))

/-- `rtcom_el_iter_get_raw` for a non-NULL value slot: the result and the
slot afterwards. -/
def rtcom_el_iter_get_raw (it : RTComElIter) (col : String) (value : GValue) :
    Bool × GValue :=
  match it.columns with
  | none => (false, value)
  | some columns =>
    match columns.lookup col with
    | none => (false, value)
    | some src => (true, src)

/-- The step "Ask the plugin" of `_find_value`: `got_value` and the slot after
it; without an active plugin or without the hook nothing is asked. -/
def askPlugin (it : RTComElIter) (key : String) (value : GValue) : Bool × GValue :=
  match it.currently_active_plugin with
  | none => (false, value)
  | some plugin =>
    match plugin.get_value with
    | none => (false, value)
    | some hook => hook key value

/-- `_find_value` for a non-NULL value slot; `key` may be NULL. -/
def _find_value (it : RTComElIter) (key : Option String) (value : GValue) :
    Bool × GValue :=
  match key with
  | none => (false, value)
  | some k =>
    let asked := askPlugin it k value
    if !asked.1 then rtcom_el_iter_get_raw it k asked.2
    else (true, asked.2)

/-! ## Busy handler and migration from the old database (db.c) -/

def SQLITE_ABORT : Int := 4
def SQLITE_INTERRUPT : Int := 9

/-- `_db_busy_handler`; the engine passes the number of times it has invoked
the handler before for the same lock. -/
def _db_busy_handler (busy_loop_count : Int) : Int :=
  if busy_loop_count < 10 then 1 else 0

/-- The engine's side of the handler while a lock stays held: it invokes the
handler with the counts 0, 1, 2, ... and tries again as long as the answer is
not 0.  The value is the number of retries granted; `fuel` bounds the
invocations. -/
def busyRetries : Nat → Int → Nat
  | 0, _ => 0
  | fuel + 1, count =>
    if _db_busy_handler count != 0 then 1 + busyRetries fuel (count + 1) else 0

/-- The numeric value of an `RTComElError` enumerator, as stored in
`err->code`. -/
def RTComElError.code : RTComElError → Int
  | RTCOM_EL_INTERNAL_ERROR => 0
  | RTCOM_EL_INVALID_ARGUMENT_ERROR => 1
  | RTCOM_EL_TEMPORARY_ERROR => 2
  | RTCOM_EL_DATABASE_FULL => 3
  | RTCOM_EL_DATABASE_CORRUPTED => 4

/-- What the file system and the engine answer during one run of the body of
`rtcom_el_db_convert_from_db0`: the two `g_access` calls, the two
`sqlite3_open` calls, the tables and fault oracle of the temp database,
`sqlite3_backup_init`, the code of `sqlite3_backup_finish`, and the result of
`_internal_convert_v0`. -/
structure Attempt where
  new_exists : Bool
  old_exists : Bool
  old_opens : Bool
  temp_opens : Bool
  tables : Tables
  fault : Nat → Option EngineFault
  backup_init : Bool
  backup_finish : Int
  converted : Bool

/-- What the migration does to the file system. -/
inductive FsAction where
  | unlinkTemp
  | renameTempToNew
deriving DecidableEq, Repr

/-- The test on `err->code` that selects the retry branch. -/
def redoUpgrade (code : Int) : Bool :=
  code == SQLITE_CORRUPT || code == SQLITE_FORMAT || code == SQLITE_NOTADB ||
    code == SQLITE_ABORT || code == SQLITE_INTERRUPT

/-- The error of the exclusive transaction on the freshly opened temp
database of an attempt, after `PRAGMA journal_mode = OFF;`; `none` when the
lock is taken.  A fresh handle is in autocommit mode, so the transaction is
never refused as nested and a failure always carries its error. -/
def lockFailure (a : Attempt) : Option RTComElError :=
  let db : Conn := { tables := a.tables, saved := none, errcode := SQLITE_OK, log := [],
                     fault := a.fault }
  match rtcom_el_db_transaction (pragmaJournalMode db "OFF") true with
  | (_, true, _) => none
  | (_, false, none) => some RTCOM_EL_INTERNAL_ERROR
  | (_, false, some k) => some k

/-- `rtcom_el_db_convert_from_db0`: the result with the file-system actions in
the order they happen.  The recursive call of the retry branch reads the
answers of the next attempt; `fuel` bounds the number of runs of the body, and
`none` means that it is used up. -/
def rtcom_el_db_convert_from_db0 (env : Nat → Attempt) :
    Nat → Nat → Option (Bool × List FsAction)
  | 0, _ => none
  | fuel + 1, n =>
    let a := env n
    if a.new_exists then some (true, [])
    else if !a.old_exists then some (true, [])
    else if !a.old_opens then some (true, [])
    else if !a.temp_opens then some (false, [])
    else
      match lockFailure a with
      | some err =>
        if redoUpgrade err.code then
          match rtcom_el_db_convert_from_db0 env fuel (n + 1) with
          | none => none
          | some (r, acts) => some (r, FsAction.unlinkTemp :: acts)
        else some (false, [])
      | none =>
        if !a.backup_init then some (false, [FsAction.unlinkTemp])
        else if a.backup_finish != SQLITE_OK then some (false, [FsAction.unlinkTemp])
        else if a.converted then some (true, [FsAction.renameTempToNew])
        else some (false, [FsAction.unlinkTemp])

/-- An attempt that gets as far as the exclusive lock on the temp database:
the new database is absent, the old one is there and opens, and the temp
database opens. -/
def reachesLock (a : Attempt) : Bool :=
  !a.new_exists && a.old_exists && a.old_opens && a.temp_opens

/-! ## Deletion by query (eventlogger.c) -/

/-- `get_event_group_uids` for a WHERE clause (`event_id` is -1 and `where` is
not NULL).  `p` tells which events have a row in the join of the statement that
satisfies the clause. -/
def get_event_group_uids_where (db : Conn) (where_clause : String) (p : EventRow → Bool) :
    Conn × List (Option String) :=
  match rtcom_el_db_exec db
      ("SELECT DISTINCT(Events.group_uid) FROM Events JOIN Services ON Events.service_id = Services.id JOIN EventTypes ON Events.event_type_id = EventTypes.id LEFT JOIN Remotes ON Events.remote_uid = Remotes.remote_uid AND Events.local_uid = Remotes.local_uid LEFT JOIN Headers ON Headers.event_id = Events.id AND Headers.name = 'message-token' WHERE " ++ where_clause ++ ";")
      (sqlSelectGroupUids p) with
  | (db1, .error _) => (db1, [])
  | (db1, .ok li) => (db1, li)

/-- `rtcom_el_delete_events` for the WHERE clause of the query and the events
`p` it selects: 1 (TRUE) on success, 0 (FALSE) on failure; `none` when
`update_group_cache` reads a released list node. -/
def rtcom_el_delete_events (el : RTComEl) (where_clause : Option String)
    (p : EventRow → Bool) : Option OpResult :=
  if !_ensure_db el then some ⟨el, 0, some RTCOM_EL_INTERNAL_ERROR⟩
  else
    match where_clause with
    | none => some ⟨el, 0, none⟩
    | some w =>
      let db0 := pragmaJournalMode el.db "OFF"
      match rtcom_el_db_transaction db0 false with
      | (db1, false, _) => some (deleteFailed el db1 0 (some RTCOM_EL_INTERNAL_ERROR))
      | (db1, true, _) =>
        match get_event_group_uids_where db1 w p with
        | (db2, li) =>
          match rtcom_el_db_exec db2
              ("DELETE FROM Events WHERE id IN (SELECT Events.id FROM Events JOIN Services ON Events.service_id = Services.id JOIN EventTypes ON Events.event_type_id = EventTypes.id LEFT JOIN Remotes ON Events.remote_uid = Remotes.remote_uid AND Events.local_uid = Remotes.local_uid LEFT JOIN Headers ON Headers.event_id = Events.id AND Headers.name = 'message-token' WHERE " ++ w ++ ");")
              (sqlDeleteEvents p) with
          | (db3, .error _) => some (deleteFailed el db3 0 (some RTCOM_EL_INTERNAL_ERROR))
          | (db3, .ok _) =>
            match update_group_cache db3 li with
            | none => none
            | some (db4, false) =>
              some (deleteFailed el db4 0 (some RTCOM_EL_INTERNAL_ERROR))
            | some (db4, true) =>
              match rtcom_el_db_commit db4 with
              | (db5, false, _) =>
                some (deleteFailed el db5 0 (some RTCOM_EL_INTERNAL_ERROR))
              | (db5, true, _) =>
                some ⟨{ el with db := pragmaJournalMode db5 "TRUNCATE" }, 1, none⟩

/-! ## Concrete states for the closed theorems

The services "CHAT" and "SMS" and the event type of the seed scenario of the
specification. -/

/-- An event row of local account "msn/alice" without remote party. -/
def sampleRow (id service_id : Int) (group_uid : Option String) (flags : Int)
    (is_read : Bool) : EventRow :=
  { id := id, service_id := service_id, event_type_id := 1, storage_time := 1000,
    start_time := 1000, end_time := 0, is_read := is_read, outgoing := false, flags := flags,
    bytes_sent := 0, bytes_received := 0, local_uid := some "msn/alice", local_name := none,
    remote_uid := none, channel := none, free_text := none, group_uid := group_uid }

/-- A database with the given events, cache rows and remotes. -/
def sampleTables (events : List EventRow) (cache : List GroupCacheRow)
    (remotes : List RemoteRow) : Tables :=
  { Events := events, Remotes := remotes, Headers := [], Attachments := [],
    GroupCache := cache,
    Flags := [⟨1, 1, "RTCOM_EL_FLAG_CHAT_GROUP", 1⟩, ⟨2, 1, "RTCOM_EL_FLAG_CHAT_ROOM", 2⟩],
    Services := [⟨1, "CHAT"⟩, ⟨2, "SMS"⟩],
    EventTypes := [⟨1, "RTCOM_EL_EVENTTYPE_TEST_ET1"⟩] }

/-- An open logger on a fault-free engine in autocommit mode. -/
def sampleLogger (t : Tables) : RTComEl :=
  { opened := true,
    db := { tables := t, saved := none, errcode := 0, log := [], fault := noFault },
    services := [("CHAT", 1), ("SMS", 2)],
    event_types := [("RTCOM_EL_EVENTTYPE_TEST_ET1", 1)],
    last_group_uid := none }

/-- An event as a caller fills it in: service, event type, local uid and,
when given, the group uid. -/
def sampleEvent (service : String) (group_uid : Option String) : RTComElEvent :=
  { rtcom_el_event_new with
    service := Field.set (some service),
    event_type := Field.set (some "RTCOM_EL_EVENTTYPE_TEST_ET1"),
    local_uid := Field.set (some "msn/alice"),
    group_uid := ⟨group_uid.isSome, group_uid⟩ }

/-- An event with a remote party, as `event_new_full` of the test suite fills
it in. -/
def sampleRemoteEvent : RTComElEvent :=
  { sampleEvent "CHAT" (some "G") with
    start_time := Field.set 5, end_time := Field.set 6, flags := Field.set 1,
    bytes_sent := Field.set 10, bytes_received := Field.set 20,
    local_name := Field.set (some "Alice"),
    remote_uid := Field.set (some "bob"), remote_name := Field.set (some "Robert"),
    channel := Field.set (some "chan"), free_text := Field.set (some "hello") }

/-- An attempt of the migration that reaches the lock on an empty temp
database; `f` is what the engine answers to BEGIN EXCLUSIVE (the second
statement on the handle), and everything after the lock succeeds. -/
def sampleAttempt (f : Option EngineFault) : Attempt :=
  { new_exists := false, old_exists := true, old_opens := true, temp_opens := true,
    tables := sampleTables [] [] [], fault := fun i => if i == 1 then f else none,
    backup_init := true, backup_finish := SQLITE_OK, converted := true }

/-- A temp file that reads as corrupted in the first two attempts (it could not
be removed, or was left behind again) and is sound in the third. -/
def twiceCorrupted (n : Nat) : Attempt :=
  if n < 2 then sampleAttempt (some (EngineFault.atStep SQLITE_CORRUPT)) else sampleAttempt none

/-! # Theorems -/

theorem le_foldl_max (l : List Int) (a : Int) :
    a ≤ l.foldl max a ∧ ∀ x ∈ l, x ≤ l.foldl max a := by
  induction l generalizing a with
  | nil => simp
  | cons b t ih =>
    simp only [List.foldl_cons, List.mem_cons, forall_eq_or_imp]
    obtain ⟨h1, h2⟩ := ih (max a b)
    exact ⟨le_trans (le_max_left a b) h1, le_trans (le_max_right a b) h1, h2⟩

theorem lt_nextRowid (ids : List Int) : ∀ x ∈ ids, x < nextRowid ids := by
  cases ids with
  | nil => simp
  | cons a t =>
    intro x hx
    have h := le_foldl_max t a
    simp only [nextRowid]
    rcases List.mem_cons.1 hx with rfl | hx
    · linarith [h.1]
    · linarith [h.2 x hx]

theorem nextRowid_pos (ids : List Int) (h : ∀ x ∈ ids, 1 ≤ x) : 1 ≤ nextRowid ids := by
  cases ids with
  | nil => simp [nextRowid]
  | cons a t =>
    have := lt_nextRowid (a :: t) a (List.mem_cons_self _ _)
    have := h a (List.mem_cons_self _ _)
    linarith

theorem groupEvents_append (E : List EventRow) (n : EventRow) (g : String) :
    groupEvents (E ++ [n]) g =
      groupEvents E g ++ (if n.group_uid = some g then [n] else []) := by
  unfold groupEvents
  rw [List.filter_append]
  by_cases h : n.group_uid = some g
  · simp [h]
  · have hb : (n.group_uid == some g) = false := by simpa using h
    simp [List.filter, hb, h]

theorem flagsOr_append (l : List EventRow) (n : EventRow) :
    flagsOr (l ++ [n]) = Int.lor (flagsOr l) n.flags := by
  simp [flagsOr, List.foldl_append]

theorem readCount_append (l : List EventRow) (n : EventRow) :
    readCount (l ++ [n]) = readCount l + b2i n.is_read := by
  unfold readCount b2i
  rw [List.filter_append]
  cases h : n.is_read <;> simp [List.filter, h]

theorem mem_groupEvents {E : List EventRow} {g : String} {e : EventRow} :
    e ∈ groupEvents E g ↔ e ∈ E ∧ e.group_uid = some g := by
  simp [groupEvents]

theorem filter_map_length {α : Type} (l : List α) (f : α → α) (p : α → Bool)
    (h : ∀ x, p (f x) = p x) : ((l.map f).filter p).length = (l.filter p).length := by
  induction l with
  | nil => simp
  | cons a t ih =>
    simp only [List.map_cons, List.filter_cons, h]
    split <;> simp [ih]


/-- The row `gc_update_ev_add1` inserts. -/
theorem add1_spec (t : Tables) (new : EventRow) (g : String)
    (hg : new.group_uid = some g)
    (hids : ∀ e ∈ t.Events, 1 ≤ e.id)
    (hcoh : Coherent t)
    (hsvc : ∀ r ∈ t.GroupCache, r.group_uid = g → r.service_id = new.service_id) :
    ((gc_update_ev_add1 t.GroupCache new).filter (fun r => r.group_uid == g)).length = 1 ∧
    (∀ r ∈ gc_update_ev_add1 t.GroupCache new, r ∈ t.GroupCache ∨
      (r = ⟨0, new.service_id, g, 0, 0, 0⟩ ∧ groupEvents t.Events g = [])) ∧
    (∀ g', g' ≠ g → (gc_update_ev_add1 t.GroupCache new).filter (fun r => r.group_uid == g') =
      t.GroupCache.filter (fun r => r.group_uid == g')) := by
  obtain ⟨hrows, hone⟩ := hcoh
  unfold gc_update_ev_add1
  simp only [hg]
  by_cases hne : groupEvents t.Events g = []
  · -- the group is new: no row collides, the zero row is appended
    have hno : ∀ r ∈ t.GroupCache, r.event_id ≠ 0 ∧ r.group_uid ≠ g := by
      intro r hr
      obtain ⟨⟨e, he, hid⟩, -⟩ := (hrows r hr).1
      have he' := mem_groupEvents.1 he
      refine ⟨?_, ?_⟩
      · have := hids e he'.1
        omega
      · intro hrg
        rw [hrg, hne] at he
        simp at he
    have hany : (t.GroupCache.any (fun r =>
        r.event_id == 0 || (r.service_id == new.service_id && r.group_uid == g))) = false := by
      rw [List.any_eq_false]
      intro r hr
      have := hno r hr
      simp [this.1, this.2]
    have hfil : t.GroupCache.filter (fun r => r.group_uid == g) = [] := by
      rw [List.filter_eq_nil_iff]
      intro r hr
      simp [(hno r hr).2]
    simp only [hany, Bool.false_eq_true, if_false]
    refine ⟨?_, ?_, ?_⟩
    · rw [List.filter_append, hfil]; simp
    · intro r hr
      rcases List.mem_append.1 hr with h | h
      · exact Or.inl h
      · right
        simp at h
        exact ⟨h, hne⟩
    · intro g' hg'
      rw [List.filter_append]
      have : (g == g') = false := by simpa using (Ne.symm hg')
      simp [List.filter, this]
  · -- the group has events: its row exists and has this service id
    obtain ⟨e, he⟩ := List.exists_mem_of_ne_nil _ hne
    have he' := mem_groupEvents.1 he
    have h1 := hone e he'.1 g (by simp [he'.2])
    have hany : (t.GroupCache.any (fun r =>
        r.event_id == 0 || (r.service_id == new.service_id && r.group_uid == g))) = true := by
      have hpos : 0 < (t.GroupCache.filter (fun r => r.group_uid == g)).length := by omega
      obtain ⟨r, hr⟩ := List.exists_mem_of_length_pos hpos
      rw [List.mem_filter] at hr
      rw [List.any_eq_true]
      refine ⟨r, hr.1, ?_⟩
      have hrg : r.group_uid = g := by simpa using hr.2
      simp [hsvc r hr.1 hrg, hrg]
    simp only [hany, if_true]
    exact ⟨h1, fun r hr => Or.inl hr, fun _ _ => trivial⟩

theorem add4_spec (C1 : List GroupCacheRow) (new : EventRow) (g : String)
    (hg : new.group_uid = some g)
    (h1 : (C1.filter (fun r => r.group_uid == g)).length = 1)
    (hclash : ∀ r ∈ C1, r.group_uid ≠ g → r.event_id ≠ new.id) :
    gc_update_ev_add4 C1 new = .ok (C1.map (fun r =>
      if r.group_uid == g then
        { r with event_id := new.id, total_events := r.total_events + 1,
                 read_events := r.read_events + b2i new.is_read,
                 flags := Int.lor r.flags new.flags }
      else r)) := by
  have hc : (C1.any (fun r => r.group_uid != g && r.event_id == new.id)) = false := by
    rw [List.any_eq_false]
    intro r hr
    by_cases hrg : r.group_uid = g
    · simp [hrg]
    · simp [hclash r hr hrg]
  unfold gc_update_ev_add4
  simp only [hg, h1, hc]
  simp

theorem insert_triggers_coherent (t : Tables) (new : EventRow) (g : String)
    (hg : new.group_uid = some g)
    (hids : ∀ e ∈ t.Events, 1 ≤ e.id)
    (hlt : ∀ e ∈ t.Events, e.id < new.id)
    (hcoh : Coherent t)
    (hsvc : ∀ r ∈ t.GroupCache, r.group_uid = g → r.service_id = new.service_id) :
    ∃ gc, gc_update_ev_add4 (gc_update_ev_add1 t.GroupCache new) new = .ok gc ∧
      Coherent { t with Events := t.Events ++ [new], GroupCache := gc } := by
  obtain ⟨hA1, hA2, hA3⟩ := add1_spec t new g hg hids hcoh hsvc
  generalize gc_update_ev_add1 t.GroupCache new = C1 at hA1 hA2 hA3
  have hold : ∀ r ∈ t.GroupCache, r.event_id < new.id := by
    intro r hr
    obtain ⟨⟨e, he, hid⟩, -⟩ := (hcoh.1 r hr).1
    rw [← hid]
    exact hlt e (mem_groupEvents.1 he).1
  have hclash : ∀ r ∈ C1, r.group_uid ≠ g → r.event_id ≠ new.id := by
    intro r hr hrg
    rcases hA2 r hr with h | ⟨h, -⟩
    · have := hold r h
      omega
    · exact absurd (by rw [h]) hrg
  refine ⟨_, add4_spec C1 new g hg hA1 hclash, ?_, ?_⟩
  · -- every row carries the aggregates
    intro r' hr'
    simp only [List.mem_map] at hr'
    obtain ⟨r, hr, rfl⟩ := hr'
    by_cases hrg : r.group_uid = g
    · have hb : (r.group_uid == g) = true := by simpa using hrg
      simp only [hb, if_true]
      have hagg : r.total_events = ((groupEvents t.Events g).length : Int) ∧
          r.read_events = readCount (groupEvents t.Events g) ∧
          r.flags = flagsOr (groupEvents t.Events g) := by
        rcases hA2 r hr with h | ⟨h, hemp⟩
        · have := hcoh.1 r h
          unfold RowAgrees at this
          rw [hrg] at this
          exact this.2
        · rw [hemp, h]
          simp [readCount, flagsOr]
      unfold RowAgrees
      simp only [hrg, groupEvents_append, hg, if_true]
      refine ⟨⟨⟨new, by simp, rfl⟩, ?_⟩, ?_, ?_, ?_⟩
      · intro e he
        rcases List.mem_append.1 he with h | h
        · exact le_of_lt (hlt e (mem_groupEvents.1 h).1)
        · simp at h
          rw [h]
      · rw [hagg.1]; simp
      · rw [readCount_append, hagg.2.1]
      · rw [flagsOr_append, hagg.2.2]
    · have hb : (r.group_uid == g) = false := by simpa using hrg
      simp only [hb, Bool.false_eq_true, if_false]
      have hrC : r ∈ t.GroupCache := by
        rcases hA2 r hr with h | ⟨h, -⟩
        · exact h
        · exact absurd (by rw [h]) hrg
      have hne : ¬ new.group_uid = some r.group_uid := by
        rw [hg]; intro h; exact hrg (Option.some.inj h).symm
      have := hcoh.1 r hrC
      unfold RowAgrees at this ⊢
      simpa only [groupEvents_append, hne, if_false, List.append_nil] using this
  · -- every group has exactly one row
    intro e he g' hg'
    show ((C1.map _).filter _).length = 1
    rw [filter_map_length]
    · by_cases hgg : g' = g
      · rw [hgg]; exact hA1
      · rw [hA3 g' hgg]
        rcases List.mem_append.1 he with h | h
        · exact hcoh.2 e h g' hg'
        · simp at h
          rw [h, hg] at hg'
          exact absurd (Option.some.inj hg').symm hgg
    · intro x
      by_cases hx : x.group_uid = g <;> simp [hx]

/-! ## The statement executor -/

theorem execStep_spec {β : Type} (db : Conn) (sf : Option Int)
    (run : Tables → Except Int (Tables × β)) :
    (execStep db sf run).1.saved = db.saved ∧ (execStep db sf run).1.fault = db.fault ∧
    (execStep db sf run).1.log = db.log ∧
    (∀ b, (execStep db sf run).2 = .ok b → run db.tables = .ok ((execStep db sf run).1.tables, b)) ∧
    (∀ k, (execStep db sf run).2 = .error k → (execStep db sf run).1.tables = db.tables) ∧
    (sf = none → ∀ k, (execStep db sf run).2 = .error k → ∃ c, run db.tables = .error c) := by
  unfold execStep
  cases sf with
  | some code =>
    simp
  | none =>
    cases h : run db.tables with
    | error c => simp
    | ok p => obtain ⟨t, b⟩ := p; simp

/-- What one call of `rtcom_el_db_exec` does to the connection. -/
theorem exec_spec {β : Type} (db : Conn) (sql : String)
    (run : Tables → Except Int (Tables × β)) :
    (rtcom_el_db_exec db sql run).1.saved = db.saved ∧
    (rtcom_el_db_exec db sql run).1.fault = db.fault ∧
    (rtcom_el_db_exec db sql run).1.log = db.log ++ [sql] ∧
    (∀ b, (rtcom_el_db_exec db sql run).2 = .ok b →
      run db.tables = .ok ((rtcom_el_db_exec db sql run).1.tables, b)) ∧
    (∀ k, (rtcom_el_db_exec db sql run).2 = .error k →
      (rtcom_el_db_exec db sql run).1.tables = db.tables) ∧
    (db.fault = noFault → ∀ k, (rtcom_el_db_exec db sql run).2 = .error k →
      ∃ c, run db.tables = .error c) := by
  unfold rtcom_el_db_exec
  cases hf : db.fault db.log.length with
  | none =>
    simp only []
    have := execStep_spec { db with log := db.log ++ [sql] } none run
    exact ⟨this.1, this.2.1, this.2.2.1, this.2.2.2.1, this.2.2.2.2.1,
      fun _ => this.2.2.2.2.2 rfl⟩
  | some f =>
    have hnf : db.fault ≠ noFault := by
      intro h; rw [h] at hf; simp [noFault] at hf
    cases f with
    | atPrepare code =>
      simp only []
      split
      · have := execStep_spec { db with log := db.log ++ [sql] } none run
        exact ⟨this.1, this.2.1, this.2.2.1, this.2.2.2.1, this.2.2.2.2.1,
          fun h => absurd h hnf⟩
      · simp
        exact fun h => absurd h hnf
    | atStep code =>
      simp only []
      split
      · have := execStep_spec { db with log := db.log ++ [sql] } none run
        exact ⟨this.1, this.2.1, this.2.2.1, this.2.2.2.1, this.2.2.2.2.1,
          fun h => absurd h hnf⟩
      · have := execStep_spec { db with log := db.log ++ [sql] } (some code) run
        exact ⟨this.1, this.2.1, this.2.2.1, this.2.2.2.1, this.2.2.2.2.1,
          fun h => absurd h hnf⟩

/-! ## Transactions -/

theorem transaction_spec (db : Conn) (exclusive : Bool) :
    (rtcom_el_db_transaction db exclusive).1.fault = db.fault ∧
    (rtcom_el_db_transaction db exclusive).1.tables = db.tables ∧
    ((rtcom_el_db_transaction db exclusive).2.1 = true →
      db.saved = none ∧ (rtcom_el_db_transaction db exclusive).1.saved = some db.tables) ∧
    ((rtcom_el_db_transaction db exclusive).2.1 = false →
      (rtcom_el_db_transaction db exclusive).1.saved = db.saved) ∧
    (db.saved = none → db.fault = noFault →
      (rtcom_el_db_transaction db exclusive).2.1 = true) := by
  unfold rtcom_el_db_transaction
  cases hs : db.saved with
  | some t => simp [hs]
  | none =>
    simp only [Option.isSome_none, Bool.false_eq_true, if_false]
    obtain ⟨h1, h2, -, h4, h5, h6⟩ := exec_spec db
      (if exclusive then "BEGIN EXCLUSIVE;" else "BEGIN DEFERRED;") runNothing
    generalize rtcom_el_db_exec db
      (if exclusive then "BEGIN EXCLUSIVE;" else "BEGIN DEFERRED;") runNothing = r at *
    obtain ⟨db1, res⟩ := r
    cases res with
    | error k =>
      refine ⟨h2, h5 k rfl, by simp, fun _ => by rw [h1, hs], ?_⟩
      intro _ hf
      obtain ⟨c, hc⟩ := h6 hf k rfl
      simp [runNothing] at hc
    | ok u =>
      have := h4 u rfl
      simp only [runNothing, Except.ok.injEq, Prod.mk.injEq] at this
      exact ⟨h2, this.1.symm, fun _ => ⟨trivial, by simp [this.1]⟩, by simp, fun _ _ => rfl⟩

theorem commit_spec (db : Conn) :
    (rtcom_el_db_commit db).1.fault = db.fault ∧
    (rtcom_el_db_commit db).1.tables = db.tables ∧
    ((rtcom_el_db_commit db).2.1 = true → (rtcom_el_db_commit db).1.saved = none) ∧
    ((rtcom_el_db_commit db).2.1 = false → (rtcom_el_db_commit db).1.saved = db.saved) ∧
    (db.saved ≠ none → db.fault = noFault → (rtcom_el_db_commit db).2.1 = true) := by
  unfold rtcom_el_db_commit
  cases hs : db.saved with
  | none => simp [hs]
  | some t =>
    simp only [Option.isNone_some, Bool.false_eq_true, if_false]
    obtain ⟨h1, h2, -, h4, h5, h6⟩ := exec_spec db "COMMIT;" runNothing
    generalize rtcom_el_db_exec db "COMMIT;" runNothing = r at *
    obtain ⟨db1, res⟩ := r
    cases res with
    | error k =>
      refine ⟨h2, h5 k rfl, by simp, fun _ => by rw [h1, hs], ?_⟩
      intro _ hf
      obtain ⟨c, hc⟩ := h6 hf k rfl
      simp [runNothing] at hc
    | ok u =>
      have := h4 u rfl
      simp only [runNothing, Except.ok.injEq, Prod.mk.injEq] at this
      exact ⟨h2, this.1.symm, fun _ => rfl, by simp, fun _ _ => rfl⟩

theorem rollback_spec (db : Conn) :
    (rtcom_el_db_rollback db).1.fault = db.fault ∧
    (rtcom_el_db_rollback db).1.saved = none ∧
    (∀ t, db.saved = some t → (rtcom_el_db_rollback db).1.tables = t) ∧
    (db.saved = none → (rtcom_el_db_rollback db).1 = db) := by
  unfold rtcom_el_db_rollback
  cases hs : db.saved with
  | none => simp [hs]
  | some t => simp

/-! ## `_add_event_core` -/

/-- The Remote rows after the two UPDATE statements of `_add_event_core`. -/
theorem addEventRemote_spec (db : Conn) (ev : RTComElEvent) (ctx : remotes_ctx) :
    (addEventRemote db ev ctx).1.saved = db.saved ∧
    (addEventRemote db ev ctx).1.fault = db.fault ∧
    (addEventRemote db ev ctx).1.tables =
      { db.tables with Remotes := (addEventRemote db ev ctx).1.tables.Remotes } ∧
    (∀ k, (addEventRemote db ev ctx).2 = .error k → ev.remote_uid.is_set = true) ∧
    (∀ u, (addEventRemote db ev ctx).2 = .ok u →
      (ev.remote_uid.is_set = false →
        (addEventRemote db ev ctx).1.tables.Remotes = db.tables.Remotes) ∧
      (ev.remote_uid.is_set = true → ctx.exists = false →
        ∃ lu ru, ev.local_uid.value = some lu ∧ ev.remote_uid.value = some ru ∧
          (db.tables.Remotes.any (fun x => x.local_uid == lu && x.remote_uid == ru)) = false ∧
          (addEventRemote db ev ctx).1.tables.Remotes = db.tables.Remotes ++
            [⟨lu, ru, ev.remote_name.getD none, ev.remote_ebook_uid.getD none⟩]) ∧
      (ev.remote_uid.is_set = true → ctx.exists = true →
        (addEventRemote db ev ctx).1.tables.Remotes =
          (fun R1 : List RemoteRow =>
            if g_strcmp0_differs (ev.remote_name.getD none) ctx.remote_name then
              R1.map (fun r =>
                if sqlEq (some r.remote_uid) ev.remote_uid.value &&
                    sqlEq (some r.local_uid) ev.local_uid.value then
                  { r with remote_name := ev.remote_name.getD none } else r)
            else R1)
          (if g_strcmp0_differs (ev.remote_ebook_uid.getD none) ctx.abook_uid then
              db.tables.Remotes.map (fun r =>
                if sqlEq (some r.remote_uid) ev.remote_uid.value &&
                    sqlEq (some r.local_uid) ev.local_uid.value then
                  { r with abook_uid := ev.remote_ebook_uid.getD none } else r)
            else db.tables.Remotes))) := by
  unfold addEventRemote
  by_cases hset : ev.remote_uid.is_set = true
  · simp only [hset, if_true]
    by_cases hex : ctx.exists = true
    · simp only [hex, Bool.not_true, Bool.false_eq_true, if_false]
      -- first UPDATE
      by_cases hc1 : g_strcmp0_differs (ev.remote_ebook_uid.getD none) ctx.abook_uid = true
      · simp only [hc1, if_true]
        obtain ⟨a1, a2, -, a4, a5, -⟩ := exec_spec db
          "UPDATE Remotes SET abook_uid = %Q WHERE remote_uid = %Q AND local_uid = %Q;"
          (sqlUpdateRemoteAbook (ev.remote_ebook_uid.getD none) ev.remote_uid.value
            ev.local_uid.value)
        generalize rtcom_el_db_exec db
          "UPDATE Remotes SET abook_uid = %Q WHERE remote_uid = %Q AND local_uid = %Q;"
          (sqlUpdateRemoteAbook (ev.remote_ebook_uid.getD none) ev.remote_uid.value
            ev.local_uid.value) = r1 at *
        obtain ⟨db1, res1⟩ := r1
        cases res1 with
        | error k =>
          have := a5 k rfl
          simp only at this a1 a2 ⊢
          refine ⟨a1, a2, by rw [this], by simp, by simp⟩
        | ok u1 =>
          have ht1 := a4 u1 rfl
          simp only [sqlUpdateRemoteAbook, Except.ok.injEq, Prod.mk.injEq, and_true] at ht1
          simp only at a1 a2 ht1 ⊢
          by_cases hc2 : g_strcmp0_differs (ev.remote_name.getD none) ctx.remote_name = true
          · simp only [hc2, if_true]
            obtain ⟨b1, b2, -, b4, b5, -⟩ := exec_spec db1
              "UPDATE Remotes SET remote_name = %Q WHERE remote_uid = %Q AND local_uid = %Q;"
              (sqlUpdateRemoteName (ev.remote_name.getD none) ev.remote_uid.value
                ev.local_uid.value)
            generalize rtcom_el_db_exec db1
              "UPDATE Remotes SET remote_name = %Q WHERE remote_uid = %Q AND local_uid = %Q;"
              (sqlUpdateRemoteName (ev.remote_name.getD none) ev.remote_uid.value
                ev.local_uid.value) = r2 at *
            obtain ⟨db2, res2⟩ := r2
            cases res2 with
            | error k =>
              have := b5 k rfl
              simp only at this b1 b2 ⊢
              refine ⟨by rw [b1, a1], by rw [b2, a2], by rw [this, ← ht1], by simp, by simp⟩
            | ok u2 =>
              have ht2 := b4 u2 rfl
              simp only [sqlUpdateRemoteName, Except.ok.injEq, Prod.mk.injEq, and_true] at ht2
              simp only at b1 b2 ht2 ⊢
              refine ⟨by rw [b1, a1], by rw [b2, a2], by rw [← ht2, ← ht1], by simp, ?_⟩
              intro _ _
              refine ⟨by simp, by simp, fun _ _ => ?_⟩
              rw [← ht2, ← ht1]
          · have hc2' : g_strcmp0_differs (ev.remote_name.getD none) ctx.remote_name = false := by
              simpa using hc2
            simp only [hc2', Bool.false_eq_true, if_false]
            refine ⟨a1, a2, by rw [← ht1], by simp, ?_⟩
            intro _ _
            refine ⟨by simp, by simp, fun _ _ => ?_⟩
            rw [← ht1]
      · have hc1' : g_strcmp0_differs (ev.remote_ebook_uid.getD none) ctx.abook_uid = false := by
          simpa using hc1
        simp only [hc1', Bool.false_eq_true, if_false]
        by_cases hc2 : g_strcmp0_differs (ev.remote_name.getD none) ctx.remote_name = true
        · simp only [hc2, if_true]
          obtain ⟨b1, b2, -, b4, b5, -⟩ := exec_spec db
            "UPDATE Remotes SET remote_name = %Q WHERE remote_uid = %Q AND local_uid = %Q;"
            (sqlUpdateRemoteName (ev.remote_name.getD none) ev.remote_uid.value
              ev.local_uid.value)
          generalize rtcom_el_db_exec db
            "UPDATE Remotes SET remote_name = %Q WHERE remote_uid = %Q AND local_uid = %Q;"
            (sqlUpdateRemoteName (ev.remote_name.getD none) ev.remote_uid.value
              ev.local_uid.value) = r2 at *
          obtain ⟨db2, res2⟩ := r2
          cases res2 with
          | error k =>
            have := b5 k rfl
            simp only at this b1 b2 ⊢
            refine ⟨b1, b2, by rw [this], by simp, by simp⟩
          | ok u2 =>
            have ht2 := b4 u2 rfl
            simp only [sqlUpdateRemoteName, Except.ok.injEq, Prod.mk.injEq, and_true] at ht2
            simp only at b1 b2 ht2 ⊢
            refine ⟨b1, b2, by rw [← ht2], by simp, ?_⟩
            intro _ _
            refine ⟨by simp, by simp, fun _ _ => ?_⟩
            rw [← ht2]
        · have hc2' : g_strcmp0_differs (ev.remote_name.getD none) ctx.remote_name = false := by
            simpa using hc2
          simp [hc2']
    · have hex' : ctx.exists = false := by simpa using hex
      simp only [hex', Bool.not_false, if_true]
      obtain ⟨a1, a2, -, a4, a5, -⟩ := exec_spec db
        "INSERT INTO Remotes (local_uid, remote_uid, remote_name, abook_uid) VALUES (%Q, %Q, %Q, %Q);"
        (sqlInsertRemote ev.local_uid.value ev.remote_uid.value
          (ev.remote_name.getD none) (ev.remote_ebook_uid.getD none))
      generalize rtcom_el_db_exec db
        "INSERT INTO Remotes (local_uid, remote_uid, remote_name, abook_uid) VALUES (%Q, %Q, %Q, %Q);"
        (sqlInsertRemote ev.local_uid.value ev.remote_uid.value
          (ev.remote_name.getD none) (ev.remote_ebook_uid.getD none)) = r1 at *
      obtain ⟨db1, res1⟩ := r1
      cases res1 with
      | error k =>
        have := a5 k rfl
        simp only at this a1 a2 ⊢
        refine ⟨a1, a2, by rw [this], by simp, by simp⟩
      | ok u1 =>
        have ht1 := a4 u1 rfl
        simp only at a1 a2 ht1 ⊢
        unfold sqlInsertRemote at ht1
        cases hl : ev.local_uid.value with
        | none => simp [hl] at ht1
        | some lu =>
          cases hr : ev.remote_uid.value with
          | none => simp [hl, hr] at ht1
          | some ru =>
            simp only [hl, hr] at ht1
            split at ht1
            · simp at ht1
            · rename_i hany
              simp only [Except.ok.injEq, Prod.mk.injEq, and_true] at ht1
              refine ⟨a1, a2, by rw [← ht1], by simp, ?_⟩
              intro _ _
              refine ⟨by simp, fun _ _ => ⟨lu, ru, rfl, rfl, by simpa using hany, ?_⟩, by simp⟩
              rw [← ht1]
  · have hset' : ev.remote_uid.is_set = false := by simpa using hset
    simp [hset']

theorem foldl_last {α β : Type} (f : α → β) (init : β) (M : List α) :
    M.foldl (fun _ r => f r) init =
      (match M.getLast? with
       | none => init
       | some l => f l) := by
  induction M generalizing init with
  | nil => simp
  | cons a t ih =>
    rw [List.foldl_cons, ih]
    cases t with
    | nil => simp
    | cons b t' =>
      simp only [List.getLast?_cons_cons]
      rw [List.getLast?_cons]

theorem sqlInsertEvent_frame (row : EventRow) (t t1 : Tables) (n : Int)
    (h : sqlInsertEvent row t = .ok (t1, n)) :
    n = nextRowid (t.Events.map (fun e => e.id)) ∧
    t1.Events = t.Events ++ [{ row with id := n }] ∧
    gc_update_ev_add4 (gc_update_ev_add1 t.GroupCache { row with id := n }) { row with id := n }
      = .ok t1.GroupCache ∧
    t1 = { t with Events := t1.Events, GroupCache := t1.GroupCache } := by
  unfold sqlInsertEvent at h
  simp only at h
  split at h
  · simp at h
  · rename_i gc hgc
    simp only [Except.ok.injEq, Prod.mk.injEq] at h
    obtain ⟨h1, h2⟩ := h
    subst h2
    subst h1
    exact ⟨rfl, rfl, hgc, rfl⟩

/-- What `_add_event_core` does: the bookkeeping it always does, and, when it
does not return -1, the statements that went through. -/
theorem core_spec (el : RTComEl) (ev : RTComElEvent) (sid etid now : Int) :
    (_add_event_core el ev sid etid now).1.db.saved = el.db.saved ∧
    (_add_event_core el ev sid etid now).1.db.fault = el.db.fault ∧
    (_add_event_core el ev sid etid now).1 =
      { (if ev.group_uid.is_set then { el with last_group_uid := ev.group_uid.value } else el)
        with db := (_add_event_core el ev sid etid now).1.db } ∧
    ((_add_event_core el ev sid etid now).2.1 ≠ -1 →
      (_add_event_core el ev sid etid now).2.2 = none ∧
      ∃ t1, sqlInsertEvent (eventRowOf
          (if ev.group_uid.is_set then { el with last_group_uid := ev.group_uid.value } else el)
          ev sid etid now) el.db.tables = .ok (t1, (_add_event_core el ev sid etid now).2.1) ∧
        (_add_event_core el ev sid etid now).1.db.tables =
          { t1 with Remotes := (_add_event_core el ev sid etid now).1.db.tables.Remotes } ∧
        ∃ ctx : remotes_ctx,
          (ev.remote_uid.is_set = false → ctx = ⟨false, none, none⟩) ∧
          (ev.remote_uid.is_set = true →
            ctx = (el.db.tables.Remotes.filter (fun r =>
              sqlEq (some r.remote_uid) ev.remote_uid.value &&
                sqlEq (some r.local_uid) ev.local_uid.value)).foldl
              (fun _ r => _fetch_remote_data r) ⟨false, none, none⟩) ∧
          ∃ db2 : Conn, db2.tables = t1 ∧
            (addEventRemote db2 ev ctx).2 = .ok () ∧
            (_add_event_core el ev sid etid now).1.db.tables.Remotes =
              (addEventRemote db2 ev ctx).1.tables.Remotes) := by
  unfold _add_event_core
  generalize hel1 : (if ev.group_uid.is_set then
      { el with last_group_uid := ev.group_uid.value } else el) = el1
  have hdb : el1.db = el.db := by
    rw [← hel1]; split <;> rfl
  simp only []
  -- the SELECT on Remotes
  have hsel : ∃ db1 res, (if ev.remote_uid.is_set then
        rtcom_el_db_exec el1.db "SELECT abook_uid, remote_name FROM Remotes WHERE remote_uid = %Q AND local_uid = %Q;"
          (sqlSelectRemote ev.remote_uid.value ev.local_uid.value)
      else (el1.db, Except.ok ⟨false, none, none⟩)) = (db1, res) ∧
      db1.saved = el.db.saved ∧ db1.fault = el.db.fault ∧ db1.tables = el.db.tables ∧
      (∀ ctx, res = .ok ctx →
        (ev.remote_uid.is_set = false → ctx = ⟨false, none, none⟩) ∧
        (ev.remote_uid.is_set = true →
          ctx = (el.db.tables.Remotes.filter (fun r =>
            sqlEq (some r.remote_uid) ev.remote_uid.value &&
              sqlEq (some r.local_uid) ev.local_uid.value)).foldl
            (fun _ r => _fetch_remote_data r) ⟨false, none, none⟩)) := by
    by_cases hset : ev.remote_uid.is_set = true
    · simp only [hset, if_true]
      obtain ⟨a1, a2, -, a4, a5, -⟩ := exec_spec el1.db
        "SELECT abook_uid, remote_name FROM Remotes WHERE remote_uid = %Q AND local_uid = %Q;"
        (sqlSelectRemote ev.remote_uid.value ev.local_uid.value)
      generalize rtcom_el_db_exec el1.db
        "SELECT abook_uid, remote_name FROM Remotes WHERE remote_uid = %Q AND local_uid = %Q;"
        (sqlSelectRemote ev.remote_uid.value ev.local_uid.value) = r at *
      obtain ⟨db1, res⟩ := r
      refine ⟨db1, res, rfl, by rw [← hdb]; exact a1, by rw [← hdb]; exact a2, ?_, ?_⟩
      · cases res with
        | error k => rw [← hdb]; exact a5 k rfl
        | ok c =>
          have := a4 c rfl
          simp only [sqlSelectRemote, Except.ok.injEq, Prod.mk.injEq] at this
          rw [← hdb]; exact this.1.symm
      · intro ctx hctx
        subst hctx
        have := a4 ctx rfl
        simp only [sqlSelectRemote, Except.ok.injEq, Prod.mk.injEq] at this
        refine ⟨by simp, fun _ => ?_⟩
        rw [← hdb]; exact this.2.symm
    · have hset' : ev.remote_uid.is_set = false := by simpa using hset
      simp only [hset', Bool.false_eq_true, if_false]
      refine ⟨el1.db, _, rfl, by rw [hdb], by rw [hdb], by rw [hdb], ?_⟩
      intro ctx hctx
      simp only [Except.ok.injEq] at hctx
      exact ⟨fun _ => hctx.symm, by simp⟩
  obtain ⟨db1, res, hres, s1, s2, s3, s4⟩ := hsel
  rw [hres]
  cases res with
  | error k => simp [s1, s2]
  | ok ctx =>
    simp only []
    obtain ⟨b1, b2, -, b4, b5, -⟩ := exec_spec db1 "INSERT INTO Events (...) VALUES (...);"
      (sqlInsertEvent (eventRowOf el1 ev sid etid now))
    generalize rtcom_el_db_exec db1 "INSERT INTO Events (...) VALUES (...);"
      (sqlInsertEvent (eventRowOf el1 ev sid etid now)) = r2 at *
    obtain ⟨db2, res2⟩ := r2
    cases res2 with
    | error k => simp only at b1 b2 ⊢; simp [b1, b2, s1, s2]
    | ok event_id =>
      simp only at b1 b2 b4 ⊢
      have hins := b4 event_id rfl
      rw [s3] at hins
      obtain ⟨c1, c2, c3, -, -⟩ := addEventRemote_spec db2 ev ctx
      generalize hr3 : addEventRemote db2 ev ctx = r3 at *
      obtain ⟨db3, res3⟩ := r3
      cases res3 with
      | error k => simp only at c1 c2 ⊢; simp [c1, c2, b1, b2, s1, s2]
      | ok u =>
        simp only at c1 c2 c3 ⊢
        refine ⟨by rw [c1, b1, s1], by rw [c2, b2, s2], trivial, fun _ => ⟨trivial, db2.tables,
          hins, c3, ctx, (s4 ctx rfl).1, (s4 ctx rfl).2, db2, rfl, ?_, ?_⟩⟩
        · rw [hr3]
        · rw [hr3]

theorem addEventRemote_ok (db : Conn) (ev : RTComElEvent) (ctx : remotes_ctx)
    (hf : db.fault = noFault)
    (hstr : ev.remote_uid.is_set = true →
      ev.remote_uid.value ≠ none ∧ ev.local_uid.value ≠ none)
    (hno : ev.remote_uid.is_set = true → ctx.exists = false →
      ∀ lu ru, ev.local_uid.value = some lu →
      ev.remote_uid.value = some ru →
      (db.tables.Remotes.any (fun x => x.local_uid == lu && x.remote_uid == ru)) = false) :
    (addEventRemote db ev ctx).2 = .ok () := by
  unfold addEventRemote
  by_cases hset : ev.remote_uid.is_set = true
  · simp only [hset, if_true]
    obtain ⟨hru, hlu⟩ := hstr hset
    obtain ⟨ru, hru⟩ := Option.ne_none_iff_exists'.1 hru
    obtain ⟨lu, hlu⟩ := Option.ne_none_iff_exists'.1 hlu
    by_cases hex : ctx.exists = true
    · simp only [hex, Bool.not_true, Bool.false_eq_true, if_false]
      have hA : ∀ (d : Conn), d.fault = noFault →
          ∃ d1, rtcom_el_db_exec d
            "UPDATE Remotes SET abook_uid = %Q WHERE remote_uid = %Q AND local_uid = %Q;"
            (sqlUpdateRemoteAbook (ev.remote_ebook_uid.getD none) ev.remote_uid.value
              ev.local_uid.value) = (d1, .ok ()) ∧ d1.fault = noFault := by
        intro d hd
        obtain ⟨-, a2, -, -, -, a6⟩ := exec_spec d
          "UPDATE Remotes SET abook_uid = %Q WHERE remote_uid = %Q AND local_uid = %Q;"
          (sqlUpdateRemoteAbook (ev.remote_ebook_uid.getD none) ev.remote_uid.value
            ev.local_uid.value)
        generalize rtcom_el_db_exec d
          "UPDATE Remotes SET abook_uid = %Q WHERE remote_uid = %Q AND local_uid = %Q;"
          (sqlUpdateRemoteAbook (ev.remote_ebook_uid.getD none) ev.remote_uid.value
            ev.local_uid.value) = r at *
        obtain ⟨d1, res⟩ := r
        cases res with
        | error k =>
          obtain ⟨c, hc⟩ := a6 hd k rfl
          simp [sqlUpdateRemoteAbook] at hc
        | ok u => exact ⟨d1, rfl, by rw [← hd]; exact a2⟩
      have hB : ∀ (d : Conn), d.fault = noFault →
          (rtcom_el_db_exec d
            "UPDATE Remotes SET remote_name = %Q WHERE remote_uid = %Q AND local_uid = %Q;"
            (sqlUpdateRemoteName (ev.remote_name.getD none) ev.remote_uid.value
              ev.local_uid.value)).2 = .ok () := by
        intro d hd
        obtain ⟨-, -, -, -, -, a6⟩ := exec_spec d
          "UPDATE Remotes SET remote_name = %Q WHERE remote_uid = %Q AND local_uid = %Q;"
          (sqlUpdateRemoteName (ev.remote_name.getD none) ev.remote_uid.value
            ev.local_uid.value)
        generalize rtcom_el_db_exec d
          "UPDATE Remotes SET remote_name = %Q WHERE remote_uid = %Q AND local_uid = %Q;"
          (sqlUpdateRemoteName (ev.remote_name.getD none) ev.remote_uid.value
            ev.local_uid.value) = r at *
        obtain ⟨d1, res⟩ := r
        cases res with
        | error k =>
          obtain ⟨c, hc⟩ := a6 hd k rfl
          simp [sqlUpdateRemoteName] at hc
        | ok u => rfl
      by_cases hc1 : g_strcmp0_differs (ev.remote_ebook_uid.getD none) ctx.abook_uid = true
      · simp only [hc1, if_true]
        obtain ⟨d1, hd1, hf1⟩ := hA db hf
        rw [hd1]
        simp only []
        split
        · exact hB d1 hf1
        · rfl
      · have hc1' : g_strcmp0_differs (ev.remote_ebook_uid.getD none) ctx.abook_uid = false := by
          simpa using hc1
        simp only [hc1', Bool.false_eq_true, if_false]
        split
        · exact hB db hf
        · rfl
    · have hex' : ctx.exists = false := by simpa using hex
      simp only [hex', Bool.not_false, if_true]
      obtain ⟨-, -, -, -, -, a6⟩ := exec_spec db
        "INSERT INTO Remotes (local_uid, remote_uid, remote_name, abook_uid) VALUES (%Q, %Q, %Q, %Q);"
        (sqlInsertRemote ev.local_uid.value ev.remote_uid.value
          (ev.remote_name.getD none) (ev.remote_ebook_uid.getD none))
      generalize rtcom_el_db_exec db
        "INSERT INTO Remotes (local_uid, remote_uid, remote_name, abook_uid) VALUES (%Q, %Q, %Q, %Q);"
        (sqlInsertRemote ev.local_uid.value ev.remote_uid.value
          (ev.remote_name.getD none) (ev.remote_ebook_uid.getD none)) = r at *
      obtain ⟨d1, res⟩ := r
      cases res with
      | error k =>
        obtain ⟨c, hc⟩ := a6 hf k rfl
        simp [sqlInsertRemote, hlu, hru, hno hset hex' lu ru hlu hru] at hc
      | ok u => rfl
  · have hset' : ev.remote_uid.is_set = false := by simpa using hset
    simp [hset']

theorem core_forward (el : RTComEl) (ev : RTComElEvent) (sid etid now : Int)
    (t1 : Tables) (n : Int)
    (hf : el.db.fault = noFault)
    (hstr : ev.remote_uid.is_set = true →
      ev.remote_uid.value ≠ none ∧ ev.local_uid.value ≠ none)
    (hins : sqlInsertEvent (eventRowOf
        (if ev.group_uid.is_set then { el with last_group_uid := ev.group_uid.value } else el)
        ev sid etid now) el.db.tables = .ok (t1, n)) :
    (_add_event_core el ev sid etid now).2.1 = n ∧
    (_add_event_core el ev sid etid now).2.2 = none := by
  unfold _add_event_core
  generalize hel1 : (if ev.group_uid.is_set then
      { el with last_group_uid := ev.group_uid.value } else el) = el1 at *
  have hdb : el1.db = el.db := by
    rw [← hel1]; split <;> rfl
  simp only []
  have hsel : ∃ db1 ctx, (if ev.remote_uid.is_set then
        rtcom_el_db_exec el1.db "SELECT abook_uid, remote_name FROM Remotes WHERE remote_uid = %Q AND local_uid = %Q;"
          (sqlSelectRemote ev.remote_uid.value ev.local_uid.value)
      else (el1.db, Except.ok ⟨false, none, none⟩)) = (db1, .ok ctx) ∧
      db1.fault = noFault ∧ db1.tables = el.db.tables ∧
      (ev.remote_uid.is_set = true → ctx.exists = false →
        ∀ lu ru, ev.local_uid.value = some lu → ev.remote_uid.value = some ru →
        (el.db.tables.Remotes.any (fun x => x.local_uid == lu && x.remote_uid == ru)) = false)
      := by
    by_cases hset : ev.remote_uid.is_set = true
    · simp only [hset, if_true]
      obtain ⟨-, a2, -, a4, -, a6⟩ := exec_spec el1.db
        "SELECT abook_uid, remote_name FROM Remotes WHERE remote_uid = %Q AND local_uid = %Q;"
        (sqlSelectRemote ev.remote_uid.value ev.local_uid.value)
      generalize rtcom_el_db_exec el1.db
        "SELECT abook_uid, remote_name FROM Remotes WHERE remote_uid = %Q AND local_uid = %Q;"
        (sqlSelectRemote ev.remote_uid.value ev.local_uid.value) = r at *
      obtain ⟨db1, res⟩ := r
      cases res with
      | error k =>
        obtain ⟨c, hc⟩ := a6 (by rw [hdb]; exact hf) k rfl
        simp [sqlSelectRemote] at hc
      | ok ctx =>
        have := a4 ctx rfl
        simp only [sqlSelectRemote, Except.ok.injEq, Prod.mk.injEq] at this
        obtain ⟨ht, hc⟩ := this
        refine ⟨db1, ctx, rfl, by rw [← hf, ← hdb]; exact a2, by rw [← hdb]; exact ht.symm, ?_⟩
        intro _ hex lu ru hlu hru
        rw [foldl_last] at hc
        rw [hdb] at hc
        rw [List.any_eq_false]
        intro x hx hm
        have hmem : x ∈ el.db.tables.Remotes.filter (fun r =>
            sqlEq (some r.remote_uid) ev.remote_uid.value &&
              sqlEq (some r.local_uid) ev.local_uid.value) := by
          rw [List.mem_filter]
          refine ⟨hx, ?_⟩
          simp only [Bool.and_eq_true, beq_iff_eq] at hm
          simp [sqlEq, hlu, hru, hm.1, hm.2]
        cases hl : (el.db.tables.Remotes.filter (fun r =>
            sqlEq (some r.remote_uid) ev.remote_uid.value &&
              sqlEq (some r.local_uid) ev.local_uid.value)).getLast? with
        | none =>
          rw [List.getLast?_eq_none_iff] at hl
          rw [hl] at hmem
          simp at hmem
        | some l =>
          rw [hl] at hc
          simp only [_fetch_remote_data] at hc
          rw [← hc] at hex
          simp at hex
    · have hset' : ev.remote_uid.is_set = false := by simpa using hset
      simp only [hset', Bool.false_eq_true, if_false]
      refine ⟨el1.db, _, rfl, by rw [hdb]; exact hf, by rw [hdb], ?_⟩
      intro h
      exact h.elim
  obtain ⟨db1, ctx, hres, s2, s3, s4⟩ := hsel
  rw [hres]
  simp only []
  obtain ⟨-, b2, -, b4, b5, b6⟩ := exec_spec db1 "INSERT INTO Events (...) VALUES (...);"
    (sqlInsertEvent (eventRowOf el1 ev sid etid now))
  generalize rtcom_el_db_exec db1 "INSERT INTO Events (...) VALUES (...);"
    (sqlInsertEvent (eventRowOf el1 ev sid etid now)) = r2 at *
  obtain ⟨db2, res2⟩ := r2
  cases res2 with
  | error k =>
    obtain ⟨c, hc⟩ := b6 s2 k rfl
    rw [s3, hins] at hc
    simp at hc
  | ok event_id =>
    have h4 := b4 event_id rfl
    rw [s3, hins] at h4
    simp only [Except.ok.injEq, Prod.mk.injEq] at h4
    obtain ⟨ht, hn⟩ := h4
    simp only at b2 ht ⊢
    have hrem : db2.tables.Remotes = el.db.tables.Remotes := by
      rw [← ht, (sqlInsertEvent_frame _ _ _ _ hins).2.2.2]
    have hok := addEventRemote_ok db2 ev ctx (by rw [b2, s2]) hstr
      (by intro hs hex lu ru hlu hru; rw [hrem]; exact s4 hs hex lu ru hlu hru)
    generalize addEventRemote db2 ev ctx = r3 at *
    obtain ⟨db3, res3⟩ := r3
    simp only at hok
    subst hok
    exact ⟨hn.symm, rfl⟩

/-! ## `_add_event_precheck` and `rtcom_el_add_event` -/

theorem rewriteLegacy_frame (ev : RTComElEvent) :
    (rewriteLegacyEventType ev).group_uid = ev.group_uid ∧
    (rewriteLegacyEventType ev).remote_uid = ev.remote_uid ∧
    (rewriteLegacyEventType ev).local_uid = ev.local_uid ∧
    (rewriteLegacyEventType ev).remote_name = ev.remote_name ∧
    (rewriteLegacyEventType ev).remote_ebook_uid = ev.remote_ebook_uid ∧
    (rewriteLegacyEventType ev).is_read = ev.is_read ∧
    (rewriteLegacyEventType ev).flags = ev.flags ∧
    (rewriteLegacyEventType ev).service = ev.service := by
  unfold rewriteLegacyEventType
  simp only []
  split_ifs <;> simp

theorem precheck_ok (el : RTComEl) (ev : RTComElEvent)
    (h : (_add_event_precheck el ev).ok = true) :
    el.opened = true ∧ ev.service.is_set = true ∧ ev.event_type.is_set = true ∧
    ev.local_uid.is_set = true ∧
    (_add_event_precheck el ev).ev = rewriteLegacyEventType ev ∧
    (_add_event_precheck el ev).service_id = rtcom_el_get_service_id el ev.service.value ∧
    (_add_event_precheck el ev).service_id ≠ -1 ∧
    (_add_event_precheck el ev).eventtype_id =
      rtcom_el_get_eventtype_id el (rewriteLegacyEventType ev).event_type.value ∧
    (_add_event_precheck el ev).eventtype_id ≠ -1 ∧
    (_add_event_precheck el ev).error = none := by
  unfold _add_event_precheck at h ⊢
  unfold _ensure_db at h ⊢
  simp only [] at h ⊢
  split_ifs at h ⊢
  simp_all

/-- The successful path of `rtcom_el_add_event`, read backwards: a return value
other than -1 means that the precheck passed, BEGIN went through, the core ran
on the tables as they were and its result was committed. -/
theorem add_event_inv (el : RTComEl) (ev : RTComElEvent) (now : Int)
    (h : (rtcom_el_add_event el ev now).ret ≠ -1) :
    (_add_event_precheck el ev).ok = true ∧
    (rtcom_el_add_event el ev now).ev = (_add_event_precheck el ev).ev ∧
    ∃ dbt : Conn, dbt.tables = el.db.tables ∧ dbt.fault = el.db.fault ∧
      (_add_event_core { el with db := dbt } (_add_event_precheck el ev).ev
          (_add_event_precheck el ev).service_id (_add_event_precheck el ev).eventtype_id
          now).2.1 = (rtcom_el_add_event el ev now).ret ∧
      (rtcom_el_add_event el ev now).el.db.tables =
        (_add_event_core { el with db := dbt } (_add_event_precheck el ev).ev
          (_add_event_precheck el ev).service_id (_add_event_precheck el ev).eventtype_id
          now).1.db.tables ∧
      (rtcom_el_add_event el ev now).el.db.saved = none := by
  unfold rtcom_el_add_event at h ⊢
  simp only [] at h ⊢
  by_cases hpc : (_add_event_precheck el ev).ok = true
  · simp only [hpc, Bool.not_true, Bool.false_eq_true, if_false] at h ⊢
    obtain ⟨t1, t2, t3, t4, -⟩ := transaction_spec el.db true
    generalize rtcom_el_db_transaction el.db true = tr at *
    obtain ⟨db1, ok1, err1⟩ := tr
    cases ok1 with
    | false => simp at h
    | true =>
      simp only [] at h t1 t2 t3 ⊢
      generalize hc : _add_event_core { el with db := db1 } (_add_event_precheck el ev).ev
        (_add_event_precheck el ev).service_id (_add_event_precheck el ev).eventtype_id now = c
        at *
      obtain ⟨el2, event_id, err⟩ := c
      simp only [] at h ⊢
      by_cases hid : (event_id == -1) = true
      · simp [hid] at h
      · simp only [hid, Bool.false_eq_true, if_false] at h ⊢
        obtain ⟨c1, c2, c3, -, -⟩ := commit_spec el2.db
        generalize rtcom_el_db_commit el2.db = cm at *
        obtain ⟨db3, ok3, err3⟩ := cm
        cases ok3 with
        | false => simp at h
        | true =>
          simp only [] at h c2 c3 ⊢
          refine ⟨trivial, trivial, db1, t2, t1, ?_, ?_, ?_⟩
          · rw [hc]
          · rw [hc]; exact c2
          · exact c3 trivial
  · simp [hpc] at h

/-- The successful path of `rtcom_el_add_event`, read forwards. -/
theorem add_event_forward (el : RTComEl) (ev : RTComElEvent) (now : Int)
    (hauto : el.db.saved = none) (hfault : el.db.fault = noFault)
    (hpc : (_add_event_precheck el ev).ok = true) :
    ∃ dbt : Conn, dbt.tables = el.db.tables ∧ dbt.fault = noFault ∧
      ((_add_event_core { el with db := dbt } (_add_event_precheck el ev).ev
          (_add_event_precheck el ev).service_id (_add_event_precheck el ev).eventtype_id
          now).2.1 ≠ -1 →
        (rtcom_el_add_event el ev now).ret =
          (_add_event_core { el with db := dbt } (_add_event_precheck el ev).ev
            (_add_event_precheck el ev).service_id (_add_event_precheck el ev).eventtype_id
            now).2.1 ∧
        (rtcom_el_add_event el ev now).error = none ∧
        (rtcom_el_add_event el ev now).el.db.tables =
          (_add_event_core { el with db := dbt } (_add_event_precheck el ev).ev
            (_add_event_precheck el ev).service_id (_add_event_precheck el ev).eventtype_id
            now).1.db.tables) := by
  unfold rtcom_el_add_event
  simp only [hpc, Bool.not_true, Bool.false_eq_true, if_false]
  obtain ⟨t1, t2, t3, -, t5⟩ := transaction_spec el.db true
  have hok := t5 hauto hfault
  generalize rtcom_el_db_transaction el.db true = tr at *
  obtain ⟨db1, ok1, err1⟩ := tr
  simp only [] at hok t1 t2 t3
  subst hok
  simp only []
  refine ⟨db1, t2, by rw [t1, hfault], ?_⟩
  obtain ⟨k1, k2, -, -⟩ := core_spec { el with db := db1 } (_add_event_precheck el ev).ev
    (_add_event_precheck el ev).service_id (_add_event_precheck el ev).eventtype_id now
  generalize hc : _add_event_core { el with db := db1 } (_add_event_precheck el ev).ev
    (_add_event_precheck el ev).service_id (_add_event_precheck el ev).eventtype_id now = c
    at *
  obtain ⟨el2, event_id, err⟩ := c
  simp only [] at k1 k2 ⊢
  intro hid
  have hid' : (event_id == -1) = false := by simpa using hid
  simp only [hid', Bool.false_eq_true, if_false]
  obtain ⟨c1, c2, -, -, c5⟩ := commit_spec el2.db
  have hcok := c5 (by rw [k1, (t3 rfl).2]; simp) (by rw [k2, t1, hfault])
  generalize rtcom_el_db_commit el2.db = cm at *
  obtain ⟨db3, ok3, err3⟩ := cm
  simp only [] at hcok c2
  subst hcok
  exact ⟨rfl, rfl, c2⟩

theorem Coherent_congr (t t' : Tables) (h : Coherent t)
    (h1 : t'.Events = t.Events) (h2 : t'.GroupCache = t.GroupCache) : Coherent t' := by
  unfold Coherent at h ⊢
  rw [h1, h2]
  exact h

theorem sqlInsertEvent_ok_of_triggers (row : EventRow) (t : Tables) (gc : List GroupCacheRow)
    (h : gc_update_ev_add4
      (gc_update_ev_add1 t.GroupCache { row with id := nextRowid (t.Events.map (fun e => e.id)) })
      { row with id := nextRowid (t.Events.map (fun e => e.id)) } = .ok gc) :
    sqlInsertEvent row t = .ok ({ t with
      Events := t.Events ++ [{ row with id := nextRowid (t.Events.map (fun e => e.id)) }],
      GroupCache := gc }, nextRowid (t.Events.map (fun e => e.id))) := by
  unfold sqlInsertEvent
  simp only [h]

/-- C2 (code at the failing input): two events of group "G" both carry flag
RTCOM_EL_FLAG_CHAT_GROUP (value 1) and GroupCache is coherent.  Unsetting the
flag on event 1 succeeds, and trigger gc_update_ev_update leaves flags = 0 in
the cache row although event 2 still carries the flag: the OR of the flags of
the group is 1. -/
theorem C2_unset_flag_clears_shared_flag :
    Coherent (sampleTables [sampleRow 1 1 (some "G") 1 false, sampleRow 2 1 (some "G") 1 false]
      [⟨2, 1, "G", 2, 0, 1⟩] []) ∧
    (rtcom_el_unset_event_flag (sampleLogger (sampleTables
      [sampleRow 1 1 (some "G") 1 false, sampleRow 2 1 (some "G") 1 false]
      [⟨2, 1, "G", 2, 0, 1⟩] [])) 1 (some "RTCOM_EL_FLAG_CHAT_GROUP")).ret = 0 ∧
    (rtcom_el_unset_event_flag (sampleLogger (sampleTables
      [sampleRow 1 1 (some "G") 1 false, sampleRow 2 1 (some "G") 1 false]
      [⟨2, 1, "G", 2, 0, 1⟩] [])) 1 (some "RTCOM_EL_FLAG_CHAT_GROUP")).el.db.tables.GroupCache =
      [⟨2, 1, "G", 2, 0, 0⟩] ∧
    flagsOr (groupEvents (rtcom_el_unset_event_flag (sampleLogger (sampleTables
      [sampleRow 1 1 (some "G") 1 false, sampleRow 2 1 (some "G") 1 false]
      [⟨2, 1, "G", 2, 0, 1⟩] [])) 1 (some "RTCOM_EL_FLAG_CHAT_GROUP")).el.db.tables.Events
      "G") = 1 := by
  decide!

/-- C3 (code at the failing input): group "G" holds events 1 and 2, both with
flags = 1, and event 3; GroupCache is coherent.  `rtcom_el_delete_event` of
event 3 collects a list of one node, so `update_group_cache` reads no released
node; the call succeeds and `update_group_cache` rewrites the row with
event_id = 2, total_events = 2, read_events = 1 and flags = SUM(flags) = 2,
while the OR of the remaining flags is 1. -/
theorem C3_repair_sums_flags :
    Coherent (sampleTables [sampleRow 1 1 (some "G") 1 false, sampleRow 2 1 (some "G") 1 true,
      sampleRow 3 1 (some "G") 0 false] [⟨3, 1, "G", 3, 1, 1⟩] []) ∧
    (rtcom_el_delete_event (sampleLogger (sampleTables
      [sampleRow 1 1 (some "G") 1 false, sampleRow 2 1 (some "G") 1 true,
        sampleRow 3 1 (some "G") 0 false] [⟨3, 1, "G", 3, 1, 1⟩] [])) 3).map
      (fun res => res.ret) = some 0 ∧
    (rtcom_el_delete_event (sampleLogger (sampleTables
      [sampleRow 1 1 (some "G") 1 false, sampleRow 2 1 (some "G") 1 true,
        sampleRow 3 1 (some "G") 0 false] [⟨3, 1, "G", 3, 1, 1⟩] [])) 3).map
      (fun res => res.el.db.tables.GroupCache) = some [⟨2, 1, "G", 2, 1, 2⟩] ∧
    (rtcom_el_delete_event (sampleLogger (sampleTables
      [sampleRow 1 1 (some "G") 1 false, sampleRow 2 1 (some "G") 1 true,
        sampleRow 3 1 (some "G") 0 false] [⟨3, 1, "G", 3, 1, 1⟩] [])) 3).map
      (fun res => flagsOr (groupEvents res.el.db.tables.Events "G")) = some 1 := by
  decide!

/-- C4 (code at the failing input): group "G" holds two events and has its
cache row.  `rtcom_el_delete_all` succeeds and leaves no event, but the
GroupCache row of "G" is still there. -/
theorem C4_delete_all_keeps_cache_rows :
    (rtcom_el_delete_all (sampleLogger (sampleTables
      [sampleRow 1 1 (some "G") 0 false, sampleRow 2 1 (some "G") 0 false]
      [⟨2, 1, "G", 2, 0, 0⟩] []))).ret = 1 ∧
    (rtcom_el_delete_all (sampleLogger (sampleTables
      [sampleRow 1 1 (some "G") 0 false, sampleRow 2 1 (some "G") 0 false]
      [⟨2, 1, "G", 2, 0, 0⟩] []))).el.db.tables.Events = [] ∧
    (rtcom_el_delete_all (sampleLogger (sampleTables
      [sampleRow 1 1 (some "G") 0 false, sampleRow 2 1 (some "G") 0 false]
      [⟨2, 1, "G", 2, 0, 0⟩] []))).el.db.tables.GroupCache = [⟨2, 1, "G", 2, 0, 0⟩] := by
  decide

/-! ## The query compiler -/

theorem intercalate_go_eq (s : String) (l : List String) (acc : String) :
    String.intercalate.go acc s l = acc ++ String.intercalate.go "" s l := by
  induction l generalizing acc with
  | nil => simp [String.intercalate.go]
  | cons a t ih =>
    simp only [String.intercalate.go]
    rw [ih (acc ++ s ++ a), ih ("" ++ s ++ a)]
    simp [String.append_assoc]

theorem intercalate_cons_cons (s a b : String) (t : List String) :
    String.intercalate s (a :: b :: t) = a ++ s ++ String.intercalate s (b :: t) := by
  simp only [String.intercalate, String.intercalate.go]
  rw [intercalate_go_eq s t (a ++ s ++ b), intercalate_go_eq s t b]
  simp [String.append_assoc]

/-- A fragment is appended to the buffer as it is. -/
theorem build_where_clause_append (q : RTComElQuery) (key : String) (val : QueryVal)
    (op : RTComElOp) (ret : String) :
    _build_where_clause q key val op ret =
      ((_build_where_clause q key val op "").1,
        ret ++ (_build_where_clause q key val op "").2) := by
  unfold _build_where_clause
  split
  · simp
  · split
    · split <;> simp [String.append_assoc]
    · split <;> simp [String.append_assoc]
    · split
      · simp [String.append_assoc]
      · split
        · simp [String.append_assoc]
        · split <;> simp [String.append_assoc]
    · simp

/-- The loop of `rtcom_el_query_prepare` joins the fragments with " AND ". -/
theorem buildWhere_eq (q : RTComElQuery) (preds : List (String × QueryVal × RTComElOp))
    (buf : String) :
    buildWhere q preds buf =
      if preds.all (fun p => (_build_where_clause q p.1 p.2.1 p.2.2 "").1) then
        some (buf ++ String.intercalate " AND "
          (preds.map (fun p => (_build_where_clause q p.1 p.2.1 p.2.2 "").2)))
      else none := by
  induction preds generalizing buf with
  | nil => simp [buildWhere, String.intercalate]
  | cons p rest ih =>
    obtain ⟨col, val, op⟩ := p
    unfold buildWhere
    rw [build_where_clause_append]
    cases hok : (_build_where_clause q col val op "").1 with
    | false => simp [hok]
    | true =>
      simp only [List.all_cons, hok, Bool.true_and, List.map_cons]
      rw [ih]
      cases rest with
      | nil => simp [String.intercalate, String.intercalate.go]
      | cons p2 rest2 =>
        simp only [List.isEmpty_cons, Bool.false_eq_true, if_false, List.map_cons]
        rw [intercalate_cons_cons]
        split <;> simp [String.append_assoc]

theorem leftJoin_ne_nil {α : Type} (l : List α) : leftJoin l ≠ [] := by
  unfold leftJoin
  cases l <;> simp

theorem flatMap_head {α β : Type} (l : List α) (f : α → List β) (Q : α → β → Prop)
    (hl : l ≠ []) (hf : ∀ a ∈ l, ∃ b, (f a).head? = some b ∧ Q a b) :
    ∃ a ∈ l, ∃ b, (l.flatMap f).head? = some b ∧ Q a b := by
  cases l with
  | nil => exact absurd rfl hl
  | cons a t =>
    obtain ⟨b, hb, hq⟩ := hf a (List.mem_cons_self a t)
    refine ⟨a, List.mem_cons_self a t, b, ?_, hq⟩
    cases hfa : f a with
    | nil => rw [hfa] at hb; simp at hb
    | cons c cs =>
      rw [hfa] at hb
      simp only [List.head?_cons, Option.some.injEq] at hb
      simp [List.flatMap_cons, hfa, hb]

/-- The first row of the query on the id of the newest event. -/
theorem sqlSelectById_new (t : Tables) (old : List EventRow) (new : EventRow)
    (hev : t.Events = old ++ [new]) (hold : ∀ e ∈ old, e.id ≠ new.id)
    (hS : ∃ s ∈ t.Services, s.id = new.service_id)
    (hT : ∃ et ∈ t.EventTypes, et.id = new.event_type_id) :
    ∃ s et r h, (sqlSelectById t new.id).head? = some (columnsOf new s et r h) ∧
      r ∈ leftJoin (t.Remotes.filter (fun r =>
        sqlEq new.remote_uid (some r.remote_uid) && sqlEq new.local_uid (some r.local_uid))) := by
  unfold sqlSelectById
  have hfil : t.Events.filter (fun e => e.id == new.id) = [new] := by
    rw [hev, List.filter_append]
    have h1 : old.filter (fun e => e.id == new.id) = [] := by
      rw [List.filter_eq_nil_iff]
      intro a ha
      simpa using hold a ha
    rw [h1]
    simp [List.filter]
  rw [hfil]
  simp only [List.flatMap_cons, List.flatMap_nil, List.append_nil]
  obtain ⟨s0, hs0, hs0id⟩ := hS
  obtain ⟨e0, he0, he0id⟩ := hT
  have hSne : t.Services.filter (fun s => s.id == new.service_id) ≠ [] := by
    apply List.ne_nil_of_mem (a := s0)
    rw [List.mem_filter]
    exact ⟨hs0, by simp [hs0id]⟩
  have hTne : t.EventTypes.filter (fun et => et.id == new.event_type_id) ≠ [] := by
    apply List.ne_nil_of_mem (a := e0)
    rw [List.mem_filter]
    exact ⟨he0, by simp [he0id]⟩
  have h4 : ∀ (s et : NameRow) (r : Option RemoteRow), ∃ b,
      ((leftJoin (t.Headers.filter (fun h =>
        h.event_id == new.id && h.name == "message-token"))).map (fun h =>
          columnsOf new s et r h)).head? = some b ∧ ∃ h, b = columnsOf new s et r h := by
    intro s et r
    cases hH : leftJoin (t.Headers.filter (fun h =>
        h.event_id == new.id && h.name == "message-token")) with
    | nil => exact absurd hH (leftJoin_ne_nil _)
    | cons h0 hs => exact ⟨columnsOf new s et r h0, by simp, h0, rfl⟩
  have h3 : ∀ (s et : NameRow), ∃ b,
      ((leftJoin (t.Remotes.filter (fun r =>
          sqlEq new.remote_uid (some r.remote_uid) &&
            sqlEq new.local_uid (some r.local_uid)))).flatMap (fun r =>
        (leftJoin (t.Headers.filter (fun h =>
          h.event_id == new.id && h.name == "message-token"))).map (fun h =>
            columnsOf new s et r h))).head? = some b ∧
      ∃ r h, b = columnsOf new s et r h ∧
        r ∈ leftJoin (t.Remotes.filter (fun r =>
          sqlEq new.remote_uid (some r.remote_uid) &&
            sqlEq new.local_uid (some r.local_uid))) := by
    intro s et
    obtain ⟨r, hr, b, hb, h, hh⟩ := flatMap_head
      (leftJoin (t.Remotes.filter (fun r =>
          sqlEq new.remote_uid (some r.remote_uid) &&
            sqlEq new.local_uid (some r.local_uid))))
      (fun r => (leftJoin (t.Headers.filter (fun h =>
          h.event_id == new.id && h.name == "message-token"))).map (fun h =>
            columnsOf new s et r h))
      (fun r b => ∃ h, b = columnsOf new s et r h)
      (leftJoin_ne_nil _) (fun r _ => h4 s et r)
    exact ⟨b, hb, r, h, hh, hr⟩
  have h2 : ∀ (s : NameRow), ∃ b,
      ((t.EventTypes.filter (fun et => et.id == new.event_type_id)).flatMap (fun et =>
        (leftJoin (t.Remotes.filter (fun r =>
          sqlEq new.remote_uid (some r.remote_uid) &&
            sqlEq new.local_uid (some r.local_uid)))).flatMap (fun r =>
        (leftJoin (t.Headers.filter (fun h =>
          h.event_id == new.id && h.name == "message-token"))).map (fun h =>
            columnsOf new s et r h)))).head? = some b ∧
      ∃ et r h, b = columnsOf new s et r h ∧
        r ∈ leftJoin (t.Remotes.filter (fun r =>
          sqlEq new.remote_uid (some r.remote_uid) &&
            sqlEq new.local_uid (some r.local_uid))) := by
    intro s
    obtain ⟨et, -, b, hb, hq⟩ := flatMap_head
      (t.EventTypes.filter (fun et => et.id == new.event_type_id))
      (fun et => (leftJoin (t.Remotes.filter (fun r =>
          sqlEq new.remote_uid (some r.remote_uid) &&
            sqlEq new.local_uid (some r.local_uid)))).flatMap (fun r =>
        (leftJoin (t.Headers.filter (fun h =>
          h.event_id == new.id && h.name == "message-token"))).map (fun h =>
            columnsOf new s et r h)))
      (fun et b => ∃ r h, b = columnsOf new s et r h ∧
        r ∈ leftJoin (t.Remotes.filter (fun r =>
          sqlEq new.remote_uid (some r.remote_uid) &&
            sqlEq new.local_uid (some r.local_uid))))
      hTne (fun et _ => h3 s et)
    exact ⟨b, hb, et, hq⟩
  obtain ⟨s, -, b, hb, et, r, h, hcol, hr⟩ := flatMap_head
    (t.Services.filter (fun s => s.id == new.service_id))
    (fun s => (t.EventTypes.filter (fun et => et.id == new.event_type_id)).flatMap (fun et =>
        (leftJoin (t.Remotes.filter (fun r =>
          sqlEq new.remote_uid (some r.remote_uid) &&
            sqlEq new.local_uid (some r.local_uid)))).flatMap (fun r =>
        (leftJoin (t.Headers.filter (fun h =>
          h.event_id == new.id && h.name == "message-token"))).map (fun h =>
            columnsOf new s et r h))))
    (fun s b => ∃ et r h, b = columnsOf new s et r h ∧
        r ∈ leftJoin (t.Remotes.filter (fun r =>
          sqlEq new.remote_uid (some r.remote_uid) &&
            sqlEq new.local_uid (some r.local_uid))))
    hSne (fun s _ => h2 s)
  exact ⟨s, et, r, h, by rw [hb, hcol], hr⟩

theorem map_if {α : Type} (c : Bool) (f : α → α) (R : List α) :
    (if c = true then R.map f else R) = R.map (fun x => if c = true then f x else x) := by
  cases c <;> simp

/-- The Remote rows of an event's pair after `_add_event_core` wrote them. -/
theorem addEventRemote_after (db : Conn) (ev : RTComElEvent) (ctx : remotes_ctx)
    (hset : ev.remote_uid.is_set = true)
    (hctx : ctx = (db.tables.Remotes.filter (fun r =>
        sqlEq (some r.remote_uid) ev.remote_uid.value &&
          sqlEq (some r.local_uid) ev.local_uid.value)).foldl
        (fun _ r => _fetch_remote_data r) ⟨false, none, none⟩)
    (hok : (addEventRemote db ev ctx).2 = .ok ())
    (hname : ev.remote_name.is_set = true → ev.remote_name.value ≠ none)
    (hslip : ev.remote_ebook_uid.is_set = true → ∀ x ∈ db.tables.Remotes,
      some x.local_uid = ev.local_uid.value → some x.remote_uid = ev.remote_uid.value →
        x.remote_name ≠ ev.remote_ebook_uid.value) :
    ∃ lu ru, ev.local_uid.value = some lu ∧ ev.remote_uid.value = some ru ∧
      (∃ x ∈ (addEventRemote db ev ctx).1.tables.Remotes, x.local_uid = lu ∧ x.remote_uid = ru) ∧
      ∀ x ∈ (addEventRemote db ev ctx).1.tables.Remotes, x.local_uid = lu → x.remote_uid = ru →
        (ev.remote_name.is_set = true → x.remote_name = ev.remote_name.value) ∧
        (ev.remote_ebook_uid.is_set = true → x.abook_uid = ev.remote_ebook_uid.value) := by
  obtain ⟨-, -, -, -, hrem⟩ := addEventRemote_spec db ev ctx
  obtain ⟨-, hins, hupd⟩ := hrem () hok
  by_cases hex : ctx.exists = true
  · have hRR := hupd hset hex
    rw [foldl_last] at hctx
    cases hl : (db.tables.Remotes.filter (fun r =>
        sqlEq (some r.remote_uid) ev.remote_uid.value &&
          sqlEq (some r.local_uid) ev.local_uid.value)).getLast? with
    | none =>
      rw [hl] at hctx
      rw [hctx] at hex
      simp at hex
    | some last =>
      rw [hl] at hctx
      simp only [] at hctx
      have hlast := List.mem_of_getLast?_eq_some hl
      rw [List.mem_filter] at hlast
      obtain ⟨hlR, hlm⟩ := hlast
      cases hru : ev.remote_uid.value with
      | none => simp [sqlEq, hru] at hlm
      | some ru =>
        cases hlu : ev.local_uid.value with
        | none => simp [sqlEq, hru, hlu] at hlm
        | some lu =>
          simp only [sqlEq, hru, hlu, Bool.and_eq_true, beq_iff_eq] at hlm
          have hcn : ctx.remote_name = none := by rw [hctx]; rfl
          have hca : ctx.abook_uid = last.remote_name := by rw [hctx]; rfl
          rw [hcn, hca, hru, hlu] at hRR
          have hda : ev.remote_ebook_uid.is_set = true →
              g_strcmp0_differs (ev.remote_ebook_uid.getD none) last.remote_name = true := by
            intro h
            have := hslip h last hlR (by rw [hlu, hlm.2]) (by rw [hru, hlm.1])
            simp only [g_strcmp0_differs, Field.getD, h, if_true, bne_iff_ne, ne_eq]
            exact fun e => this e.symm
          have hdn : ev.remote_name.is_set = true →
              g_strcmp0_differs (ev.remote_name.getD none) none = true := by
            intro h
            simp only [g_strcmp0_differs, Field.getD, h, if_true, bne_iff_ne, ne_eq]
            exact hname h
          have hmap : (addEventRemote db ev ctx).1.tables.Remotes =
              db.tables.Remotes.map (fun x =>
                if x.remote_uid = ru ∧ x.local_uid = lu then
                  { x with
                    abook_uid :=
                      if g_strcmp0_differs (ev.remote_ebook_uid.getD none) last.remote_name
                      then ev.remote_ebook_uid.getD none else x.abook_uid,
                    remote_name :=
                      if g_strcmp0_differs (ev.remote_name.getD none) none
                      then ev.remote_name.getD none else x.remote_name }
                else x) := by
            rw [hRR]
            simp only [sqlEq, map_if]
            simp only [List.map_map]
            apply List.map_congr_left
            intro x _
            by_cases hm : x.remote_uid = ru ∧ x.local_uid = lu <;>
              cases g_strcmp0_differs (ev.remote_ebook_uid.getD none) last.remote_name <;>
              cases g_strcmp0_differs (ev.remote_name.getD none) none <;>
              simp [hm]
            obtain ⟨h1, h2⟩ := hm
            subst h1
            subst h2
            rfl
          refine ⟨lu, ru, rfl, rfl, ?_, ?_⟩
          · rw [hmap]
            refine ⟨_, List.mem_map_of_mem _ hlR, ?_⟩
            simp only [hlm.1, hlm.2, and_self, if_true]
          · intro x hx hxl hxr
            rw [hmap, List.mem_map] at hx
            obtain ⟨y, -, hy⟩ := hx
            by_cases hm : y.remote_uid = ru ∧ y.local_uid = lu
            · simp only [hm, and_self, if_true] at hy
              subst hy
              constructor
              · intro h
                simp only [hdn h, if_true]
                simp only [Field.getD, h, if_true]
              · intro h
                simp only [hda h, if_true]
                simp only [Field.getD, h, if_true]
            · simp only [hm, if_false] at hy
              subst hy
              exact absurd ⟨hxr, hxl⟩ hm
  · have hex' : ctx.exists = false := by simpa using hex
    obtain ⟨lu, ru, hlu, hru, hany, hRR⟩ := hins hset hex'
    refine ⟨lu, ru, hlu, hru, ?_, ?_⟩
    · rw [hRR]
      exact ⟨_, List.mem_append_right _ (List.mem_singleton_self _), rfl, rfl⟩
    · intro x hx hxl hxr
      rw [hRR, List.mem_append, List.mem_singleton] at hx
      rcases hx with hx | hx
      · have := (List.any_eq_false.1 hany) x hx
        simp [hxl, hxr] at this
      · rw [hx]
        constructor
        · intro h; simp [Field.getD, h]
        · intro h; simp [Field.getD, h]

theorem add_event_opened (el : RTComEl) (ev : RTComElEvent) (now : Int) :
    (rtcom_el_add_event el ev now).el.opened = el.opened := by
  unfold rtcom_el_add_event
  simp only []
  split
  · rfl
  · generalize rtcom_el_db_transaction el.db true = tr
    obtain ⟨db1, b, err⟩ := tr
    cases b with
    | false => rfl
    | true =>
      simp only []
      have hc := (core_spec { el with db := db1 } (_add_event_precheck el ev).ev
        (_add_event_precheck el ev).service_id (_add_event_precheck el ev).eventtype_id now).2.2.1
      generalize _add_event_core { el with db := db1 } (_add_event_precheck el ev).ev
        (_add_event_precheck el ev).service_id (_add_event_precheck el ev).eventtype_id now = r at hc
      obtain ⟨el2, event_id, err2⟩ := r
      simp only [] at hc
      have ho : el2.opened = el.opened := by
        rw [hc]; split <;> rfl
      simp only []
      split
      · exact ho
      · generalize rtcom_el_db_commit el2.db = cm
        obtain ⟨db3, b3, err3⟩ := cm
        cases b3 <;> exact ho

theorem eventRowOf_rewrite (el : RTComEl) (ev : RTComElEvent) (sid etid now : Int) :
    eventRowOf el (rewriteLegacyEventType ev) sid etid now =
      { eventRowOf el ev sid etid now with
        outgoing := (rewriteLegacyEventType ev).outgoing.getD false } := by
  unfold rewriteLegacyEventType
  simp only []
  split_ifs <;> rfl

theorem event_equals_rewrite (ev r : RTComElEvent) :
    rtcom_el_event_equals (rewriteLegacyEventType ev) r = rtcom_el_event_equals ev r := by
  unfold rewriteLegacyEventType
  simp only []
  split_ifs <;> rfl

/-- The state after a successful `rtcom_el_add_event`. -/
theorem add_event_post (el : RTComEl) (ev : RTComElEvent) (now : Int)
    (hok : (rtcom_el_add_event el ev now).ret ≠ -1) :
    (rtcom_el_add_event el ev now).ev = rewriteLegacyEventType ev ∧
    (rtcom_el_add_event el ev now).el.db.tables.Services = el.db.tables.Services ∧
    (rtcom_el_add_event el ev now).el.db.tables.EventTypes = el.db.tables.EventTypes ∧
    (∀ e ∈ el.db.tables.Events, e.id ≠ (rtcom_el_add_event el ev now).ret) ∧
    (∃ (el1 : RTComEl),
      (rtcom_el_add_event el ev now).el.db.tables.Events = el.db.tables.Events ++
        [{ eventRowOf el1 ev (_add_event_precheck el ev).service_id
            (_add_event_precheck el ev).eventtype_id now with
            id := (rtcom_el_add_event el ev now).ret,
            outgoing := (rewriteLegacyEventType ev).outgoing.getD false }]) ∧
    ∃ (ctx : remotes_ctx) (db2 : Conn),
      db2.tables.Remotes = el.db.tables.Remotes ∧
      (ev.remote_uid.is_set = true →
        ctx = (el.db.tables.Remotes.filter (fun r =>
          sqlEq (some r.remote_uid) ev.remote_uid.value &&
            sqlEq (some r.local_uid) ev.local_uid.value)).foldl
          (fun _ r => _fetch_remote_data r) ⟨false, none, none⟩) ∧
      (addEventRemote db2 (rewriteLegacyEventType ev) ctx).2 = .ok () ∧
      (rtcom_el_add_event el ev now).el.db.tables.Remotes =
        (addEventRemote db2 (rewriteLegacyEventType ev) ctx).1.tables.Remotes := by
  obtain ⟨hpc, hev, dbt, dt, -, hc1, hc2, -⟩ := add_event_inv el ev now hok
  obtain ⟨-, -, -, -, pev, -, -, -, -, -⟩ := precheck_ok el ev hpc
  obtain ⟨-, rr, rl, -, -, -, -, -⟩ := rewriteLegacy_frame ev
  rw [pev] at hc1 hc2 hev
  have hcs := (core_spec { el with db := dbt } (rewriteLegacyEventType ev)
    (_add_event_precheck el ev).service_id (_add_event_precheck el ev).eventtype_id now).2.2.2
  rw [eventRowOf_rewrite] at hcs
  generalize _add_event_core { el with db := dbt } (rewriteLegacyEventType ev)
    (_add_event_precheck el ev).service_id (_add_event_precheck el ev).eventtype_id now = cr
    at hc1 hc2 hcs
  generalize (if (rewriteLegacyEventType ev).group_uid.is_set = true then
      { ({ el with db := dbt } : RTComEl) with
        last_group_uid := (rewriteLegacyEventType ev).group_uid.value }
    else { el with db := dbt }) = el1 at hcs
  generalize rtcom_el_add_event el ev now = res at hok hc1 hc2 hev ⊢
  simp only [dt, rr, rl] at hcs
  rw [hc1, ← hc2] at hcs
  obtain ⟨-, t1, ht1, htab, ctx, -, hctx, db2, hdb2, hrok, hR⟩ := hcs hok
  obtain ⟨hret, hEv, -, hfr⟩ := sqlInsertEvent_frame _ _ _ _ ht1
  simp only [] at hEv
  refine ⟨hev, ?_, ?_, ?_, ⟨el1, ?_⟩,
    ctx, db2, ?_, hctx, hrok, hR⟩
  · rw [htab, hfr]
  · rw [htab, hfr]
  · intro e he
    have := lt_nextRowid (el.db.tables.Events.map (fun e => e.id)) e.id
      (List.mem_map_of_mem _ he)
    rw [hret]
    omega
  · rw [htab]
    simp only []
    rw [hEv]
  · rw [hdb2, hfr]

theorem intField_unset (f g : Field Int) (h : f.is_set = false) :
    intFieldDiffers f g = false := by
  simp [intFieldDiffers, h]

theorem intField_stored (f : Field Int) (d : Int) :
    intFieldDiffers f (Field.set (f.getD d)) = false := by
  cases h : f.is_set <;> simp [intFieldDiffers, Field.getD, Field.set, h]

theorem strField_stored (f : Field (Option String)) (v : Option String)
    (hn : f.nonNull = true) (h : f.is_set = true → v = f.value) :
    strFieldDiffers f (Field.set v) = false := by
  cases hs : f.is_set with
  | false => simp [strFieldDiffers, hs]
  | true =>
    rw [h hs]
    cases hv : f.value with
    | none => simp [Field.nonNull, hs, hv] at hn
    | some a => simp [strFieldDiffers, Field.set, hs, hv]

theorem head_mem {α : Type} (l : List α) (a : α) (h : l.head? = some a) : a ∈ l := by
  cases l with
  | nil => simp at h
  | cons b t =>
    simp only [List.head?_cons, Option.some.injEq] at h
    rw [h]
    exact List.mem_cons_self _ _

/-- The name columns of every row of the query come from the rows of Services
and EventTypes that carry the ids of the event. -/
theorem sqlSelectById_mem (t : Tables) (event_id : Int) (c : Columns)
    (hc : c ∈ sqlSelectById t event_id) :
    ∃ s ∈ t.Services, ∃ et ∈ t.EventTypes, s.id = c.service_id ∧ et.id = c.event_type_id ∧
      c.service = some s.name ∧ c.event_type = some et.name := by
  unfold sqlSelectById at hc
  simp only [List.mem_flatMap, List.mem_filter, List.mem_map] at hc
  obtain ⟨e, -, s, ⟨hs, hsid⟩, et, ⟨het, hetid⟩, r, -, h, -, rfl⟩ := hc
  exact ⟨s, hs, et, het, by simpa using hsid, by simpa using hetid, rfl, rfl⟩

/-- The fields that the legacy rewriting leaves alone, besides those of
`rewriteLegacy_frame`. -/
theorem rewriteLegacy_frame_rest (ev : RTComElEvent) :
    (rewriteLegacyEventType ev).start_time = ev.start_time ∧
    (rewriteLegacyEventType ev).end_time = ev.end_time ∧
    (rewriteLegacyEventType ev).bytes_sent = ev.bytes_sent ∧
    (rewriteLegacyEventType ev).bytes_received = ev.bytes_received ∧
    (rewriteLegacyEventType ev).local_name = ev.local_name ∧
    (rewriteLegacyEventType ev).channel = ev.channel ∧
    (rewriteLegacyEventType ev).free_text = ev.free_text := by
  unfold rewriteLegacyEventType
  simp only []
  split_ifs <;> simp

theorem agrees_getD {α : Type} (f : Field α) (d : α) : f.agrees (Field.set (f.getD d)) := by
  refine ⟨rfl, fun h => ?_⟩
  simp [Field.set, Field.getD, h]

theorem agrees_of_value {α : Type} (f : Field α) (v : α) (h : f.is_set = true → v = f.value) :
    f.agrees (Field.set v) :=
  ⟨rfl, h⟩

theorem remotePairCount_map (R : List RemoteRow) (f : RemoteRow → RemoteRow)
    (hf : ∀ x, (f x).local_uid = x.local_uid ∧ (f x).remote_uid = x.remote_uid)
    (l r : String) : remotePairCount (R.map f) l r = remotePairCount R l r := by
  unfold remotePairCount
  apply filter_map_length
  intro x
  rw [(hf x).1, (hf x).2]

theorem remotePairCount_append (R : List RemoteRow) (x : RemoteRow) (l r : String) :
    remotePairCount (R ++ [x]) l r =
      remotePairCount R l r + (if x.local_uid = l ∧ x.remote_uid = r then 1 else 0) := by
  unfold remotePairCount
  rw [List.filter_append, List.length_append]
  by_cases h : x.local_uid = l ∧ x.remote_uid = r
  · simp [h]
  · have hb : (x.local_uid == l && x.remote_uid == r) = false := by
      simpa using h
    simp [List.filter, hb, h]

/-- C8: if the Remotes table has at most one row per (local_uid, remote_uid)
and `rtcom_el_add_event` succeeds for an event whose remote uid is set, then
the event's local and remote uid are not NULL, the table afterwards holds
exactly one row for that pair, and still at most one row for every pair. -/
theorem C8_remote_pair_unique (el : RTComEl) (ev : RTComElEvent) (now : Int)
    (huniq : ∀ l r, remotePairCount el.db.tables.Remotes l r ≤ 1)
    (hset : ev.remote_uid.is_set = true)
    (hok : (rtcom_el_add_event el ev now).ret ≠ -1) :
    (∃ lu ru, ev.local_uid.value = some lu ∧ ev.remote_uid.value = some ru ∧
      remotePairCount (rtcom_el_add_event el ev now).el.db.tables.Remotes lu ru = 1) ∧
    ∀ l r, remotePairCount (rtcom_el_add_event el ev now).el.db.tables.Remotes l r ≤ 1 := by
  obtain ⟨hpc, -, dbt, dt, -, hc1, hc2, -⟩ := add_event_inv el ev now hok
  obtain ⟨-, -, -, -, pev, -, -, -, -, -⟩ := precheck_ok el ev hpc
  obtain ⟨-, rr, rl, rn, re, -, -, -⟩ := rewriteLegacy_frame ev
  rw [pev] at hc1 hc2
  obtain ⟨-, -, -, hsucc⟩ := core_spec { el with db := dbt } (rewriteLegacyEventType ev)
    (_add_event_precheck el ev).service_id (_add_event_precheck el ev).eventtype_id now
  obtain ⟨-, t1, ht1, -, ctx, -, hctx, db2, hdb2, hrok, hR⟩ := hsucc (by rw [hc1]; exact hok)
  have hframe := (sqlInsertEvent_frame _ _ _ _ ht1).2.2.2
  have hR1 : db2.tables.Remotes = el.db.tables.Remotes := by
    rw [hdb2, hframe]
    simp only []
    exact congrArg Tables.Remotes dt
  simp only [] at hR1
  rw [hc2, hR]
  obtain ⟨-, -, -, -, hrem⟩ := addEventRemote_spec db2 (rewriteLegacyEventType ev) ctx
  obtain ⟨-, hins, hupd⟩ := hrem () hrok
  rw [rr, rl, rn, re] at hins hupd
  rw [rr, rl] at hctx
  have hctx' := hctx hset
  simp only [dt] at hctx'
  by_cases hex : ctx.exists = true
  · -- the pair had its row: the UPDATE statements keep every pair
    have hRR := hupd hset hex
    have hcount : ∀ l r, remotePairCount (addEventRemote db2 (rewriteLegacyEventType ev)
        ctx).1.tables.Remotes l r = remotePairCount el.db.tables.Remotes l r := by
      intro l r
      rw [hRR, hR1]
      simp only []
      split
      · rw [remotePairCount_map]
        · split
          · rw [remotePairCount_map]
            intro x; split <;> simp
          · rfl
        · intro x; split <;> simp
      · split
        · rw [remotePairCount_map]
          intro x; split <;> simp
        · rfl
    -- a row matched the SELECT
    have hM : (el.db.tables.Remotes.filter (fun r =>
        sqlEq (some r.remote_uid) ev.remote_uid.value &&
          sqlEq (some r.local_uid) ev.local_uid.value)) ≠ [] := by
      intro hnil
      rw [hnil] at hctx'
      rw [hctx'] at hex
      simp at hex
    obtain ⟨x, hx⟩ := List.exists_mem_of_ne_nil _ hM
    rw [List.mem_filter] at hx
    obtain ⟨hxR, hxm⟩ := hx
    cases hru : ev.remote_uid.value with
    | none => simp [sqlEq, hru] at hxm
    | some ru =>
      cases hlu : ev.local_uid.value with
      | none => simp [sqlEq, hru, hlu] at hxm
      | some lu =>
        simp only [sqlEq, hru, hlu, Bool.and_eq_true, beq_iff_eq] at hxm
        refine ⟨⟨lu, ru, rfl, rfl, ?_⟩, fun l r => by rw [hcount]; exact huniq l r⟩
        rw [hcount]
        have hle := huniq lu ru
        have hpos : 0 < remotePairCount el.db.tables.Remotes lu ru := by
          unfold remotePairCount
          apply List.length_pos_of_mem (a := x)
          rw [List.mem_filter]
          exact ⟨hxR, by simp [hxm.1, hxm.2]⟩
        omega
  · -- the pair was new: one row is appended
    have hex' : ctx.exists = false := by simpa using hex
    obtain ⟨lu, ru, hlu, hru, hany, hRR⟩ := hins hset hex'
    rw [hR1] at hany hRR
    have hzero : remotePairCount el.db.tables.Remotes lu ru = 0 := by
      unfold remotePairCount
      rw [List.length_eq_zero, List.filter_eq_nil_iff]
      intro a ha
      have := (List.any_eq_false.1 hany) a ha
      simpa using this
    refine ⟨⟨lu, ru, hlu, hru, ?_⟩, ?_⟩
    · rw [hRR, remotePairCount_append, hzero]
      simp
    · intro l r
      rw [hRR, remotePairCount_append]
      by_cases hp : lu = l ∧ ru = r
      · obtain ⟨rfl, rfl⟩ := hp
        rw [hzero]; simp
      · have := huniq l r
        simp only [hp, if_false, add_zero]
        exact this

/-- C8, at an input: the pair ("msn/alice", "bob") has its Remote row, and an
event of that pair is inserted. -/
theorem C8_remote_pair_unique_witness :
    (∃ lu ru, (({ sampleEvent "CHAT" none with remote_uid := Field.set (some "bob") } :
        RTComElEvent)).local_uid.value = some lu ∧
      (({ sampleEvent "CHAT" none with remote_uid := Field.set (some "bob") } :
        RTComElEvent)).remote_uid.value = some ru ∧
      remotePairCount (rtcom_el_add_event
        (sampleLogger (sampleTables [] [] [⟨"msn/alice", "bob", some "Bob", none⟩]))
        { sampleEvent "CHAT" none with remote_uid := Field.set (some "bob") }
        1000).el.db.tables.Remotes lu ru = 1) ∧
    ∀ l r, remotePairCount (rtcom_el_add_event
      (sampleLogger (sampleTables [] [] [⟨"msn/alice", "bob", some "Bob", none⟩]))
      { sampleEvent "CHAT" none with remote_uid := Field.set (some "bob") }
      1000).el.db.tables.Remotes l r ≤ 1 :=
  C8_remote_pair_unique (sampleLogger (sampleTables [] [] [⟨"msn/alice", "bob", some "Bob", none⟩]))
    { sampleEvent "CHAT" none with remote_uid := Field.set (some "bob") } 1000
    (by
      intro l r
      unfold remotePairCount
      simp only [sampleLogger, sampleTables, List.filter]
      split <;> simp)
    rfl (by decide)

/-! ## `rtcom_el_add_event_full` -/

theorem add_attachment_saved (el : RTComEl) (event_id : Int) (path desc copied : Option String) :
    (rtcom_el_add_attachment el event_id path desc copied).el.db.saved = el.db.saved := by
  unfold rtcom_el_add_attachment
  split
  · rfl
  · split
    · rfl
    · split
      · rfl
      · split
        · rfl
        · rename_i dest_path
          have := (exec_spec el.db
            "INSERT INTO Attachments (event_id, path, desc) VALUES (%d, %Q, %Q);"
            (sqlInsertAttachment event_id dest_path desc)).1
          generalize rtcom_el_db_exec el.db
            "INSERT INTO Attachments (event_id, path, desc) VALUES (%d, %Q, %Q);"
            (sqlInsertAttachment event_id dest_path desc) = r at *
          obtain ⟨db1, res⟩ := r
          cases res <;> exact this

theorem add_header_saved (el : RTComEl) (event_id : Int) (header value : Option String) :
    (rtcom_el_add_header el event_id header value).el.db.saved = el.db.saved := by
  unfold rtcom_el_add_header
  split
  · rfl
  · split
    · rfl
    · rfl
    · rename_i h v
      split
      · rfl
      · have := (exec_spec el.db
          "INSERT INTO Headers (event_id, name, value) VALUES (%d, %Q, %Q);"
          (sqlInsertHeader event_id h v)).1
        generalize rtcom_el_db_exec el.db
          "INSERT INTO Headers (event_id, name, value) VALUES (%d, %Q, %Q);"
          (sqlInsertHeader event_id h v) = r at *
        obtain ⟨db1, res⟩ := r
        cases res <;> exact this

theorem addAttachments_saved (el : RTComEl) (event_id : Int)
    (l : List (RTComElAttachment × Option String)) :
    (addAttachments el event_id l).1.db.saved = el.db.saved := by
  induction l generalizing el with
  | nil => rfl
  | cons a rest ih =>
    obtain ⟨att, copied⟩ := a
    unfold addAttachments
    simp only []
    split
    · exact add_attachment_saved el event_id att.path att.desc copied
    · rw [ih]
      exact add_attachment_saved el event_id att.path att.desc copied

theorem addHeaders_saved (el : RTComEl) (event_id : Int) (l : List (String × Option String)) :
    (addHeaders el event_id l).1.db.saved = el.db.saved := by
  induction l generalizing el with
  | nil => rfl
  | cons a rest ih =>
    obtain ⟨hk, hv⟩ := a
    unfold addHeaders
    simp only []
    split
    · exact add_header_saved el event_id (some hk) hv
    · rw [ih]
      exact add_header_saved el event_id (some hk) hv

/-- C9: `rtcom_el_add_event_full` is all or nothing.  Once the precheck has
passed and BEGIN has gone through, a failure of the event insertion, of any
attachment insertion or of any header insertion makes it return -1; and
whenever it returns -1, for whatever reason, the tables (Events, Remotes,
Headers, Attachments, GroupCache and the lookup tables) are exactly those
from before the call. -/
theorem C9_add_event_full_atomic (el : RTComEl) (ev : RTComElEvent)
    (headers : List (String × Option String))
    (attachments : List (RTComElAttachment × Option String)) (now : Int) :
    ((rtcom_el_add_event_full el ev headers attachments now).ret = -1 →
      (rtcom_el_add_event_full el ev headers attachments now).el.db.tables = el.db.tables) ∧
    ((_add_event_precheck el ev).ok = true →
      (rtcom_el_db_transaction el.db true).2.1 = true →
      ((_add_event_core { el with db := (rtcom_el_db_transaction el.db true).1 }
          (_add_event_precheck el ev).ev (_add_event_precheck el ev).service_id
          (_add_event_precheck el ev).eventtype_id now).2.1 = -1 ∨
       (addAttachments
          (_add_event_core { el with db := (rtcom_el_db_transaction el.db true).1 }
            (_add_event_precheck el ev).ev (_add_event_precheck el ev).service_id
            (_add_event_precheck el ev).eventtype_id now).1
          (_add_event_core { el with db := (rtcom_el_db_transaction el.db true).1 }
            (_add_event_precheck el ev).ev (_add_event_precheck el ev).service_id
            (_add_event_precheck el ev).eventtype_id now).2.1 attachments).2.1 = false ∨
       (addHeaders
          (addAttachments
            (_add_event_core { el with db := (rtcom_el_db_transaction el.db true).1 }
              (_add_event_precheck el ev).ev (_add_event_precheck el ev).service_id
              (_add_event_precheck el ev).eventtype_id now).1
            (_add_event_core { el with db := (rtcom_el_db_transaction el.db true).1 }
              (_add_event_precheck el ev).ev (_add_event_precheck el ev).service_id
              (_add_event_precheck el ev).eventtype_id now).2.1 attachments).1
          (_add_event_core { el with db := (rtcom_el_db_transaction el.db true).1 }
            (_add_event_precheck el ev).ev (_add_event_precheck el ev).service_id
            (_add_event_precheck el ev).eventtype_id now).2.1 headers).2.1 = false) →
      (rtcom_el_add_event_full el ev headers attachments now).ret = -1 ∧
      (rtcom_el_add_event_full el ev headers attachments now).el.db.tables = el.db.tables ∧
      (rtcom_el_add_event_full el ev headers attachments now).el.db.saved = none) := by
  unfold rtcom_el_add_event_full
  simp only []
  by_cases hpc : (_add_event_precheck el ev).ok = true
  · simp only [hpc, Bool.not_true, Bool.false_eq_true, if_false, true_implies]
    obtain ⟨-, t2, t3, -, -⟩ := transaction_spec el.db true
    generalize rtcom_el_db_transaction el.db true = tr at *
    obtain ⟨db1, ok1, err1⟩ := tr
    cases ok1 with
    | false => simp only [] at t2 ⊢; simp [t2]
    | true =>
      simp only [] at t2 t3 ⊢
      have hsaved1 : db1.saved = some el.db.tables := (t3 trivial).2
      obtain ⟨k1, -, -, -⟩ := core_spec { el with db := db1 } (_add_event_precheck el ev).ev
        (_add_event_precheck el ev).service_id (_add_event_precheck el ev).eventtype_id now
      generalize _add_event_core { el with db := db1 } (_add_event_precheck el ev).ev
        (_add_event_precheck el ev).service_id (_add_event_precheck el ev).eventtype_id now = c
        at *
      obtain ⟨el2, event_id, err⟩ := c
      simp only [] at k1 ⊢
      have hs2 : el2.db.saved = some el.db.tables := by rw [k1, hsaved1]
      by_cases hid : event_id = -1
      · have hrb := (rollback_spec el2.db).2.2.1 _ hs2
        have hrs := (rollback_spec el2.db).2.1
        simp [hid, hrb, hrs]
      · have hid' : (event_id == -1) = false := by simpa using hid
        simp only [hid', Bool.false_eq_true, if_false, hid, false_or]
        have a1 := addAttachments_saved el2 event_id attachments
        generalize addAttachments el2 event_id attachments = ar at *
        obtain ⟨el3, ok3, err3⟩ := ar
        simp only [] at a1 ⊢
        have hs3 : el3.db.saved = some el.db.tables := by rw [a1, hs2]
        cases ok3 with
        | false =>
          have hrb := (rollback_spec el3.db).2.2.1 _ hs3
          have hrs := (rollback_spec el3.db).2.1
          simp [hrb, hrs]
        | true =>
          simp only [Bool.true_eq_false, false_or]
          have b1 := addHeaders_saved el3 event_id headers
          generalize addHeaders el3 event_id headers = hr at *
          obtain ⟨el4, ok4, err4⟩ := hr
          simp only [] at b1 ⊢
          have hs4 : el4.db.saved = some el.db.tables := by rw [b1, hs3]
          cases ok4 with
          | false =>
            have hrb := (rollback_spec el4.db).2.2.1 _ hs4
            have hrs := (rollback_spec el4.db).2.1
            simp [hrb, hrs]
          | true =>
            simp only [Bool.true_eq_false, false_implies, and_true]
            obtain ⟨-, -, -, c4, -⟩ := commit_spec el4.db
            generalize rtcom_el_db_commit el4.db = cm at *
            obtain ⟨db5, ok5, err5⟩ := cm
            cases ok5 with
            | false =>
              simp only [] at c4 ⊢
              have hs5 : db5.saved = some el.db.tables := by rw [c4 trivial, hs4]
              have hrb := (rollback_spec db5).2.2.1 _ hs5
              simp [hrb]
            | true =>
              simp only []
              exact ⟨fun h => absurd h hid, fun _ => trivial⟩
  · have hpc' : (_add_event_precheck el ev).ok = false := by simpa using hpc
    simp [hpc']

/-- C9, at an input: the event row goes in, the header with a NULL value is
refused by `rtcom_el_add_header`, and the ROLLBACK leaves the empty tables. -/
theorem C9_add_event_full_atomic_witness :
    (rtcom_el_add_event_full (sampleLogger (sampleTables [] [] []))
      (sampleEvent "CHAT" (some "G")) [("message-token", none)] [] 1000).ret = -1 ∧
    (rtcom_el_add_event_full (sampleLogger (sampleTables [] [] []))
      (sampleEvent "CHAT" (some "G")) [("message-token", none)] [] 1000).el.db.tables =
        (sampleLogger (sampleTables [] [] [])).db.tables ∧
    (rtcom_el_add_event_full (sampleLogger (sampleTables [] [] []))
      (sampleEvent "CHAT" (some "G")) [("message-token", none)] [] 1000).el.db.saved = none :=
  (C9_add_event_full_atomic (sampleLogger (sampleTables [] [] []))
    (sampleEvent "CHAT" (some "G")) [("message-token", none)] [] 1000).2
    (by decide) (by decide) (Or.inr (Or.inr (by decide)))
/-- C10: with an open database, `rtcom_el_add_event` returns -1 with
RTCOM_EL_INVALID_ARGUMENT_ERROR, hands no statement to the engine and leaves
logger and tables as they were, whenever the event has no service set, no
event type set or no local uid set, or its service name, or its event-type
name after the legacy rewriting, is not a key of the lookup table.  A name is
a string: the lookups are stated for a service and an event type that are not
NULL, and the event-type lookup, which runs after the service lookup, for an
event whose service is not NULL either.  When all three fields are set and
both names are keys of lookup tables whose ids are positive (engine-allocated
row ids), the precheck passes and yields the two ids. -/
theorem C10_precheck_invalid_argument (el : RTComEl) (ev : RTComElEvent) (now : Int)
    (hopen : el.opened = true) :
    ((ev.service.is_set = false ∨ ev.event_type.is_set = false ∨ ev.local_uid.is_set = false ∨
        (∃ s, ev.service.value = some s ∧ el.services.lookup s = none) ∨
        ((∃ s, ev.service.value = some s) ∧
          ∃ t, (rewriteLegacyEventType ev).event_type.value = some t ∧
            el.event_types.lookup t = none)) →
      (rtcom_el_add_event el ev now).ret = -1 ∧
      (rtcom_el_add_event el ev now).error = some RTCOM_EL_INVALID_ARGUMENT_ERROR ∧
      (rtcom_el_add_event el ev now).el.db.log = el.db.log ∧
      (rtcom_el_add_event el ev now).el.db.tables = el.db.tables) ∧
    (∀ s i t j, ev.service.is_set = true → ev.event_type.is_set = true →
      ev.local_uid.is_set = true →
      ev.service.value = some s → el.services.lookup s = some i → 0 < i →
      (rewriteLegacyEventType ev).event_type.value = some t →
      el.event_types.lookup t = some j → 0 < j →
      (_add_event_precheck el ev).ok = true ∧ (_add_event_precheck el ev).error = none ∧
      (_add_event_precheck el ev).service_id = i ∧
      (_add_event_precheck el ev).eventtype_id = j) := by
  constructor
  · intro h
    have hsid : (∃ s, ev.service.value = some s ∧ el.services.lookup s = none) →
        rtcom_el_get_service_id el ev.service.value = -1 := by
      rintro ⟨s, hv, hs⟩
      unfold rtcom_el_get_service_id lookupId
      simp [hv, hs]
    have hetid : (∃ t, (rewriteLegacyEventType ev).event_type.value = some t ∧
        el.event_types.lookup t = none) →
        rtcom_el_get_eventtype_id el (rewriteLegacyEventType ev).event_type.value = -1 := by
      rintro ⟨t, hv, ht⟩
      unfold rtcom_el_get_eventtype_id lookupId
      simp [hv, ht]
    have hpc : (_add_event_precheck el ev).ok = false ∧
        (_add_event_precheck el ev).error = some RTCOM_EL_INVALID_ARGUMENT_ERROR := by
      unfold _add_event_precheck _ensure_db
      simp only [hopen, Bool.not_true, Bool.false_eq_true, if_false]
      cases h1 : ev.service.is_set with
      | false => simp only [Bool.not_false, if_true, and_self]
      | true =>
        simp only [Bool.not_true, Bool.false_eq_true, if_false]
        cases h2 : ev.event_type.is_set with
        | false => simp only [Bool.not_false, if_true, and_self]
        | true =>
          simp only [Bool.not_true, Bool.false_eq_true, if_false]
          cases h3 : ev.local_uid.is_set with
          | false => simp only [Bool.not_false, if_true, and_self]
          | true =>
            simp only [Bool.not_true, Bool.false_eq_true, if_false]
            by_cases hs : rtcom_el_get_service_id el ev.service.value = -1
            · simp only [hs, beq_self_eq_true, if_true, and_self]
            · have hs' : (rtcom_el_get_service_id el ev.service.value == -1) = false := by
                simpa using hs
              simp only [hs', Bool.false_eq_true, if_false]
              by_cases ht : rtcom_el_get_eventtype_id el
                  (rewriteLegacyEventType ev).event_type.value = -1
              · simp only [ht, beq_self_eq_true, if_true, and_self]
              · exfalso
                rcases h with h | h | h | h | h
                · rw [h1] at h; cases h
                · rw [h2] at h; cases h
                · rw [h3] at h; cases h
                · exact hs (hsid h)
                · exact ht (hetid h.2)
    unfold rtcom_el_add_event
    simp only [hpc.1, hpc.2, Bool.not_false, if_true, and_self]
  · intro s i t j h1 h2 h3 hs hi hipos ht hj hjpos
    have hsid : rtcom_el_get_service_id el ev.service.value = i := by
      unfold rtcom_el_get_service_id lookupId
      have : ¬ i = 0 := by omega
      simp [hs, hi, this]
    have hetid : rtcom_el_get_eventtype_id el (rewriteLegacyEventType ev).event_type.value = j := by
      unfold rtcom_el_get_eventtype_id lookupId
      have : ¬ j = 0 := by omega
      simp [ht, hj, this]
    have hi1 : ¬ i = -1 := by omega
    have hj1 : ¬ j = -1 := by omega
    have hi1' : (i == -1) = false := by simpa using hi1
    have hj1' : (j == -1) = false := by simpa using hj1
    unfold _add_event_precheck _ensure_db
    simp only [hopen, h1, h2, h3, hsid, hetid, hi1', hj1', Bool.not_true, Bool.false_eq_true,
      if_false, and_self]

/-- C10, at two inputs: a service name that is no key of the lookup table is
refused without a statement, and an event of service "CHAT" passes. -/
theorem C10_precheck_invalid_argument_witness :
    (rtcom_el_add_event (sampleLogger (sampleTables [] [] []))
        (sampleEvent "NO_SUCH_SERVICE" none) 1000).ret = -1 ∧
    (rtcom_el_add_event (sampleLogger (sampleTables [] [] []))
        (sampleEvent "NO_SUCH_SERVICE" none) 1000).error =
      some RTCOM_EL_INVALID_ARGUMENT_ERROR ∧
    (rtcom_el_add_event (sampleLogger (sampleTables [] [] []))
        (sampleEvent "NO_SUCH_SERVICE" none) 1000).el.db.log = [] ∧
    (_add_event_precheck (sampleLogger (sampleTables [] [] []))
        (sampleEvent "CHAT" none)).ok = true :=
  ⟨((C10_precheck_invalid_argument (sampleLogger (sampleTables [] [] []))
      (sampleEvent "NO_SUCH_SERVICE" none) 1000 rfl).1
      (Or.inr (Or.inr (Or.inr (Or.inl ⟨"NO_SUCH_SERVICE", rfl, by decide⟩))))).1,
   ((C10_precheck_invalid_argument (sampleLogger (sampleTables [] [] []))
      (sampleEvent "NO_SUCH_SERVICE" none) 1000 rfl).1
      (Or.inr (Or.inr (Or.inr (Or.inl ⟨"NO_SUCH_SERVICE", rfl, by decide⟩))))).2.1,
   ((C10_precheck_invalid_argument (sampleLogger (sampleTables [] [] []))
      (sampleEvent "NO_SUCH_SERVICE" none) 1000 rfl).1
      (Or.inr (Or.inr (Or.inr (Or.inl ⟨"NO_SUCH_SERVICE", rfl, by decide⟩))))).2.2.1,
   ((C10_precheck_invalid_argument (sampleLogger (sampleTables [] [] []))
      (sampleEvent "CHAT" none) 1000 rfl).2 "CHAT" 1 "RTCOM_EL_EVENTTYPE_TEST_ET1" 1
      rfl rfl rfl rfl (by decide) (by decide) (by decide) (by decide) (by decide)).1⟩

/-! ## Statements on an engine that reports no fault -/

/-- A statement the engine does not fault and that itself succeeds. -/
theorem exec_of_no_fault {β : Type} (db : Conn) (sql : String)
    (run : Tables → Except Int (Tables × β)) (t1 : Tables) (b : β)
    (hf : db.fault db.log.length = none) (hrun : run db.tables = .ok (t1, b)) :
    rtcom_el_db_exec db sql run =
      ({ db with tables := t1, errcode := SQLITE_OK, log := db.log ++ [sql] }, .ok b) := by
  unfold rtcom_el_db_exec execStep
  simp only [hf, hrun]

theorem noFault_at (db : Conn) (h : db.fault = noFault) : db.fault db.log.length = none := by
  rw [h]; rfl

/-! ## Group id substitution -/

theorem add_event_last_group_uid (el : RTComEl) (ev : RTComElEvent) (now : Int)
    (hok : (rtcom_el_add_event el ev now).ret ≠ -1) :
    (rtcom_el_add_event el ev now).el.last_group_uid =
      (if ev.group_uid.is_set then ev.group_uid.value else el.last_group_uid) := by
  have hpc := (add_event_inv el ev now hok).1
  obtain ⟨-, -, -, -, pev, -, -, -, -, -⟩ := precheck_ok el ev hpc
  obtain ⟨rg, -, -, -, -, -, -, -⟩ := rewriteLegacy_frame ev
  unfold rtcom_el_add_event at hok ⊢
  simp only [hpc, Bool.not_true, Bool.false_eq_true, if_false] at hok ⊢
  generalize rtcom_el_db_transaction el.db true = tr at hok ⊢
  obtain ⟨db1, b, err⟩ := tr
  cases b with
  | false => exact absurd rfl hok
  | true =>
    simp only [] at hok ⊢
    have hl : (_add_event_core { el with db := db1 } (_add_event_precheck el ev).ev
        (_add_event_precheck el ev).service_id (_add_event_precheck el ev).eventtype_id
        now).1.last_group_uid =
        (if ev.group_uid.is_set then ev.group_uid.value else el.last_group_uid) := by
      rw [(core_spec { el with db := db1 } (_add_event_precheck el ev).ev
        (_add_event_precheck el ev).service_id (_add_event_precheck el ev).eventtype_id
        now).2.2.1]
      simp only []
      rw [pev, rg]
      split <;> rfl
    generalize _add_event_core { el with db := db1 } (_add_event_precheck el ev).ev
      (_add_event_precheck el ev).service_id (_add_event_precheck el ev).eventtype_id now = r
      at hl hok ⊢
    obtain ⟨el2, event_id, err2⟩ := r
    simp only [] at hl hok ⊢
    by_cases hid : (event_id == -1) = true
    · simp only [hid, if_true] at hok
      exact absurd rfl hok
    · simp only [hid, Bool.false_eq_true, if_false] at hok ⊢
      generalize rtcom_el_db_commit el2.db = cm at hok ⊢
      obtain ⟨db3, b3, err3⟩ := cm
      cases b3 with
      | false => exact absurd rfl hok
      | true => exact hl

theorem add_event_stored_group (el : RTComEl) (ev : RTComElEvent) (now : Int)
    (hok : (rtcom_el_add_event el ev now).ret ≠ -1) :
    ∃ e : EventRow,
      (rtcom_el_add_event el ev now).el.db.tables.Events = el.db.tables.Events ++ [e] ∧
      e.id = (rtcom_el_add_event el ev now).ret ∧
      e.group_uid =
        (if ev.group_uid.is_set then ev.group_uid.value else el.last_group_uid) := by
  obtain ⟨hpc, -, dbt, dt, -, hc1, hc2, -⟩ := add_event_inv el ev now hok
  obtain ⟨-, -, -, -, pev, -, -, -, -, -⟩ := precheck_ok el ev hpc
  obtain ⟨rg, -, -, -, -, -, -, -⟩ := rewriteLegacy_frame ev
  rw [pev] at hc1 hc2
  have hcs := (core_spec { el with db := dbt } (rewriteLegacyEventType ev)
    (_add_event_precheck el ev).service_id (_add_event_precheck el ev).eventtype_id now).2.2.2
  generalize _add_event_core { el with db := dbt } (rewriteLegacyEventType ev)
    (_add_event_precheck el ev).service_id (_add_event_precheck el ev).eventtype_id now = cr
    at hc1 hc2 hcs
  have hg : (eventRowOf (if (rewriteLegacyEventType ev).group_uid.is_set = true then
        { ({ el with db := dbt } : RTComEl) with
          last_group_uid := (rewriteLegacyEventType ev).group_uid.value }
      else { el with db := dbt }) (rewriteLegacyEventType ev)
      (_add_event_precheck el ev).service_id (_add_event_precheck el ev).eventtype_id
      now).group_uid =
      (if ev.group_uid.is_set then ev.group_uid.value else el.last_group_uid) := by
    simp only [eventRowOf, Field.getD, rg]
    split <;> rfl
  generalize eventRowOf (if (rewriteLegacyEventType ev).group_uid.is_set = true then
        { ({ el with db := dbt } : RTComEl) with
          last_group_uid := (rewriteLegacyEventType ev).group_uid.value }
      else { el with db := dbt }) (rewriteLegacyEventType ev)
      (_add_event_precheck el ev).service_id (_add_event_precheck el ev).eventtype_id
      now = row at hcs hg
  generalize rtcom_el_add_event el ev now = res at hok hc1 hc2 ⊢
  simp only [dt] at hcs
  rw [hc1, ← hc2] at hcs
  obtain ⟨-, t1, ht1, htab, -⟩ := hcs hok
  obtain ⟨-, hEv, -, -⟩ := sqlInsertEvent_frame _ _ _ _ ht1
  refine ⟨{ row with id := res.ret }, ?_, rfl, hg⟩
  rw [htab]
  exact hEv

/-- C11: after a successful `rtcom_el_add_event` the Events table is the old
one followed by one row, stored under the returned id, which no older row
carries; that row's group_uid is the event's own group id when the field is
set and the logger's last remembered group id otherwise; and the logger then
remembers the event's group id when it was set and what it remembered before
otherwise. -/
theorem C11_group_uid_substitution (el : RTComEl) (ev : RTComElEvent) (now : Int)
    (hok : (rtcom_el_add_event el ev now).ret ≠ -1) :
    (∃ e : EventRow,
      (rtcom_el_add_event el ev now).el.db.tables.Events = el.db.tables.Events ++ [e] ∧
      e.id = (rtcom_el_add_event el ev now).ret ∧
      (∀ e' ∈ el.db.tables.Events, e'.id ≠ (rtcom_el_add_event el ev now).ret) ∧
      e.group_uid =
        (if ev.group_uid.is_set then ev.group_uid.value else el.last_group_uid)) ∧
    (rtcom_el_add_event el ev now).el.last_group_uid =
      (if ev.group_uid.is_set then ev.group_uid.value else el.last_group_uid) := by
  obtain ⟨e, h1, h2, h3⟩ := add_event_stored_group el ev now hok
  exact ⟨⟨e, h1, h2, (add_event_post el ev now hok).2.2.2.1, h3⟩,
    add_event_last_group_uid el ev now hok⟩

/-- C11, at two inputs: an event that sets group "G" is stored in "G" and makes
the logger remember "G"; an event without group id on a logger that remembers
"G0" is stored in "G0" and the logger keeps "G0". -/
theorem C11_group_uid_substitution_witness :
    ((∃ e : EventRow,
      (rtcom_el_add_event (sampleLogger (sampleTables [] [] []))
        (sampleEvent "CHAT" (some "G")) 1000).el.db.tables.Events =
        (sampleLogger (sampleTables [] [] [])).db.tables.Events ++ [e] ∧
      e.id = (rtcom_el_add_event (sampleLogger (sampleTables [] [] []))
        (sampleEvent "CHAT" (some "G")) 1000).ret ∧
      (∀ e' ∈ (sampleLogger (sampleTables [] [] [])).db.tables.Events,
        e'.id ≠ (rtcom_el_add_event (sampleLogger (sampleTables [] [] []))
          (sampleEvent "CHAT" (some "G")) 1000).ret) ∧
      e.group_uid = some "G") ∧
    (rtcom_el_add_event (sampleLogger (sampleTables [] [] []))
      (sampleEvent "CHAT" (some "G")) 1000).el.last_group_uid = some "G") ∧
    ((∃ e : EventRow,
      (rtcom_el_add_event
        { sampleLogger (sampleTables [] [] []) with last_group_uid := some "G0" }
        (sampleEvent "CHAT" none) 1000).el.db.tables.Events =
        (sampleLogger (sampleTables [] [] [])).db.tables.Events ++ [e] ∧
      e.id = (rtcom_el_add_event
        { sampleLogger (sampleTables [] [] []) with last_group_uid := some "G0" }
        (sampleEvent "CHAT" none) 1000).ret ∧
      (∀ e' ∈ (sampleLogger (sampleTables [] [] [])).db.tables.Events,
        e'.id ≠ (rtcom_el_add_event
          { sampleLogger (sampleTables [] [] []) with last_group_uid := some "G0" }
          (sampleEvent "CHAT" none) 1000).ret) ∧
      e.group_uid = some "G0") ∧
    (rtcom_el_add_event
      { sampleLogger (sampleTables [] [] []) with last_group_uid := some "G0" }
      (sampleEvent "CHAT" none) 1000).el.last_group_uid = some "G0") :=
  ⟨C11_group_uid_substitution (sampleLogger (sampleTables [] [] []))
      (sampleEvent "CHAT" (some "G")) 1000 (by decide),
   C11_group_uid_substitution
      { sampleLogger (sampleTables [] [] []) with last_group_uid := some "G0" }
      (sampleEvent "CHAT" none) 1000 (by decide)⟩

/-! ## Remote reconciliation -/

/-- The two UPDATE statements of `_add_event_core` on the one Remote row `x` of
the event's pair. -/
theorem addEventRemote_existing (db : Conn) (ev : RTComElEvent) (ctx : remotes_ctx)
    (x : RemoteRow)
    (hset : ev.remote_uid.is_set = true)
    (hctx : ctx = (db.tables.Remotes.filter (fun r =>
        sqlEq (some r.remote_uid) ev.remote_uid.value &&
          sqlEq (some r.local_uid) ev.local_uid.value)).foldl
        (fun _ r => _fetch_remote_data r) ⟨false, none, none⟩)
    (hok : (addEventRemote db ev ctx).2 = .ok ())
    (hx : x ∈ db.tables.Remotes)
    (hxm : ev.remote_uid.value = some x.remote_uid ∧ ev.local_uid.value = some x.local_uid)
    (huniq : ∀ y ∈ db.tables.Remotes,
      y.remote_uid = x.remote_uid → y.local_uid = x.local_uid → y = x) :
    (addEventRemote db ev ctx).1.tables.Remotes =
      db.tables.Remotes.map (fun r =>
        if r.remote_uid = x.remote_uid ∧ r.local_uid = x.local_uid then
          { r with
            abook_uid :=
              if ev.remote_ebook_uid.getD none ≠ x.remote_name
              then ev.remote_ebook_uid.getD none else r.abook_uid,
            remote_name :=
              if ev.remote_name.getD none ≠ none
              then ev.remote_name.getD none else r.remote_name }
        else r) := by
  obtain ⟨-, -, -, -, hrem⟩ := addEventRemote_spec db ev ctx
  obtain ⟨-, -, hupd⟩ := hrem () hok
  obtain ⟨hru, hlu⟩ := hxm
  have hxf : x ∈ db.tables.Remotes.filter (fun r =>
      sqlEq (some r.remote_uid) ev.remote_uid.value &&
        sqlEq (some r.local_uid) ev.local_uid.value) := by
    rw [List.mem_filter]
    exact ⟨hx, by simp [sqlEq, hru, hlu]⟩
  rw [foldl_last] at hctx
  cases hl : (db.tables.Remotes.filter (fun r =>
      sqlEq (some r.remote_uid) ev.remote_uid.value &&
        sqlEq (some r.local_uid) ev.local_uid.value)).getLast? with
  | none =>
    rw [List.getLast?_eq_none_iff] at hl
    rw [hl] at hxf
    exact absurd hxf (List.not_mem_nil _)
  | some last =>
    rw [hl] at hctx
    simp only [] at hctx
    have hlast := List.mem_of_getLast?_eq_some hl
    rw [List.mem_filter] at hlast
    obtain ⟨hlR, hlm⟩ := hlast
    simp only [sqlEq, hru, hlu, Bool.and_eq_true, beq_iff_eq] at hlm
    have hlx : last = x := huniq last hlR hlm.1 hlm.2
    subst hlx
    have hex : ctx.exists = true := by rw [hctx]; rfl
    have hcn : ctx.remote_name = none := by rw [hctx]; rfl
    have hca : ctx.abook_uid = last.remote_name := by rw [hctx]; rfl
    have hRR := hupd hset hex
    rw [hcn, hca, hru, hlu] at hRR
    rw [hRR]
    simp only [sqlEq, map_if]
    simp only [List.map_map]
    apply List.map_congr_left
    intro y _
    simp only [g_strcmp0_differs, Function.comp]
    by_cases hm : y.remote_uid = last.remote_uid ∧ y.local_uid = last.local_uid <;>
      by_cases h1 : ev.remote_ebook_uid.getD none = last.remote_name <;>
      by_cases h2 : ev.remote_name.getD none = none <;>
      simp [hm, h1, h2]
    obtain ⟨m1, m2⟩ := hm
    cases y
    simp only [] at m1 m2
    subst m1
    subst m2
    rfl

/-- C12 (amended): let `rtcom_el_add_event` succeed for an event with a remote
uid whose (local_uid, remote_uid) pair has the Remote row `x`, the only row of
that pair, and let the abook uid value of the event (NULL when it leaves the
field unset) not be the remote name stored in `x`, unless it is the abook uid
stored in `x` already.  Afterwards every other Remote row is as before; the
row's remote_name is the event's remote name when that is set and not NULL and
is unchanged otherwise; and the row's abook_uid is the abook uid of the event,
NULL when the event leaves it unset or NULL: an event without abook uid erases
the stored one. -/
theorem C12_remote_reconciliation (el : RTComEl) (ev : RTComElEvent) (now : Int)
    (x : RemoteRow)
    (hok : (rtcom_el_add_event el ev now).ret ≠ -1)
    (hset : ev.remote_uid.is_set = true)
    (hx : x ∈ el.db.tables.Remotes)
    (hxm : ev.remote_uid.value = some x.remote_uid ∧ ev.local_uid.value = some x.local_uid)
    (huniq : ∀ y ∈ el.db.tables.Remotes,
      y.remote_uid = x.remote_uid → y.local_uid = x.local_uid → y = x)
    (hslip : ev.remote_ebook_uid.getD none ≠ x.remote_name ∨
      x.abook_uid = ev.remote_ebook_uid.getD none) :
    (rtcom_el_add_event el ev now).el.db.tables.Remotes =
      el.db.tables.Remotes.map (fun r =>
        if r.remote_uid = x.remote_uid ∧ r.local_uid = x.local_uid then
          { r with
            abook_uid := ev.remote_ebook_uid.getD none,
            remote_name :=
              if ev.remote_name.getD none ≠ none
              then ev.remote_name.getD none else r.remote_name }
        else r) := by
  obtain ⟨-, -, -, -, -, ctx, db2, hdb2, hctx, hrok, hR⟩ := add_event_post el ev now hok
  obtain ⟨-, rr, rl, rn, re, -, -, -⟩ := rewriteLegacy_frame ev
  rw [hR]
  have := addEventRemote_existing db2 (rewriteLegacyEventType ev) ctx x
    (by rw [rr]; exact hset) (by rw [rr, rl, hdb2]; exact hctx hset) hrok
    (by rw [hdb2]; exact hx) (by rw [rr, rl]; exact hxm) (by rw [hdb2]; exact huniq)
  rw [this, hdb2, rn, re]
  apply List.map_congr_left
  intro y hy
  by_cases hm : y.remote_uid = x.remote_uid ∧ y.local_uid = x.local_uid
  · have hyx : y = x := huniq y hy hm.1 hm.2
    subst hyx
    simp only [hm, and_self, if_true]
    rcases hslip with h1 | h1
    · simp only [h1, ne_eq, not_false_eq_true, if_true]
    · by_cases h2 : ev.remote_ebook_uid.getD none = y.remote_name
      · simp only [h2, ne_eq, not_true_eq_false, if_false]
        rw [h1, h2]
      · simp only [h2, ne_eq, not_false_eq_true, if_true]
  · simp only [hm, if_false]

/-- C12 (amended), at an input: the stored row of ("msn/alice", "bob") has
name "Bob" and abook uid "ab1"; an event that carries the name "Robert" and the
abook uid "ab2" rewrites both. -/
theorem C12_remote_reconciliation_witness :
    (rtcom_el_add_event
      (sampleLogger (sampleTables [] [] [⟨"msn/alice", "bob", some "Bob", some "ab1"⟩]))
      { sampleRemoteEvent with remote_ebook_uid := Field.set (some "ab2") }
      1000).el.db.tables.Remotes = [⟨"msn/alice", "bob", some "Robert", some "ab2"⟩] :=
  C12_remote_reconciliation
    (sampleLogger (sampleTables [] [] [⟨"msn/alice", "bob", some "Bob", some "ab1"⟩]))
    { sampleRemoteEvent with remote_ebook_uid := Field.set (some "ab2") } 1000
    ⟨"msn/alice", "bob", some "Bob", some "ab1"⟩
    (by decide) rfl (by decide) ⟨rfl, rfl⟩ (by decide) (Or.inl (by decide))

/-- C12 (as stated), refuted: the stored row of ("msn/alice", "bob") has name
"Bob" and abook uid "ab1"; an event of that pair that sets neither remote name
nor abook uid is inserted, and afterwards the row's abook uid is NULL. -/
theorem C12_counterexample_unset_abook_erased :
    ({ sampleEvent "CHAT" none with remote_uid := Field.set (some "bob") } :
      RTComElEvent).remote_ebook_uid.is_set = false ∧
    (rtcom_el_add_event
      (sampleLogger (sampleTables [] [] [⟨"msn/alice", "bob", some "Bob", some "ab1"⟩]))
      { sampleEvent "CHAT" none with remote_uid := Field.set (some "bob") } 1000).ret = 1 ∧
    (rtcom_el_add_event
      (sampleLogger (sampleTables [] [] [⟨"msn/alice", "bob", some "Bob", some "ab1"⟩]))
      { sampleEvent "CHAT" none with remote_uid := Field.set (some "bob") }
      1000).el.db.tables.Remotes = [⟨"msn/alice", "bob", some "Bob", none⟩] := by
  decide

/-! ## Legacy event types -/

theorem add_event_ev (el : RTComEl) (ev : RTComElEvent) (now : Int) :
    (rtcom_el_add_event el ev now).ev = (_add_event_precheck el ev).ev := by
  unfold rtcom_el_add_event
  simp only []
  split
  · rfl
  · generalize rtcom_el_db_transaction el.db true = tr
    obtain ⟨db1, b, err⟩ := tr
    cases b with
    | false => rfl
    | true =>
      simp only []
      generalize _add_event_core { el with db := db1 } (_add_event_precheck el ev).ev
        (_add_event_precheck el ev).service_id (_add_event_precheck el ev).eventtype_id now = r
      obtain ⟨el2, event_id, err2⟩ := r
      simp only []
      split
      · rfl
      · generalize rtcom_el_db_commit el2.db = cm
        obtain ⟨db3, b3, err3⟩ := cm
        cases b3 <;> rfl

theorem precheck_rewrites (el : RTComEl) (ev : RTComElEvent)
    (hopen : el.opened = true) (hs : ev.service.is_set = true)
    (ht : ev.event_type.is_set = true) (hl : ev.local_uid.is_set = true)
    (hsvc : rtcom_el_get_service_id el ev.service.value ≠ -1) :
    (_add_event_precheck el ev).ev = rewriteLegacyEventType ev ∧
    (_add_event_precheck el ev).eventtype_id =
      rtcom_el_get_eventtype_id el (rewriteLegacyEventType ev).event_type.value := by
  have hsvc2 : (rtcom_el_get_service_id el ev.service.value == -1) = false := by
    simpa using hsvc
  unfold _add_event_precheck _ensure_db
  simp only [hopen, hs, ht, hl, hsvc2, Bool.not_true, Bool.false_eq_true, if_false]
  split <;> exact ⟨rfl, rfl⟩

theorem int_eq_of_testBit_eq (m n : Int) (h : ∀ k, m.testBit k = n.testBit k) : m = n := by
  cases m with
  | ofNat a =>
    cases n with
    | ofNat b =>
      congr 1
      apply Nat.eq_of_testBit_eq
      intro k
      exact h k
    | negSucc b =>
      exfalso
      have hk := h (max a b + 1)
      have ha : a.testBit (max a b + 1) = false :=
        Nat.testBit_eq_false_of_lt (lt_of_le_of_lt (le_max_left a b)
          (lt_of_lt_of_le (Nat.lt_succ_self _) (Nat.le_of_lt (Nat.lt_two_pow _))))
      have hb : b.testBit (max a b + 1) = false :=
        Nat.testBit_eq_false_of_lt (lt_of_le_of_lt (le_max_right a b)
          (lt_of_lt_of_le (Nat.lt_succ_self _) (Nat.le_of_lt (Nat.lt_two_pow _))))
      simp [Int.testBit, ha, hb] at hk
  | negSucc a =>
    cases n with
    | ofNat b =>
      exfalso
      have hk := h (max a b + 1)
      have ha : a.testBit (max a b + 1) = false :=
        Nat.testBit_eq_false_of_lt (lt_of_le_of_lt (le_max_left a b)
          (lt_of_lt_of_le (Nat.lt_succ_self _) (Nat.le_of_lt (Nat.lt_two_pow _))))
      have hb : b.testBit (max a b + 1) = false :=
        Nat.testBit_eq_false_of_lt (lt_of_le_of_lt (le_max_right a b)
          (lt_of_lt_of_le (Nat.lt_succ_self _) (Nat.le_of_lt (Nat.lt_two_pow _))))
      simp [Int.testBit, ha, hb] at hk
    | negSucc b =>
      congr 1
      apply Nat.eq_of_testBit_eq
      intro k
      have := h k
      simpa [Int.testBit] using this

/-- Setting and then clearing the bits of `v` is clearing them. -/
theorem land_lor_lnot (f v : Int) :
    Int.land (Int.lor f v) (Int.lnot v) = Int.land f (Int.lnot v) := by
  apply int_eq_of_testBit_eq
  intro k
  rw [Int.testBit_land, Int.testBit_lor, Int.testBit_land, Int.testBit_lnot]
  cases f.testBit k <;> cases v.testBit k <;> rfl

theorem get_flag_value_no_fault (el : RTComEl) (flag : Option String)
    (hopen : el.opened = true) (hf : el.db.fault = noFault) :
    (rtcom_el_get_flag_value el flag).2 =
      (match flag with
       | none => -1
       | some name =>
         (el.db.tables.Flags.filter (fun r => r.name == name)).foldl (fun _ r => r.value) (-1)) ∧
    (rtcom_el_get_flag_value el flag).1.opened = true ∧
    (rtcom_el_get_flag_value el flag).1.db.tables = el.db.tables ∧
    (rtcom_el_get_flag_value el flag).1.db.fault = noFault := by
  cases flag with
  | none => exact ⟨rfl, hopen, rfl, hf⟩
  | some name =>
    unfold rtcom_el_get_flag_value _ensure_db
    simp only [hopen, Bool.not_true, Bool.false_eq_true, if_false]
    rw [exec_of_no_fault el.db _ (sqlSelectFlagValue name) el.db.tables _ (noFault_at _ hf) rfl]
    exact ⟨rfl, rfl, rfl, hf⟩

theorem set_event_flag_no_fault (el : RTComEl) (event_id : Int) (flag : Option String)
    (hopen : el.opened = true) (hid : 1 ≤ event_id) (hf : el.db.fault = noFault) :
    (rtcom_el_set_event_flag el event_id flag).el.opened = true ∧
    (rtcom_el_set_event_flag el event_id flag).el.db.fault = noFault ∧
    (rtcom_el_set_event_flag el event_id flag).el.db.tables.Flags = el.db.tables.Flags ∧
    ((rtcom_el_get_flag_value el flag).2 = -1 →
      (rtcom_el_set_event_flag el event_id flag).ret = -1 ∧
      (rtcom_el_set_event_flag el event_id flag).error = some RTCOM_EL_INVALID_ARGUMENT_ERROR ∧
      (rtcom_el_set_event_flag el event_id flag).el.db.tables = el.db.tables) ∧
    ((rtcom_el_get_flag_value el flag).2 ≠ -1 →
      (rtcom_el_set_event_flag el event_id flag).ret = 0 ∧
      (rtcom_el_set_event_flag el event_id flag).error = none ∧
      (rtcom_el_set_event_flag el event_id flag).el.db.tables.Events =
        el.db.tables.Events.map (fun e =>
          if e.id == event_id then
            { e with flags := Int.lor e.flags (rtcom_el_get_flag_value el flag).2 }
          else e)) := by
  obtain ⟨-, g2, g3, g4⟩ := get_flag_value_no_fault el flag hopen hf
  unfold rtcom_el_set_event_flag _ensure_db
  have hid2 : ¬ event_id < 1 := by omega
  simp only [hopen, Bool.not_true, Bool.false_eq_true, if_false, hid2]
  generalize rtcom_el_get_flag_value el flag = gv at g2 g3 g4 ⊢
  obtain ⟨el1, v⟩ := gv
  simp only [] at g2 g3 g4 ⊢
  by_cases hv : v = -1
  · subst hv
    simp only [beq_self_eq_true, if_true]
    refine ⟨g2, g4, by rw [g3], fun _ => ⟨?_, ?_, g3⟩, fun h => absurd rfl h⟩ <;> trivial
  · have hv2 : (v == -1) = false := by simpa using hv
    simp only [hv2, Bool.false_eq_true, if_false]
    rw [exec_of_no_fault el1.db _ _ _ () (noFault_at _ g4) rfl]
    simp only [g3]
    refine ⟨g2, g4, ?_, fun h => absurd h hv, fun _ => ⟨?_, ?_, ?_⟩⟩ <;> trivial

theorem unset_event_flag_no_fault (el : RTComEl) (event_id : Int) (flag : Option String)
    (hopen : el.opened = true) (hid : 1 ≤ event_id) (hf : el.db.fault = noFault) :
    (rtcom_el_unset_event_flag el event_id flag).el.opened = true ∧
    (rtcom_el_unset_event_flag el event_id flag).el.db.fault = noFault ∧
    (rtcom_el_unset_event_flag el event_id flag).el.db.tables.Flags = el.db.tables.Flags ∧
    ((rtcom_el_get_flag_value el flag).2 = -1 →
      (rtcom_el_unset_event_flag el event_id flag).ret = -1 ∧
      (rtcom_el_unset_event_flag el event_id flag).error =
        some RTCOM_EL_INVALID_ARGUMENT_ERROR ∧
      (rtcom_el_unset_event_flag el event_id flag).el.db.tables = el.db.tables) ∧
    ((rtcom_el_get_flag_value el flag).2 ≠ -1 →
      (rtcom_el_unset_event_flag el event_id flag).ret = 0 ∧
      (rtcom_el_unset_event_flag el event_id flag).error = none ∧
      (rtcom_el_unset_event_flag el event_id flag).el.db.tables.Events =
        el.db.tables.Events.map (fun e =>
          if e.id == event_id then
            { e with flags :=
                Int.land e.flags (Int.lnot (rtcom_el_get_flag_value el flag).2) }
          else e)) := by
  obtain ⟨-, g2, g3, g4⟩ := get_flag_value_no_fault el flag hopen hf
  unfold rtcom_el_unset_event_flag _ensure_db
  have hid2 : ¬ event_id < 1 := by omega
  simp only [hopen, Bool.not_true, Bool.false_eq_true, if_false, hid2]
  generalize rtcom_el_get_flag_value el flag = gv at g2 g3 g4 ⊢
  obtain ⟨el1, v⟩ := gv
  simp only [] at g2 g3 g4 ⊢
  by_cases hv : v = -1
  · subst hv
    simp only [beq_self_eq_true, if_true]
    refine ⟨g2, g4, by rw [g3], fun _ => ⟨?_, ?_, g3⟩, fun h => absurd rfl h⟩ <;> trivial
  · have hv2 : (v == -1) = false := by simpa using hv
    simp only [hv2, Bool.false_eq_true, if_false]
    rw [exec_of_no_fault el1.db _ _ _ () (noFault_at _ g4) rfl]
    simp only [g3]
    refine ⟨g2, g4, ?_, fun h => absurd h hv, fun _ => ⟨?_, ?_, ?_⟩⟩ <;> trivial

/-- C14: on an open database and an engine that reports no fault, for an event
id of at least 1 and a flag name that `rtcom_el_get_flag_value` resolves to
`v`: when `v` is not -1, `rtcom_el_set_event_flag` returns 0 and leaves
flags = f OR v in the event with that id, `rtcom_el_unset_event_flag` returns 0
and leaves flags = f AND NOT v, and set followed by unset leaves
flags = f AND NOT v, in which every bit outside `v` is the bit of f; no other
event changes.  When the name does not resolve (`v` = -1), both return -1 with
RTCOM_EL_INVALID_ARGUMENT_ERROR and leave the tables as they were. -/
theorem C14_flag_set_unset (el : RTComEl) (event_id : Int) (flag : Option String) (v : Int)
    (hopen : el.opened = true) (hid : 1 ≤ event_id) (hf : el.db.fault = noFault)
    (hv : (rtcom_el_get_flag_value el flag).2 = v) :
    (v ≠ -1 →
      (rtcom_el_set_event_flag el event_id flag).ret = 0 ∧
      (rtcom_el_set_event_flag el event_id flag).el.db.tables.Events =
        el.db.tables.Events.map (fun e =>
          if e.id == event_id then { e with flags := Int.lor e.flags v } else e) ∧
      (rtcom_el_unset_event_flag el event_id flag).ret = 0 ∧
      (rtcom_el_unset_event_flag el event_id flag).el.db.tables.Events =
        el.db.tables.Events.map (fun e =>
          if e.id == event_id then { e with flags := Int.land e.flags (Int.lnot v) } else e) ∧
      (rtcom_el_unset_event_flag (rtcom_el_set_event_flag el event_id flag).el
        event_id flag).ret = 0 ∧
      (rtcom_el_unset_event_flag (rtcom_el_set_event_flag el event_id flag).el
        event_id flag).el.db.tables.Events =
        el.db.tables.Events.map (fun e =>
          if e.id == event_id then { e with flags := Int.land e.flags (Int.lnot v) } else e) ∧
      ∀ (f : Int) (k : Nat), v.testBit k = false →
        (Int.land f (Int.lnot v)).testBit k = f.testBit k) ∧
    (v = -1 →
      (rtcom_el_set_event_flag el event_id flag).ret = -1 ∧
      (rtcom_el_set_event_flag el event_id flag).error = some RTCOM_EL_INVALID_ARGUMENT_ERROR ∧
      (rtcom_el_set_event_flag el event_id flag).el.db.tables = el.db.tables ∧
      (rtcom_el_unset_event_flag el event_id flag).ret = -1 ∧
      (rtcom_el_unset_event_flag el event_id flag).error =
        some RTCOM_EL_INVALID_ARGUMENT_ERROR ∧
      (rtcom_el_unset_event_flag el event_id flag).el.db.tables = el.db.tables) := by
  obtain ⟨s1, s2, s3, s4, s5⟩ := set_event_flag_no_fault el event_id flag hopen hid hf
  obtain ⟨-, -, -, u4, u5⟩ := unset_event_flag_no_fault el event_id flag hopen hid hf
  rw [hv] at s4 s5 u4 u5
  constructor
  · intro hne
    obtain ⟨a1, -, a3⟩ := s5 hne
    obtain ⟨b1, -, b3⟩ := u5 hne
    -- the flag resolves to the same value after the first call
    have hv2 : (rtcom_el_get_flag_value (rtcom_el_set_event_flag el event_id flag).el flag).2
        = v := by
      rw [(get_flag_value_no_fault _ flag s1 s2).1, s3, ← hv,
        (get_flag_value_no_fault el flag hopen hf).1]
    obtain ⟨-, -, -, -, w5⟩ := unset_event_flag_no_fault
      (rtcom_el_set_event_flag el event_id flag).el event_id flag s1 hid s2
    rw [hv2] at w5
    obtain ⟨c1, -, c3⟩ := w5 hne
    refine ⟨a1, a3, b1, b3, c1, ?_, ?_⟩
    · rw [c3, a3, List.map_map]
      apply List.map_congr_left
      intro e _
      simp only [Function.comp]
      by_cases he : (e.id == event_id) = true
      · simp only [he, if_true, land_lor_lnot]
      · simp only [he, Bool.false_eq_true, if_false]
    · intro f k hk
      rw [Int.testBit_land, Int.testBit_lnot, hk]
      simp
  · intro he
    obtain ⟨a1, a2, a3⟩ := s4 he
    obtain ⟨b1, b2, b3⟩ := u4 he
    exact ⟨a1, a2, a3, b1, b2, b3⟩

/-- C14, at an input: event 1 has flags 2 (RTCOM_EL_FLAG_CHAT_ROOM) and the
flag RTCOM_EL_FLAG_CHAT_GROUP resolves to 1. -/
theorem C14_flag_set_unset_witness :
    (rtcom_el_set_event_flag (sampleLogger (sampleTables [sampleRow 1 1 none 2 false] [] []))
      1 (some "RTCOM_EL_FLAG_CHAT_GROUP")).ret = 0 ∧
    (rtcom_el_set_event_flag (sampleLogger (sampleTables [sampleRow 1 1 none 2 false] [] []))
      1 (some "RTCOM_EL_FLAG_CHAT_GROUP")).el.db.tables.Events =
      [{ sampleRow 1 1 none 2 false with flags := Int.lor 2 1 }] ∧
    (rtcom_el_unset_event_flag
      (rtcom_el_set_event_flag (sampleLogger (sampleTables [sampleRow 1 1 none 2 false] [] []))
        1 (some "RTCOM_EL_FLAG_CHAT_GROUP")).el
      1 (some "RTCOM_EL_FLAG_CHAT_GROUP")).el.db.tables.Events =
      [{ sampleRow 1 1 none 2 false with flags := Int.land 2 (Int.lnot 1) }] :=
  ⟨((C14_flag_set_unset (sampleLogger (sampleTables [sampleRow 1 1 none 2 false] [] []))
      1 (some "RTCOM_EL_FLAG_CHAT_GROUP") 1 rfl (by decide) rfl (by decide)).1 (by decide)).1,
   ((C14_flag_set_unset (sampleLogger (sampleTables [sampleRow 1 1 none 2 false] [] []))
      1 (some "RTCOM_EL_FLAG_CHAT_GROUP") 1 rfl (by decide) rfl (by decide)).1 (by decide)).2.1,
   ((C14_flag_set_unset (sampleLogger (sampleTables [sampleRow 1 1 none 2 false] [] []))
      1 (some "RTCOM_EL_FLAG_CHAT_GROUP") 1 rfl (by decide) rfl (by decide)).1
      (by decide)).2.2.2.2.2.1⟩

/-! ## Read marks -/

theorem set_read_event_no_fault (el : RTComEl) (event_id : Int) (read : Bool)
    (hopen : el.opened = true) (hid : 1 ≤ event_id) (hf : el.db.fault = noFault) :
    (rtcom_el_set_read_event el event_id read).ret = 0 ∧
    (rtcom_el_set_read_event el event_id read).error = none ∧
    (rtcom_el_set_read_event el event_id read).el.opened = true ∧
    (rtcom_el_set_read_event el event_id read).el.db.fault = noFault ∧
    (rtcom_el_set_read_event el event_id read).el.db.log =
      el.db.log ++ ["UPDATE Events SET is_read = %d WHERE id = %d;"] ∧
    (rtcom_el_set_read_event el event_id read).el.db.tables.Events =
      el.db.tables.Events.map (fun e =>
        if e.id == event_id then { e with is_read := read } else e) := by
  unfold rtcom_el_set_read_event _ensure_db
  have hid2 : ¬ event_id < 1 := by omega
  simp only [hopen, Bool.not_true, Bool.false_eq_true, if_false, hid2]
  rw [exec_of_no_fault el.db _ _ _ () (noFault_at _ hf) rfl]
  exact ⟨rfl, rfl, rfl, hf, rfl, rfl⟩

/-- C15 (amended): on an open database and an engine that reports no fault,
for an event id of at least 1, `rtcom_el_set_read_event (id, TRUE)` followed by
`rtcom_el_set_read_event (id, FALSE)` succeeds twice and leaves every event of
that id unread and every other event as it was; so the is-read bit of the event
equals its value before the two calls exactly when the event was unread
before. -/
theorem C15_mark_read_round_trip (el : RTComEl) (event_id : Int)
    (hopen : el.opened = true) (hid : 1 ≤ event_id) (hf : el.db.fault = noFault) :
    (rtcom_el_set_read_event el event_id true).ret = 0 ∧
    (rtcom_el_set_read_event (rtcom_el_set_read_event el event_id true).el
      event_id false).ret = 0 ∧
    (rtcom_el_set_read_event (rtcom_el_set_read_event el event_id true).el
      event_id false).el.db.tables.Events =
      el.db.tables.Events.map (fun e =>
        if e.id == event_id then { e with is_read := false } else e) ∧
    (∀ e ∈ el.db.tables.Events, e.id = event_id →
      ((if e.id == event_id then { e with is_read := false } else e) = e ↔
        e.is_read = false)) := by
  obtain ⟨a1, -, a3, a4, -, a6⟩ := set_read_event_no_fault el event_id true hopen hid hf
  obtain ⟨b1, -, -, -, -, b6⟩ := set_read_event_no_fault
    (rtcom_el_set_read_event el event_id true).el event_id false a3 hid a4
  refine ⟨a1, b1, ?_, ?_⟩
  · rw [b6, a6, List.map_map]
    apply List.map_congr_left
    intro e _
    simp only [Function.comp]
    by_cases he : (e.id == event_id) = true
    · simp only [he, if_true]
    · simp only [he, Bool.false_eq_true, if_false]
  · intro e _ he
    have he2 : (e.id == event_id) = true := by simpa using he
    simp only [he2, if_true]
    constructor
    · intro h
      rw [← h]
    · intro h
      cases e
      simp only [] at h
      subst h
      rfl

/-- C15 (amended), at an input: event 1 is unread, is marked read and then
unread. -/
theorem C15_mark_read_round_trip_witness :
    (rtcom_el_set_read_event (rtcom_el_set_read_event
      (sampleLogger (sampleTables [sampleRow 1 1 none 0 false] [] [])) 1 true).el
      1 false).el.db.tables.Events = [sampleRow 1 1 none 0 false] :=
  (C15_mark_read_round_trip (sampleLogger (sampleTables [sampleRow 1 1 none 0 false] [] []))
    1 rfl (by decide) rfl).2.2.1

/-- C15 (as stated), refuted: event 1 is read before the two calls; both calls
return 0 and afterwards event 1 is unread. -/
theorem C15_counterexample_read_event :
    (sampleRow 1 1 none 0 true).is_read = true ∧
    (rtcom_el_set_read_event (sampleLogger (sampleTables [sampleRow 1 1 none 0 true] [] []))
      1 true).ret = 0 ∧
    (rtcom_el_set_read_event (rtcom_el_set_read_event
      (sampleLogger (sampleTables [sampleRow 1 1 none 0 true] [] [])) 1 true).el
      1 false).ret = 0 ∧
    (rtcom_el_set_read_event (rtcom_el_set_read_event
      (sampleLogger (sampleTables [sampleRow 1 1 none 0 true] [] [])) 1 true).el
      1 false).el.db.tables.Events = [sampleRow 1 1 none 0 false] := by
  decide

/-! ## Bulk read marks -/

/-- The loop on valid ids, on an engine that reports no fault. -/
theorem setReadLoop_no_fault (read : Bool) (ids : List Int) :
    ∀ (el : RTComEl) (ret : Int) (error : Option RTComElError),
    el.opened = true → el.db.fault = noFault → (∀ id ∈ ids, 1 ≤ id) →
    (setReadLoop el read ret error ids).ret = (if ids = [] then ret else 0) ∧
    (setReadLoop el read ret error ids).error = (if ids = [] then error else none) ∧
    (setReadLoop el read ret error ids).el.opened = true ∧
    (setReadLoop el read ret error ids).el.db.fault = noFault ∧
    (setReadLoop el read ret error ids).el.db.log =
      el.db.log ++ List.replicate ids.length "UPDATE Events SET is_read = %d WHERE id = %d;" ∧
    (setReadLoop el read ret error ids).el.db.tables.Events =
      el.db.tables.Events.map (fun e =>
        if ids.contains e.id then { e with is_read := read } else e) := by
  induction ids with
  | nil =>
    intro el ret error hopen hf _
    simp [setReadLoop, hopen, hf]
  | cons id rest ih =>
    intro el ret error hopen hf hids
    have hid : 1 ≤ id := hids id (List.mem_cons_self _ _)
    have hid0 : (id == 0) = false := by
      have : id ≠ 0 := by omega
      simpa using this
    obtain ⟨a1, a2, a3, a4, a5, a6⟩ := set_read_event_no_fault el id read hopen hid hf
    have hstep : setReadLoop el read ret error (id :: rest) =
        setReadLoop (rtcom_el_set_read_event el id read).el read 0 none rest := by
      rw [setReadLoop]
      simp only [hid0, Bool.false_eq_true, if_false, a1, a2]
      rfl
    obtain ⟨b1, b2, b3, b4, b5, b6⟩ := ih (rtcom_el_set_read_event el id read).el 0 none a3 a4
      (fun x hx => hids x (List.mem_cons_of_mem _ hx))
    rw [hstep]
    refine ⟨?_, ?_, b3, b4, ?_, ?_⟩
    · rw [b1]; simp
    · rw [b2]; simp
    · rw [b5, a5]; simp [List.replicate_succ]
    · rw [b6, a6, List.map_map]
      apply List.map_congr_left
      intro e _
      simp only [Function.comp, List.contains_cons]
      by_cases he : (e.id == id) = true
      · simp only [he, if_true, Bool.true_or]
        by_cases hr : rest.contains e.id = true
        · simp [hr]
        · simp [hr]
      · simp only [he, Bool.false_eq_true, if_false, Bool.false_or]

/-- The loop up to an id below 1, which `rtcom_el_set_read_event` refuses. -/
theorem setReadLoop_invalid_id (read : Bool) (bad : Int) (post : List Int) (hbad : bad < 0)
    (pre : List Int) :
    ∀ (el : RTComEl) (ret : Int) (error : Option RTComElError),
    el.opened = true → el.db.fault = noFault → (∀ id ∈ pre, 1 ≤ id) →
    (setReadLoop el read ret error (pre ++ bad :: post)).ret = -1 ∧
    (setReadLoop el read ret error (pre ++ bad :: post)).error =
      some RTCOM_EL_INVALID_ARGUMENT_ERROR ∧
    (setReadLoop el read ret error (pre ++ bad :: post)).el.db.log =
      el.db.log ++ List.replicate pre.length "UPDATE Events SET is_read = %d WHERE id = %d;" ∧
    (setReadLoop el read ret error (pre ++ bad :: post)).el.db.tables.Events =
      el.db.tables.Events.map (fun e =>
        if pre.contains e.id then { e with is_read := read } else e) := by
  induction pre with
  | nil =>
    intro el ret error hopen _ _
    have hb0 : (bad == 0) = false := by
      have : bad ≠ 0 := by omega
      simpa using this
    have hb1 : bad < 1 := by omega
    have hcall : rtcom_el_set_read_event el bad read =
        ⟨el, -1, some RTCOM_EL_INVALID_ARGUMENT_ERROR⟩ := by
      unfold rtcom_el_set_read_event _ensure_db
      simp only [hopen, Bool.not_true, Bool.false_eq_true, if_false, hb1, if_true]
    rw [List.nil_append, setReadLoop]
    simp only [hb0, Bool.false_eq_true, if_false, hcall, beq_self_eq_true, if_true]
    simp
  | cons id rest ih =>
    intro el ret error hopen hf hids
    have hid : 1 ≤ id := hids id (List.mem_cons_self _ _)
    have hid0 : (id == 0) = false := by
      have : id ≠ 0 := by omega
      simpa using this
    obtain ⟨a1, a2, a3, a4, a5, a6⟩ := set_read_event_no_fault el id read hopen hid hf
    have hstep : setReadLoop el read ret error ((id :: rest) ++ bad :: post) =
        setReadLoop (rtcom_el_set_read_event el id read).el read 0 none
          (rest ++ bad :: post) := by
      rw [List.cons_append, setReadLoop]
      simp only [hid0, Bool.false_eq_true, if_false, a1, a2]
      rfl
    obtain ⟨b1, b2, b5, b6⟩ := ih (rtcom_el_set_read_event el id read).el 0 none a3 a4
      (fun x hx => hids x (List.mem_cons_of_mem _ hx))
    rw [hstep]
    refine ⟨b1, b2, ?_, ?_⟩
    · rw [b5, a5]; simp [List.replicate_succ]
    · rw [b6, a6, List.map_map]
      apply List.map_congr_left
      intro e _
      simp only [Function.comp, List.contains_cons]
      by_cases he : (e.id == id) = true
      · simp only [he, if_true, Bool.true_or]
        by_cases hr : rest.contains e.id = true
        · simp [hr]
        · simp [hr]
      · simp only [he, Bool.false_eq_true, if_false, Bool.false_or]

/-- C16 (amended): `rtcom_el_set_read_events` refuses a NULL array and an array
whose first entry is 0 with -1 and RTCOM_EL_INVALID_ARGUMENT_ERROR, without a
statement.  Otherwise it calls `rtcom_el_set_read_event` on the ids in array
order, goes on after a call that succeeds, and stops at the first call that
returns -1, handing back that call's result: it returns -1, not an index.  On an
open database and an engine that reports no fault: when every id is at least 1
it returns 0, sets no error and every event whose id is listed has the
requested is-read bit, the others being as before; when the ids before `bad`
are at least 1 and `bad` is negative it returns -1 with
RTCOM_EL_INVALID_ARGUMENT_ERROR after one UPDATE for each id before `bad`, and
only events listed before `bad` have changed. -/
theorem C16_set_read_events (el : RTComEl) (read : Bool)
    (hopen : el.opened = true) (hf : el.db.fault = noFault) :
    rtcom_el_set_read_events el none read = ⟨el, -1, some RTCOM_EL_INVALID_ARGUMENT_ERROR⟩ ∧
    rtcom_el_set_read_events el (some []) read =
      ⟨el, -1, some RTCOM_EL_INVALID_ARGUMENT_ERROR⟩ ∧
    (∀ rest, rtcom_el_set_read_events el (some (0 :: rest)) read =
      ⟨el, -1, some RTCOM_EL_INVALID_ARGUMENT_ERROR⟩) ∧
    (∀ id rest, id ≠ 0 → rtcom_el_set_read_events el (some (id :: rest)) read =
      setReadLoop el read (-1) none (id :: rest)) ∧
    (∀ (l : RTComEl) ret error id rest, id ≠ 0 →
      (rtcom_el_set_read_event l id read).ret = -1 →
      setReadLoop l read ret error (id :: rest) = rtcom_el_set_read_event l id read) ∧
    (∀ (l : RTComEl) ret error id rest, id ≠ 0 →
      (rtcom_el_set_read_event l id read).ret ≠ -1 →
      setReadLoop l read ret error (id :: rest) =
        setReadLoop (rtcom_el_set_read_event l id read).el read
          (rtcom_el_set_read_event l id read).ret (rtcom_el_set_read_event l id read).error
          rest) ∧
    (∀ ids, ids ≠ [] → (∀ id ∈ ids, 1 ≤ id) →
      (rtcom_el_set_read_events el (some ids) read).ret = 0 ∧
      (rtcom_el_set_read_events el (some ids) read).error = none ∧
      (rtcom_el_set_read_events el (some ids) read).el.db.tables.Events =
        el.db.tables.Events.map (fun e =>
          if ids.contains e.id then { e with is_read := read } else e)) ∧
    (∀ pre bad post, (∀ id ∈ pre, 1 ≤ id) → bad < 0 →
      (rtcom_el_set_read_events el (some (pre ++ bad :: post)) read).ret = -1 ∧
      (rtcom_el_set_read_events el (some (pre ++ bad :: post)) read).error =
        some RTCOM_EL_INVALID_ARGUMENT_ERROR ∧
      (rtcom_el_set_read_events el (some (pre ++ bad :: post)) read).el.db.log =
        el.db.log ++
          List.replicate pre.length "UPDATE Events SET is_read = %d WHERE id = %d;" ∧
      (rtcom_el_set_read_events el (some (pre ++ bad :: post)) read).el.db.tables.Events =
        el.db.tables.Events.map (fun e =>
          if pre.contains e.id then { e with is_read := read } else e)) := by
  have htop : ∀ id rest, id ≠ 0 → rtcom_el_set_read_events el (some (id :: rest)) read =
      setReadLoop el read (-1) none (id :: rest) := by
    intro id rest hid
    have : (id == 0) = false := by simpa using hid
    simp only [rtcom_el_set_read_events, this, Bool.false_eq_true, if_false]
  refine ⟨rfl, rfl, fun rest => rfl, htop, ?_, ?_, ?_, ?_⟩
  · intro l ret error id rest hid hfail
    have : (id == 0) = false := by simpa using hid
    rw [setReadLoop]
    simp only [this, Bool.false_eq_true, if_false, hfail, beq_self_eq_true, if_true]
  · intro l ret error id rest hid hgo
    have : (id == 0) = false := by simpa using hid
    have hgo2 : ((rtcom_el_set_read_event l id read).ret == -1) = false := by simpa using hgo
    rw [setReadLoop]
    simp only [this, Bool.false_eq_true, if_false, hgo2]
  · intro ids hne hids
    cases ids with
    | nil => exact absurd rfl hne
    | cons id rest =>
      have hid : id ≠ 0 := by
        have := hids id (List.mem_cons_self _ _)
        omega
      rw [htop id rest hid]
      obtain ⟨b1, b2, -, -, -, b6⟩ := setReadLoop_no_fault read (id :: rest) el (-1) none
        hopen hf hids
      exact ⟨by rw [b1]; simp, by rw [b2]; simp, b6⟩
  · intro pre bad post hpre hbad
    have hloop : rtcom_el_set_read_events el (some (pre ++ bad :: post)) read =
        setReadLoop el read (-1) none (pre ++ bad :: post) := by
      cases pre with
      | nil => exact htop bad post (by omega)
      | cons id rest =>
        have := hpre id (List.mem_cons_self _ _)
        exact htop id (rest ++ bad :: post) (by omega)
    rw [hloop]
    exact setReadLoop_invalid_id read bad post hbad pre el (-1) none hopen hf hpre

/-- C16 (amended), at an input: events 1, 2 and 3 are unread and the array
holds the ids 3 and 1. -/
theorem C16_set_read_events_witness :
    (rtcom_el_set_read_events (sampleLogger (sampleTables
      [sampleRow 1 1 none 0 false, sampleRow 2 1 none 0 false, sampleRow 3 1 none 0 false]
      [] [])) (some [3, 1]) true).ret = 0 ∧
    (rtcom_el_set_read_events (sampleLogger (sampleTables
      [sampleRow 1 1 none 0 false, sampleRow 2 1 none 0 false, sampleRow 3 1 none 0 false]
      [] [])) (some [3, 1]) true).error = none ∧
    (rtcom_el_set_read_events (sampleLogger (sampleTables
      [sampleRow 1 1 none 0 false, sampleRow 2 1 none 0 false, sampleRow 3 1 none 0 false]
      [] [])) (some [3, 1]) true).el.db.tables.Events =
      [sampleRow 1 1 none 0 true, sampleRow 2 1 none 0 false, sampleRow 3 1 none 0 true] :=
  (C16_set_read_events (sampleLogger (sampleTables
      [sampleRow 1 1 none 0 false, sampleRow 2 1 none 0 false, sampleRow 3 1 none 0 false]
      [] [])) true rfl rfl).2.2.2.2.2.2.1 [3, 1] (by decide) (by decide)

/-- C16 (as stated), refuted: events 1 and 2 are unread and the array holds 1,
-5 and 2.  The call on -5, the entry of index 1, fails; the function returns
-1, event 1 is read and event 2 is not. -/
theorem C16_counterexample_returns_minus_one :
    (rtcom_el_set_read_events (sampleLogger (sampleTables
      [sampleRow 1 1 none 0 false, sampleRow 2 1 none 0 false] [] []))
      (some [1, -5, 2]) true).ret = -1 ∧
    (rtcom_el_set_read_events (sampleLogger (sampleTables
      [sampleRow 1 1 none 0 false, sampleRow 2 1 none 0 false] [] []))
      (some [1, -5, 2]) true).el.db.tables.Events =
      [sampleRow 1 1 none 0 true, sampleRow 2 1 none 0 false] := by
  decide

/-! ## Counters and group information -/

/-- C17 (what the code does): on an open database, when the engine does not
fault the statement, `rtcom_el_count_by_service (el, NULL)` returns the number
of events whose service_id is -1, the value both branches format into the
statement, and not the number of all events; for a service name whose id the
lookup table knows it returns the number of events of that service id, and for
an unknown name it returns 0 without a statement. -/
theorem C17_count_by_service (el : RTComEl)
    (hopen : el.opened = true) (hf : el.db.fault el.db.log.length = none) :
    (rtcom_el_count_by_service el none).2 =
      ((el.db.tables.Events.filter (fun e => e.service_id == -1)).length : Int) ∧
    (∀ s, rtcom_el_get_service_id el (some s) ≠ -1 →
      (rtcom_el_count_by_service el (some s)).2 =
        ((el.db.tables.Events.filter (fun e =>
          e.service_id == rtcom_el_get_service_id el (some s))).length : Int)) ∧
    (∀ s, rtcom_el_get_service_id el (some s) = -1 →
      (rtcom_el_count_by_service el (some s)) = (el, 0)) := by
  refine ⟨?_, ?_, ?_⟩
  · unfold rtcom_el_count_by_service _ensure_db
    simp only [hopen, Bool.not_true, Bool.false_eq_true, if_false]
    rw [exec_of_no_fault el.db _ (sqlCountByService (-1)) el.db.tables _ hf rfl]
  · intro s hs
    have hs2 : (rtcom_el_get_service_id el (some s) == -1) = false := by simpa using hs
    unfold rtcom_el_count_by_service _ensure_db
    simp only [hopen, Bool.not_true, Bool.false_eq_true, if_false, hs2]
    rw [exec_of_no_fault el.db _ (sqlCountByService (rtcom_el_get_service_id el (some s)))
      el.db.tables _ hf rfl]
  · intro s hs
    unfold rtcom_el_count_by_service _ensure_db
    simp only [hopen, Bool.not_true, Bool.false_eq_true, if_false, hs, beq_self_eq_true,
      if_true]

/-- C17 (code at the failing input): the database holds two events of service
CHAT (id 1) and one of service SMS (id 2), three events in all;
`rtcom_el_count_by_service (el, NULL)` returns 0. -/
theorem C17_count_by_service_witness :
    (sampleTables [sampleRow 1 1 none 0 false, sampleRow 2 1 none 0 false,
      sampleRow 3 2 none 0 false] [] []).Events.length = 3 ∧
    (rtcom_el_count_by_service (sampleLogger (sampleTables
      [sampleRow 1 1 none 0 false, sampleRow 2 1 none 0 false, sampleRow 3 2 none 0 false]
      [] [])) none).2 = 0 ∧
    (rtcom_el_count_by_service (sampleLogger (sampleTables
      [sampleRow 1 1 none 0 false, sampleRow 2 1 none 0 false, sampleRow 3 2 none 0 false]
      [] [])) (some "CHAT")).2 = 2 :=
  ⟨rfl,
   (C17_count_by_service (sampleLogger (sampleTables
      [sampleRow 1 1 none 0 false, sampleRow 2 1 none 0 false, sampleRow 3 2 none 0 false]
      [] [])) rfl rfl).1,
   (C17_count_by_service (sampleLogger (sampleTables
      [sampleRow 1 1 none 0 false, sampleRow 2 1 none 0 false, sampleRow 3 2 none 0 false]
      [] [])) rfl rfl).2.1 "CHAT" (by decide)⟩

/-- C19: with `db.saved.isSome` as the in-transaction bit.  While a
transaction is open, `rtcom_el_db_transaction` returns FALSE, sets no error and
leaves the connection, its statement log included, as it was; while none is
open, `rtcom_el_db_commit` and `rtcom_el_db_rollback` do the same.  In the
opposite states each hands exactly one statement to the engine: BEGIN
EXCLUSIVE or BEGIN DEFERRED, COMMIT, ROLLBACK; a BEGIN that succeeds sets the
bit, a COMMIT that succeeds and the ROLLBACK clear it. -/
theorem C19_transaction_guard (db : Conn) (exclusive : Bool) :
    (db.saved.isSome = true →
      rtcom_el_db_transaction db exclusive = (db, false, none) ∧
      (rtcom_el_db_commit db).1.log = db.log ++ ["COMMIT;"] ∧
      ((rtcom_el_db_commit db).2.1 = true → (rtcom_el_db_commit db).1.saved.isSome = false) ∧
      (rtcom_el_db_rollback db).1.log = db.log ++ ["ROLLBACK;"] ∧
      (rtcom_el_db_rollback db).1.saved.isSome = false) ∧
    (db.saved.isSome = false →
      rtcom_el_db_commit db = (db, false, none) ∧
      rtcom_el_db_rollback db = (db, false) ∧
      (rtcom_el_db_transaction db exclusive).1.log =
        db.log ++ [if exclusive then "BEGIN EXCLUSIVE;" else "BEGIN DEFERRED;"] ∧
      ((rtcom_el_db_transaction db exclusive).2.1 = true →
        (rtcom_el_db_transaction db exclusive).1.saved.isSome = true)) := by
  constructor
  · intro h
    obtain ⟨t, ht⟩ := Option.isSome_iff_exists.1 h
    refine ⟨?_, ?_, ?_, ?_, ?_⟩
    · simp [rtcom_el_db_transaction, h]
    · unfold rtcom_el_db_commit
      simp only [ht, Option.isNone_some, Bool.false_eq_true, if_false]
      have := (exec_spec db "COMMIT;" runNothing).2.2.1
      generalize rtcom_el_db_exec db "COMMIT;" runNothing = r at this ⊢
      obtain ⟨db1, res⟩ := r
      cases res <;> exact this
    · unfold rtcom_el_db_commit
      simp only [ht, Option.isNone_some, Bool.false_eq_true, if_false]
      generalize rtcom_el_db_exec db "COMMIT;" runNothing = r
      obtain ⟨db1, res⟩ := r
      cases res <;> simp
    · simp [rtcom_el_db_rollback, ht]
    · simp [rtcom_el_db_rollback, ht]
  · intro h
    have hn : db.saved = none := by
      cases hs : db.saved with
      | none => rfl
      | some t => rw [hs] at h; simp at h
    refine ⟨?_, ?_, ?_, ?_⟩
    · simp [rtcom_el_db_commit, hn]
    · simp [rtcom_el_db_rollback, hn]
    · unfold rtcom_el_db_transaction
      simp only [hn, Option.isSome_none, Bool.false_eq_true, if_false]
      have := (exec_spec db (if exclusive then "BEGIN EXCLUSIVE;" else "BEGIN DEFERRED;")
        runNothing).2.2.1
      generalize rtcom_el_db_exec db (if exclusive then "BEGIN EXCLUSIVE;"
        else "BEGIN DEFERRED;") runNothing = r at this ⊢
      obtain ⟨db1, res⟩ := r
      cases res <;> exact this
    · unfold rtcom_el_db_transaction
      simp only [hn, Option.isSome_none, Bool.false_eq_true, if_false]
      generalize rtcom_el_db_exec db (if exclusive then "BEGIN EXCLUSIVE;"
        else "BEGIN DEFERRED;") runNothing = r
      obtain ⟨db1, res⟩ := r
      cases res <;> simp

/-- C19, at two connections: one in autocommit mode and one inside a
transaction. -/
theorem C19_transaction_guard_witness :
    (rtcom_el_db_commit (sampleLogger (sampleTables [] [] [])).db).2 = (false, none) ∧
    (rtcom_el_db_commit (sampleLogger (sampleTables [] [] [])).db).1.log = [] ∧
    (rtcom_el_db_transaction
      { (sampleLogger (sampleTables [] [] [])).db with saved := some (sampleTables [] [] []) }
      true).2 = (false, none) ∧
    (rtcom_el_db_rollback
      { (sampleLogger (sampleTables [] [] [])).db with saved := some (sampleTables [] [] []) }
      ).1.log = ["ROLLBACK;"] :=
  ⟨congrArg Prod.snd ((C19_transaction_guard (sampleLogger (sampleTables [] [] [])).db
      true).2 rfl).1,
   congrArg (fun r => r.1.log) ((C19_transaction_guard (sampleLogger (sampleTables [] [] [])).db
      true).2 rfl).1,
   congrArg Prod.snd ((C19_transaction_guard
      { (sampleLogger (sampleTables [] [] [])).db with saved := some (sampleTables [] [] []) }
      true).1 rfl).1,
   ((C19_transaction_guard
      { (sampleLogger (sampleTables [] [] [])).db with saved := some (sampleTables [] [] []) }
      true).1 rfl).2.2.2.1⟩

/-- The error kind the switch on the result of `sqlite3_prepare_v2` reports. -/
theorem prepare_error_kind (db : Conn) (sql : String) {β : Type}
    (run : Tables → Except Int (Tables × β)) (code : Int)
    (hbad : allIsWell code = false)
    (hfault : db.fault db.log.length = some (EngineFault.atPrepare code)) :
    (rtcom_el_db_exec db sql run).2 = .error (classify code) := by
  unfold rtcom_el_db_exec
  simp only [hfault, hbad, Bool.false_eq_true, if_false]

theorem step_error_kind (db : Conn) (sql : String) {β : Type}
    (run : Tables → Except Int (Tables × β)) (code : Int)
    (hbad : allIsWell code = false)
    (hfault : db.fault db.log.length = some (EngineFault.atStep code) ∨
      (db.fault db.log.length = none ∧ run db.tables = .error code)) :
    (rtcom_el_db_exec db sql run).2 = .error (iterateError code) := by
  unfold rtcom_el_db_exec execStep
  rcases hfault with h | ⟨h1, h2⟩
  · simp only [h, hbad, Bool.false_eq_true, if_false]
  · simp only [h1, h2]

/-- C20 (amended): let `code` be an engine result code other than SQLITE_OK,
SQLITE_ROW and SQLITE_DONE.  When `sqlite3_step` ends the statement with it
(injected by the engine, or as the statement's own failure), `rtcom_el_db_exec`
fails with RTCOM_EL_DATABASE_FULL for SQLITE_FULL and SQLITE_IOERR,
RTCOM_EL_DATABASE_CORRUPTED for SQLITE_CORRUPT, SQLITE_FORMAT and SQLITE_NOTADB,
RTCOM_EL_TEMPORARY_ERROR for SQLITE_BUSY and SQLITE_LOCKED and
RTCOM_EL_INTERNAL_ERROR for every other code.  When `sqlite3_prepare_v2`
returns it, the kinds are the same except that SQLITE_BUSY and SQLITE_LOCKED
give RTCOM_EL_INTERNAL_ERROR. -/
theorem C20_error_classification (db : Conn) (sql : String) {β : Type}
    (run : Tables → Except Int (Tables × β)) (code : Int)
    (hbad : code ≠ SQLITE_OK ∧ code ≠ SQLITE_ROW ∧ code ≠ SQLITE_DONE) :
    ((db.fault db.log.length = some (EngineFault.atStep code) ∨
        (db.fault db.log.length = none ∧ run db.tables = .error code)) →
      (rtcom_el_db_exec db sql run).2 = .error
        (if code = SQLITE_FULL ∨ code = SQLITE_IOERR then RTCOM_EL_DATABASE_FULL
         else if code = SQLITE_CORRUPT ∨ code = SQLITE_FORMAT ∨ code = SQLITE_NOTADB then
           RTCOM_EL_DATABASE_CORRUPTED
         else if code = SQLITE_BUSY ∨ code = SQLITE_LOCKED then RTCOM_EL_TEMPORARY_ERROR
         else RTCOM_EL_INTERNAL_ERROR)) ∧
    (db.fault db.log.length = some (EngineFault.atPrepare code) →
      (rtcom_el_db_exec db sql run).2 = .error
        (if code = SQLITE_FULL ∨ code = SQLITE_IOERR then RTCOM_EL_DATABASE_FULL
         else if code = SQLITE_CORRUPT ∨ code = SQLITE_FORMAT ∨ code = SQLITE_NOTADB then
           RTCOM_EL_DATABASE_CORRUPTED
         else RTCOM_EL_INTERNAL_ERROR)) := by
  have hb : allIsWell code = false := by
    simp [allIsWell, hbad.1, hbad.2.1, hbad.2.2]
  constructor
  · intro h
    rw [step_error_kind db sql run code hb h]
    congr 1
    simp only [iterateError, classify, SQLITE_FULL, SQLITE_IOERR, SQLITE_CORRUPT, SQLITE_FORMAT,
      SQLITE_NOTADB, SQLITE_BUSY, SQLITE_LOCKED, Bool.or_eq_true, beq_iff_eq]
    split_ifs <;> first | rfl | omega
  · intro h
    rw [prepare_error_kind db sql run code hb h]
    congr 1
    simp only [classify, SQLITE_FULL, SQLITE_IOERR, SQLITE_CORRUPT, SQLITE_FORMAT,
      SQLITE_NOTADB, Bool.or_eq_true, beq_iff_eq]
    split_ifs <;> first | rfl | omega

/-- C20 (amended), at two inputs: SQLITE_LOCKED from `sqlite3_step` is reported
as RTCOM_EL_TEMPORARY_ERROR, SQLITE_FULL from `sqlite3_prepare_v2` as
RTCOM_EL_DATABASE_FULL. -/
theorem C20_error_classification_witness :
    (rtcom_el_db_exec
      { (sampleLogger (sampleTables [] [] [])).db with
        fault := fun _ => some (EngineFault.atStep SQLITE_LOCKED) }
      "COMMIT;" runNothing).2 = .error RTCOM_EL_TEMPORARY_ERROR ∧
    (rtcom_el_db_exec
      { (sampleLogger (sampleTables [] [] [])).db with
        fault := fun _ => some (EngineFault.atPrepare SQLITE_FULL) }
      "COMMIT;" runNothing).2 = .error RTCOM_EL_DATABASE_FULL :=
  ⟨(C20_error_classification
      { (sampleLogger (sampleTables [] [] [])).db with
        fault := fun _ => some (EngineFault.atStep SQLITE_LOCKED) }
      "COMMIT;" runNothing SQLITE_LOCKED (by decide)).1 (Or.inl rfl),
   (C20_error_classification
      { (sampleLogger (sampleTables [] [] [])).db with
        fault := fun _ => some (EngineFault.atPrepare SQLITE_FULL) }
      "COMMIT;" runNothing SQLITE_FULL (by decide)).2 rfl⟩

/-- C20 (as stated), refuted: `sqlite3_prepare_v2` returns SQLITE_BUSY, and
`rtcom_el_db_exec` fails with RTCOM_EL_INTERNAL_ERROR, not with
RTCOM_EL_TEMPORARY_ERROR. -/
theorem C20_counterexample_busy_at_prepare :
    (rtcom_el_db_exec
      { (sampleLogger (sampleTables [] [] [])).db with
        fault := fun _ => some (EngineFault.atPrepare SQLITE_BUSY) }
      "COMMIT;" runNothing).2 = .error RTCOM_EL_INTERNAL_ERROR := by
  rfl

/-! ## Reading the literals of the query compiler back -/

theorem readLiterals_inLit_quote (cur : List Char) (acc : List String) (cs : List Char) :
    readLiterals (.inLit cur) acc (quoteChar :: cs) = readLiterals (.quoteSeen cur) acc cs := by
  simp [readLiterals]

theorem readLiterals_inLit_other (c : Char) (h : (c == quoteChar) = false) (cur : List Char)
    (acc : List String) (cs : List Char) :
    readLiterals (.inLit cur) acc (c :: cs) = readLiterals (.inLit (c :: cur)) acc cs := by
  simp [readLiterals, h]

theorem readLiterals_quoteSeen_quote (cur : List Char) (acc : List String) (cs : List Char) :
    readLiterals (.quoteSeen cur) acc (quoteChar :: cs) =
      readLiterals (.inLit (quoteChar :: cur)) acc cs := by
  simp [readLiterals]

theorem readLiterals_quoteSeen_comma (cur : List Char) (acc : List String) (cs : List Char) :
    readLiterals (.quoteSeen cur) acc (',' :: cs) =
      readLiterals .needLit (String.mk cur.reverse :: acc) cs := by
  have h1 : (',' == quoteChar) = false := by decide
  simp [readLiterals, h1]

theorem readLiterals_quoteSeen_blank (cur : List Char) (acc : List String) :
    readLiterals (.quoteSeen cur) acc [' '] = some ((String.mk cur.reverse :: acc).reverse) := by
  have h1 : (' ' == quoteChar) = false := by decide
  have h2 : (' ' == ',') = false := by decide
  simp [readLiterals, h1, h2]

theorem readLiterals_quoteSeen_nil (cur : List Char) (acc : List String) :
    readLiterals (.quoteSeen cur) acc [] = some ((String.mk cur.reverse :: acc).reverse) := by
  simp [readLiterals]

theorem readLiterals_start_quote (acc : List String) (cs : List Char) :
    readLiterals .start acc (quoteChar :: cs) = readLiterals (.inLit []) acc cs := by
  have hq : (quoteChar == ' ') = false := by decide
  simp [readLiterals, hq]

theorem readLiterals_needLit_quote (acc : List String) (cs : List Char) :
    readLiterals .needLit acc (quoteChar :: cs) = readLiterals (.inLit []) acc cs := by
  have hq : (quoteChar == ' ') = false := by decide
  simp [readLiterals, hq]

theorem doubleQuotes_quote (cs : List Char) :
    doubleQuotes (quoteChar :: cs) = quoteChar :: quoteChar :: doubleQuotes cs := by
  simp [doubleQuotes]

theorem doubleQuotes_other (c : Char) (h : (c == quoteChar) = false) (cs : List Char) :
    doubleQuotes (c :: cs) = c :: doubleQuotes cs := by
  simp [doubleQuotes, h]

/-- Inside a literal the doubled quotes of `doubleQuotes v` read back as `v`. -/
theorem readLiterals_body (v cur : List Char) (acc : List String) (rest : List Char) :
    readLiterals (.inLit cur) acc (doubleQuotes v ++ rest) =
      readLiterals (.inLit (v.reverse ++ cur)) acc rest := by
  induction v generalizing cur with
  | nil => rfl
  | cons c cs ih =>
    cases hc : (c == quoteChar) with
    | true =>
      have hq : c = quoteChar := by simpa using hc
      subst hq
      rw [doubleQuotes_quote, List.cons_append, List.cons_append, readLiterals_inLit_quote,
        readLiterals_quoteSeen_quote, ih]
      simp
    | false =>
      rw [doubleQuotes_other c hc, List.cons_append, readLiterals_inLit_other c hc, ih]
      simp

/-- A quoted literal at the start of a list, up to its closing quote. -/
theorem readLiterals_quoted_start (v : List Char) (acc : List String) (rest : List Char) :
    readLiterals .start acc (quoteChar :: (doubleQuotes v ++ quoteChar :: rest)) =
      readLiterals (.quoteSeen v.reverse) acc rest := by
  rw [readLiterals_start_quote, readLiterals_body, readLiterals_inLit_quote]
  simp

/-- A quoted literal after a comma, up to its closing quote. -/
theorem readLiterals_quoted_next (v : List Char) (acc : List String) (rest : List Char) :
    readLiterals .needLit acc (quoteChar :: (doubleQuotes v ++ quoteChar :: rest)) =
      readLiterals (.quoteSeen v.reverse) acc rest := by
  rw [readLiterals_needLit_quote, readLiterals_body, readLiterals_inLit_quote]
  simp

/-- The characters of `%Q` for a string. -/
theorem mprintf_Q_toList (s : String) :
    (mprintf_Q (some s)).toList = quoteChar :: (doubleQuotes s.toList ++ [quoteChar]) := rfl

/-- The characters of the IN_STRV loop for a vector of one string. -/
theorem strvList_single (s : String) :
    (strvList [s]).toList = quoteChar :: (doubleQuotes s.toList ++ quoteChar :: [' ']) := by
  simp [strvList, String.toList, String.data_append, mprintf_Q]

/-- The characters of the IN_STRV loop for a longer vector. -/
theorem strvList_cons (s t : String) (rest : List String) :
    (strvList (s :: t :: rest)).toList =
      quoteChar :: (doubleQuotes s.toList ++
        quoteChar :: (',' :: (strvList (t :: rest)).toList)) := by
  rw [strvList]
  simp [String.toList, String.data_append, mprintf_Q]

/-- The loop of the IN_STRV branch after a comma: a non-empty vector reads
back element by element. -/
theorem readLiterals_strvList_next (s : String) (l : List String) (acc : List String) :
    readLiterals .needLit acc (strvList (s :: l)).toList = some (acc.reverse ++ s :: l) := by
  induction l generalizing s acc with
  | nil =>
    rw [strvList_single, readLiterals_quoted_next, readLiterals_quoteSeen_blank]
    simp
  | cons t rest ih =>
    rw [strvList_cons, readLiterals_quoted_next, readLiterals_quoteSeen_comma, ih]
    simp

/-- The text of the IN_STRV loop reads back as the vector it was built from. -/
theorem literalsOf_strvList (l : List String) : literalsOf (strvList l) = some l := by
  unfold literalsOf
  cases l with
  | nil => rfl
  | cons s rest =>
    cases rest with
    | nil =>
      rw [strvList_single, readLiterals_quoted_start, readLiterals_quoteSeen_blank]
      simp
    | cons t rest =>
      rw [strvList_cons, readLiterals_quoted_start, readLiterals_quoteSeen_comma,
        readLiterals_strvList_next]
      simp

/-- The text of `%Q` reads back as the one string it was built from. -/
theorem literalsOf_mprintf_Q (v : String) : literalsOf (mprintf_Q (some v)) = some [v] := by
  unfold literalsOf
  rw [mprintf_Q_toList, readLiterals_quoted_start, readLiterals_quoteSeen_nil]
  simp

/-- The literal of the STR_ENDS_WITH branch reads back as "%" followed by the
value. -/
theorem literalsOf_ends_with (v : String) :
    literalsOf (String.singleton quoteChar ++ "%" ++ mprintf_q (some v) ++
      String.singleton quoteChar) = some ["%" ++ v] := by
  unfold literalsOf
  have ht : (String.singleton quoteChar ++ "%" ++ mprintf_q (some v) ++
      String.singleton quoteChar).toList =
        quoteChar :: '%' :: (doubleQuotes v.toList ++ [quoteChar]) := by
    simp [String.toList, String.data_append, mprintf_q, String.singleton]
  have hp : ('%' == quoteChar) = false := by decide
  rw [ht, readLiterals_start_quote, readLiterals_inLit_other '%' hp, readLiterals_body,
    readLiterals_inLit_quote, readLiterals_quoteSeen_nil]
  simp
  rfl

/-! ## C21: the operator STR_LIKE -/

/-- `_build_where_clause` refuses RTCOM_EL_OP_STR_LIKE for every key. -/
theorem build_where_clause_like (q : RTComElQuery) (key : String) (val : QueryVal)
    (ret : String) :
    (_build_where_clause q key val RTCOM_EL_OP_STR_LIKE ret).1 = false := by
  unfold _build_where_clause
  cases q.has_el <;> cases typingLookup key <;> simp [_build_operator]

/-- C21 (code defect): `rtcom_el_query_prepare` refuses every predicate list
that holds a predicate with RTCOM_EL_OP_STR_LIKE, whatever the column and the
value: it returns FALSE and leaves the query without WHERE clause and without
SQL, so no predicate for a case-insensitive substring match is ever produced. -/
theorem C21_str_like_refused (q : RTComElQuery)
    (preds : List (String × QueryVal × RTComElOp)) (key : String) (val : QueryVal)
    (h : (key, val, RTCOM_EL_OP_STR_LIKE) ∈ preds) :
    rtcom_el_query_prepare q preds =
      (false, { q with where_clause := none, sql := none }) := by
  unfold rtcom_el_query_prepare
  have hne : preds.isEmpty = false := by
    cases preds with
    | nil => simp at h
    | cons _ _ => rfl
  have hall : preds.all (fun p =>
      (_build_where_clause { q with where_clause := none } p.1 p.2.1 p.2.2 "").1) = false := by
    rw [List.all_eq_false]
    exact ⟨(key, val, RTCOM_EL_OP_STR_LIKE), h, by simp [build_where_clause_like]⟩
  simp only [hne, buildWhere_eq, hall]
  simp

/-- C21, at the input of `test_like`: the predicate "free-text" STR_LIKE
"AM oNLi" on a query that has its logger. -/
theorem C21_str_like_refused_witness :
    rtcom_el_query_prepare (rtcom_el_query_new true)
        [("free-text", QueryVal.str (some "AM oNLi"), RTCOM_EL_OP_STR_LIKE)] =
      (false, { rtcom_el_query_new true with where_clause := none, sql := none }) :=
  C21_str_like_refused (rtcom_el_query_new true) _ "free-text" (QueryVal.str (some "AM oNLi"))
    (by simp)

/-! ## C22: the operator STR_ENDS_WITH -/

/-- A pattern without wildcards matches the texts that agree with it letter by
letter, case of ASCII letters apart. -/
theorem sqlLike_plain (p : List Char) (hp : ∀ c ∈ p, isWildcard c = false) (t : List Char) :
    sqlLike p t = true ↔ t.map Char.toLower = p.map Char.toLower := by
  induction p generalizing t with
  | nil =>
    cases t <;> simp [sqlLike]
  | cons c cs ih =>
    have hc := hp c (List.mem_cons_self _ _)
    simp only [isWildcard, Bool.or_eq_false_iff] at hc
    have hcs : ∀ x ∈ cs, isWildcard x = false := fun x hx => hp x (List.mem_cons_of_mem _ hx)
    cases t with
    | nil => simp [sqlLike, hc.1]
    | cons d rest =>
      simp only [sqlLike, hc.1, hc.2, Bool.false_eq_true, if_false, Bool.false_or,
        Bool.and_eq_true, beq_iff_eq, ih hcs rest, List.map_cons, List.cons.injEq]
      constructor
      · rintro ⟨h1, h2⟩
        exact ⟨h1.symm, h2⟩
      · rintro ⟨h1, h2⟩
        exact ⟨h1.symm, h2⟩

/-- The pattern of STR_ENDS_WITH, for a value without wildcards, matches the
texts with a tail that agrees with the value, case of ASCII letters apart. -/
theorem sqlLike_ends_with (v : List Char) (hv : ∀ c ∈ v, isWildcard c = false)
    (s : List Char) :
    sqlLike ('%' :: v) s = true ↔
      ∃ t, t <:+ s ∧ t.map Char.toLower = v.map Char.toLower := by
  simp only [sqlLike, beq_self_eq_true, if_true, List.any_eq_true, List.mem_tails]
  constructor
  · rintro ⟨t, ht, hm⟩
    exact ⟨t, ht, (sqlLike_plain v hv t).1 hm⟩
  · rintro ⟨t, ht, hm⟩
    exact ⟨t, ht, (sqlLike_plain v hv t).2 hm⟩

/-- C22 (amended): for a string column and a string value `v` without '%' and
'_', the fragment compiled for RTCOM_EL_OP_STR_ENDS_WITH is the column, " LIKE "
and one literal that reads back as "%" followed by `v`; by the engine's LIKE it
is satisfied exactly by the rows whose column value has a tail equal to `v` up
to the case of ASCII letters. -/
theorem C22_str_ends_with (q : RTComElQuery) (key : String) (v : String)
    (hel : q.has_el = true) (hk : typingLookup key = G_TYPE_STRING)
    (hv : ∀ c ∈ v.toList, isWildcard c = false) :
    _build_where_clause q key (QueryVal.str (some v)) RTCOM_EL_OP_STR_ENDS_WITH "" =
      (true, mappingLookup key ++ " LIKE " ++
        (String.singleton quoteChar ++ "%" ++ mprintf_q (some v) ++ String.singleton quoteChar)) ∧
    literalsOf (String.singleton quoteChar ++ "%" ++ mprintf_q (some v) ++
      String.singleton quoteChar) = some ["%" ++ v] ∧
    ∀ s : String, sqlLike ("%" ++ v).toList s.toList = true ↔
      ∃ t, t <:+ s.toList ∧ t.map Char.toLower = v.toList.map Char.toLower := by
  refine ⟨?_, literalsOf_ends_with v, ?_⟩
  · unfold _build_where_clause
    simp [hel, hk, String.append_assoc, QueryVal.toStr]
  · intro s
    have hpat : ("%" ++ v).toList = '%' :: v.toList := rfl
    rw [hpat]
    exact sqlLike_ends_with v.toList hv s.toList

/-- C22 at the predicate of `test_ends_with`: "remote-name" ends with "ve". -/
theorem C22_str_ends_with_witness :
    (∀ c ∈ "ve".toList, isWildcard c = false) ∧
    _build_where_clause (rtcom_el_query_new true) "remote-name" (QueryVal.str (some "ve"))
        RTCOM_EL_OP_STR_ENDS_WITH "" =
      (true, mappingLookup "remote-name" ++ " LIKE " ++
        (String.singleton quoteChar ++ "%" ++ mprintf_q (some "ve") ++
          String.singleton quoteChar)) :=
  ⟨by decide, (C22_str_ends_with (rtcom_el_query_new true) "remote-name" "ve" rfl (by decide)
    (by decide)).1⟩

/-- C22, counterexample to the claim as stated: the predicate compiled for the
value "VE" is `Remotes.remote_name LIKE '%VE'`, and the engine's LIKE accepts
the name "Eve", which does not end with "VE"; likewise the value "_e" accepts
"Eve", so '_' does not match only itself. -/
theorem C22_counterexample_letter_case :
    (_build_where_clause (rtcom_el_query_new true) "remote-name" (QueryVal.str (some "VE"))
        RTCOM_EL_OP_STR_ENDS_WITH "").2 = "Remotes.remote_name LIKE '%VE'" ∧
    literalsOf "'%VE'" = some ["%VE"] ∧
    sqlLike "%VE".toList "Eve".toList = true ∧
    "VE".toList.isSuffixOf "Eve".toList = false ∧
    sqlLike "%_e".toList "Eve".toList = true ∧
    "_e".toList.isSuffixOf "Eve".toList = false := by
  decide

/-! ## C23: the operator IN_STRV -/

/-- The text of the IN_STRV loop: the literals joined by commas, and one blank
after the last. -/
theorem strvList_eq (l : List String) :
    strvList l = String.intercalate "," (l.map (fun s => mprintf_Q (some s))) ++
      (if l.isEmpty then "" else " ") := by
  induction l with
  | nil => rfl
  | cons s rest ih =>
    cases rest with
    | nil => simp [strvList, String.intercalate, String.intercalate.go]
    | cons t rest =>
      rw [strvList, ih]
      simp only [List.map_cons, intercalate_cons_cons]
      simp [String.append_assoc]

/-- C23 (amended): for a string column and every vector of strings, the empty
one included, the fragment compiled for RTCOM_EL_OP_IN_STRV is the column's SQL
name, " IN (", the elements each as a quoted literal and separated by commas,
one blank after the last element when there is one, and ")"; the engine reads
the list back as the vector, so the fragment is satisfied exactly by the rows
whose column value equals one of the elements. -/
theorem C23_in_strv (q : RTComElQuery) (key : String) (l : List String)
    (hel : q.has_el = true) (hk : typingLookup key = G_TYPE_STRING) :
    _build_where_clause q key (QueryVal.strv l) RTCOM_EL_OP_IN_STRV "" =
      (true, mappingLookup key ++ " IN (" ++
        (String.intercalate "," (l.map (fun s => mprintf_Q (some s))) ++
          (if l.isEmpty then "" else " ")) ++ ")") ∧
    literalsOf (String.intercalate "," (l.map (fun s => mprintf_Q (some s))) ++
      (if l.isEmpty then "" else " ")) = some l ∧
    (∀ c : String, sqlIn l (some c) = true ↔ c ∈ l) ∧
    sqlIn l none = false := by
  refine ⟨?_, ?_, ?_, rfl⟩
  · unfold _build_where_clause
    simp [hel, hk, QueryVal.toStrv, strvList_eq, String.append_assoc]
  · rw [← strvList_eq]
    exact literalsOf_strvList l
  · intro c
    simp [sqlIn]

/-- C23 at the predicate of `test_in_strv`: "remote-name" in Chris, Dave. -/
theorem C23_in_strv_witness :
    (rtcom_el_query_new true).has_el = true ∧ typingLookup "remote-name" = G_TYPE_STRING ∧
    literalsOf (String.intercalate ","
        (["Chris", "Dave"].map (fun s => mprintf_Q (some s))) ++
      (if ["Chris", "Dave"].isEmpty then "" else " ")) = some ["Chris", "Dave"] :=
  ⟨rfl, by decide,
    (C23_in_strv (rtcom_el_query_new true) "remote-name" ["Chris", "Dave"] rfl
      (by decide)).2.1⟩

/-- C23, counterexample to the claim as stated: for the vector of the one
string "Chris" the fragment has a blank between the literal and ")". -/
theorem C23_counterexample_blank :
    (_build_where_clause (rtcom_el_query_new true) "remote-name" (QueryVal.strv ["Chris"])
        RTCOM_EL_OP_IN_STRV "").2 = "Remotes.remote_name IN ('Chris' )" ∧
    (_build_where_clause (rtcom_el_query_new true) "remote-name" (QueryVal.strv ["Chris"])
        RTCOM_EL_OP_IN_STRV "").2 ≠ "Remotes.remote_name IN ('Chris')" := by
  decide

/-! ## C24: quoting of string values -/

/-- C24 (amended): for a string column and every string value `v`, whatever
its characters, the compiled fragment holds `v` only inside one string literal
with every single quote of `v` doubled: with a relational operator and inside
an IN_STRV list the literal reads back as exactly `v` (the list as exactly the
vector); with STR_ENDS_WITH the literal reads back as "%" followed by `v`.  In
each case the whole text after the operator is read as literals, so no part of
`v` is read as SQL syntax. -/
theorem C24_safe_quoting (q : RTComElQuery) (key : String) (v : String)
    (hel : q.has_el = true) (hk : typingLookup key = G_TYPE_STRING) :
    (∀ op op_string, _build_operator op = some op_string →
      _build_where_clause q key (QueryVal.str (some v)) op "" =
        (true, mappingLookup key ++ " " ++ op_string ++ " " ++ mprintf_Q (some v))) ∧
    mprintf_Q (some v) = String.mk (quoteChar :: doubleQuotes v.toList ++ [quoteChar]) ∧
    literalsOf (mprintf_Q (some v)) = some [v] ∧
    (∀ before after : List String,
      _build_where_clause q key (QueryVal.strv (before ++ v :: after)) RTCOM_EL_OP_IN_STRV "" =
        (true, mappingLookup key ++ " IN (" ++ strvList (before ++ v :: after) ++ ")") ∧
      literalsOf (strvList (before ++ v :: after)) = some (before ++ v :: after)) ∧
    _build_where_clause q key (QueryVal.str (some v)) RTCOM_EL_OP_STR_ENDS_WITH "" =
      (true, mappingLookup key ++ " LIKE " ++
        (String.singleton quoteChar ++ "%" ++ mprintf_q (some v) ++ String.singleton quoteChar)) ∧
    mprintf_q (some v) = String.mk (doubleQuotes v.toList) ∧
    literalsOf (String.singleton quoteChar ++ "%" ++ mprintf_q (some v) ++
      String.singleton quoteChar) = some ["%" ++ v] := by
  refine ⟨?_, rfl, literalsOf_mprintf_Q v, ?_, ?_, rfl, literalsOf_ends_with v⟩
  · intro op op_string hop
    unfold _build_where_clause
    cases op <;> simp [_build_operator] at hop <;>
      simp [hel, hk, _build_operator, QueryVal.toStr, String.append_assoc, hop]
  · intro before after
    refine ⟨?_, literalsOf_strvList _⟩
    unfold _build_where_clause
    simp [hel, hk, QueryVal.toStrv, String.append_assoc]
  · unfold _build_where_clause
    simp [hel, hk, String.append_assoc, QueryVal.toStr]

/-- C24 at a value with single quotes: "it's 'x'" compared for equality on
"free-text". -/
theorem C24_safe_quoting_witness :
    (rtcom_el_query_new true).has_el = true ∧ typingLookup "free-text" = G_TYPE_STRING ∧
    literalsOf (mprintf_Q (some "it's 'x'")) = some ["it's 'x'"] :=
  ⟨rfl, by decide,
    (C24_safe_quoting (rtcom_el_query_new true) "free-text" "it's 'x'" rfl (by decide)).2.2.1⟩

/-- C24, counterexample to the claim as stated: with STR_ENDS_WITH and the
value "ve" the literal of the fragment reads back as "%ve", not as "ve". -/
theorem C24_counterexample_ends_with :
    (_build_where_clause (rtcom_el_query_new true) "remote-name" (QueryVal.str (some "ve"))
        RTCOM_EL_OP_STR_ENDS_WITH "").2 = "Remotes.remote_name LIKE '%ve'" ∧
    literalsOf "'%ve'" = some ["%ve"] ∧
    literalsOf "'%ve'" ≠ some ["ve"] := by
  decide

/-! ## C25: refresh and prepare -/

/-- `_build_where_clause` reads nothing of the query but whether it has its
logger. -/
theorem build_where_clause_congr (q q2 : RTComElQuery) (h : q.has_el = q2.has_el)
    (key : String) (val : QueryVal) (op : RTComElOp) (ret : String) :
    _build_where_clause q key val op ret = _build_where_clause q2 key val op ret := by
  unfold _build_where_clause
  rw [h]

/-- So does the loop of `rtcom_el_query_prepare`. -/
theorem buildWhere_congr (q q2 : RTComElQuery) (h : q.has_el = q2.has_el)
    (preds : List (String × QueryVal × RTComElOp)) (buf : String) :
    buildWhere q preds buf = buildWhere q2 preds buf := by
  induction preds generalizing buf with
  | nil => rfl
  | cons p rest ih =>
    obtain ⟨col, val, op⟩ := p
    unfold buildWhere
    rw [build_where_clause_congr q q2 h]
    split
    · rfl
    · exact ih _

/-- C25: after `rtcom_el_query_prepare` has accepted the predicate list `P`,
changing limit, offset and grouping mode and calling `rtcom_el_query_refresh`
leaves the cached WHERE clause as prepare built it and gives exactly the query,
SQL included, that prepare with `P` gives under the new limit, offset and
grouping; a second refresh changes nothing. -/
theorem C25_refresh_versus_prepare (q : RTComElQuery)
    (P : List (String × QueryVal × RTComElOp)) (l o : Int) (g : RTComElQueryGroupBy)
    (h : (rtcom_el_query_prepare q P).1 = true) :
    (rtcom_el_query_refresh
        { (rtcom_el_query_prepare q P).2 with limit := l, offset := o, group_by := g }).where_clause
      = (rtcom_el_query_prepare q P).2.where_clause ∧
    rtcom_el_query_refresh
        { (rtcom_el_query_prepare q P).2 with limit := l, offset := o, group_by := g }
      = (rtcom_el_query_prepare { q with limit := l, offset := o, group_by := g } P).2 ∧
    (rtcom_el_query_refresh
        { (rtcom_el_query_prepare q P).2 with limit := l, offset := o, group_by := g }).sql
      = (rtcom_el_query_prepare { q with limit := l, offset := o, group_by := g } P).2.sql ∧
    rtcom_el_query_refresh (rtcom_el_query_refresh
        { (rtcom_el_query_prepare q P).2 with limit := l, offset := o, group_by := g })
      = rtcom_el_query_refresh
        { (rtcom_el_query_prepare q P).2 with limit := l, offset := o, group_by := g } := by
  have hcong : buildWhere { q with limit := l, offset := o, group_by := g, where_clause := none }
      P "" = buildWhere { q with where_clause := none } P "" :=
    buildWhere_congr { q with limit := l, offset := o, group_by := g, where_clause := none }
      { q with where_clause := none } rfl P ""
  have key : rtcom_el_query_refresh
        { (rtcom_el_query_prepare q P).2 with limit := l, offset := o, group_by := g }
      = (rtcom_el_query_prepare { q with limit := l, offset := o, group_by := g } P).2 := by
    unfold rtcom_el_query_prepare at h ⊢
    cases hP : P.isEmpty with
    | true => simp only [hP, if_true]; rfl
    | false =>
      simp only [hP] at h ⊢
      simp only [hcong]
      cases hb : buildWhere { q with where_clause := none } P "" with
      | none => simp [hb] at h
      | some w => rfl
  refine ⟨rfl, key, by rw [key], rfl⟩

/-- C25 at a concrete query: two predicates, then limit 5, offset 2 and
grouping by contact. -/
theorem C25_refresh_versus_prepare_witness :
    (rtcom_el_query_prepare (rtcom_el_query_new true)
        [("service", QueryVal.str (some "CHAT"), RTCOM_EL_OP_EQUAL),
         ("is-read", QueryVal.int 0, RTCOM_EL_OP_EQUAL)]).1 = true ∧
    rtcom_el_query_refresh
        { (rtcom_el_query_prepare (rtcom_el_query_new true)
            [("service", QueryVal.str (some "CHAT"), RTCOM_EL_OP_EQUAL),
             ("is-read", QueryVal.int 0, RTCOM_EL_OP_EQUAL)]).2 with
          limit := 5, offset := 2, group_by := RTCOM_EL_QUERY_GROUP_BY_CONTACT }
      = (rtcom_el_query_prepare
          { rtcom_el_query_new true with
            limit := 5, offset := 2, group_by := RTCOM_EL_QUERY_GROUP_BY_CONTACT }
          [("service", QueryVal.str (some "CHAT"), RTCOM_EL_OP_EQUAL),
           ("is-read", QueryVal.int 0, RTCOM_EL_OP_EQUAL)]).2 :=
  ⟨by decide, (C25_refresh_versus_prepare (rtcom_el_query_new true)
      [("service", QueryVal.str (some "CHAT"), RTCOM_EL_OP_EQUAL),
       ("is-read", QueryVal.int 0, RTCOM_EL_OP_EQUAL)] 5 2 RTCOM_EL_QUERY_GROUP_BY_CONTACT
      (by decide)).2.1⟩

/-! ## C26: attribute lookup -/

/-- C26 (amended): for every row, attribute name and value slot, `_find_value`
returns TRUE with the plugin's value when the hook of the active plugin
supplies one; otherwise TRUE with a copy of the raw column of that name when
the column map has it; and for a name that neither supplies it returns FALSE
and leaves the slot as it was handed on (untouched when no hook ran), so no
value, typed or not, is produced. -/
theorem C26_find_value (it : RTComElIter) (key : String) (value : GValue) :
    ((askPlugin it key value).1 = true →
      _find_value it (some key) value = (true, (askPlugin it key value).2)) ∧
    ((askPlugin it key value).1 = false →
      ∀ columns src, it.columns = some columns → columns.lookup key = some src →
        _find_value it (some key) value = (true, src)) ∧
    ((askPlugin it key value).1 = false →
      (it.columns = none ∨ ∃ columns, it.columns = some columns ∧ columns.lookup key = none) →
        _find_value it (some key) value = (false, (askPlugin it key value).2)) ∧
    ((it.currently_active_plugin = none ∨
        ∃ plugin, it.currently_active_plugin = some plugin ∧ plugin.get_value = none) →
      askPlugin it key value = (false, value)) := by
  refine ⟨?_, ?_, ?_, ?_⟩
  · intro h
    simp [_find_value, h]
  · intro h columns src hc hl
    simp [_find_value, h, rtcom_el_iter_get_raw, hc, hl]
  · intro h hmiss
    rcases hmiss with hc | ⟨columns, hc, hl⟩
    · simp [_find_value, h, rtcom_el_iter_get_raw, hc]
    · simp [_find_value, h, rtcom_el_iter_get_raw, hc, hl]
  · intro hp
    rcases hp with hp | ⟨plugin, hp, hg⟩
    · simp [askPlugin, hp]
    · simp [askPlugin, hp, hg]

/-- C26, counterexample to the claim as stated, at the lookup of
`test_get_string`: on a row with columns and without plugin hook, the name
"there is no such key" makes `_find_value` return FALSE and leaves the slot
unset; no typed NULL comes back. -/
theorem C26_counterexample_missing_key :
    _find_value
        { currently_active_plugin := some { get_value := none },
          columns := some [("service", GValue.string (some "CHAT")), ("id", GValue.int 1)] }
        (some "there is no such key") GValue.unset = (false, GValue.unset) ∧
    _find_value
        { currently_active_plugin := some { get_value := none },
          columns := some [("service", GValue.string (some "CHAT")), ("id", GValue.int 1)] }
        (some "there is no such key") GValue.unset ≠ (true, GValue.string none) := by
  decide

/-! ## C27: the busy handler -/

/-- C27 (amended): for every value of the engine's busy counter
`_db_busy_handler` returns 1 when the counter is below ten and 0 otherwise, and
it returns nothing else; as the engine passes the number of earlier invocations,
a lock that stays held is retried for the first ten contended attempts (counters
0 to 9) and refused at the eleventh. -/
theorem C27_busy_handler (count : Int) (extra : Nat) :
    (_db_busy_handler count = 1 ↔ count < 10) ∧
    (_db_busy_handler count = 0 ↔ 10 ≤ count) ∧
    busyRetries (extra + 11) 0 = 10 := by
  refine ⟨?_, ?_, ?_⟩
  · unfold _db_busy_handler
    split <;> simp_all
  · unfold _db_busy_handler
    split <;> simp_all
  · simp [busyRetries, _db_busy_handler]

/-- C27, counterexample to the claim as stated: at the tenth contended attempt
the counter is 9 and the handler still asks for a retry. -/
theorem C27_counterexample_tenth_attempt :
    _db_busy_handler 9 = 1 ∧ ¬ (_db_busy_handler 9 = 0) ∧ busyRetries 11 0 ≠ 9 := by
  decide

/-! ## C28: lock failure during the migration -/

/-- Only the error kind "corrupted" has a code that the retry test accepts. -/
theorem redoUpgrade_iff (k : RTComElError) :
    redoUpgrade k.code = true ↔ k = RTCOM_EL_DATABASE_CORRUPTED := by
  cases k <;> decide

/-- One run of the body when the lock fails as corrupted. -/
theorem convert_corrupted_step (env : Nat → Attempt) (fuel n : Nat)
    (hr : reachesLock (env n) = true)
    (hl : lockFailure (env n) = some RTCOM_EL_DATABASE_CORRUPTED) :
    rtcom_el_db_convert_from_db0 env (fuel + 1) n =
      (rtcom_el_db_convert_from_db0 env fuel (n + 1)).map
        (fun r => (r.1, FsAction.unlinkTemp :: r.2)) := by
  simp only [reachesLock, Bool.and_eq_true, Bool.not_eq_true'] at hr
  obtain ⟨⟨⟨h1, h2⟩, h3⟩, h4⟩ := hr
  rw [rtcom_el_db_convert_from_db0]
  simp only [h1, h2, h3, h4, hl, (redoUpgrade_iff _).2 rfl]
  cases rtcom_el_db_convert_from_db0 env fuel (n + 1) <;> simp

/-- A run of `k` attempts whose lock fails as corrupted. -/
theorem convert_corrupted_run (env : Nat → Attempt) (fuel n k : Nat)
    (hk : ∀ i, i < k → reachesLock (env (n + i)) = true ∧
      lockFailure (env (n + i)) = some RTCOM_EL_DATABASE_CORRUPTED) :
    rtcom_el_db_convert_from_db0 env (fuel + k) n =
      (rtcom_el_db_convert_from_db0 env fuel (n + k)).map
        (fun r => (r.1, List.replicate k FsAction.unlinkTemp ++ r.2)) := by
  induction k generalizing n with
  | zero =>
    cases rtcom_el_db_convert_from_db0 env fuel n <;> simp
  | succ k ih =>
    have h0 := hk 0 (Nat.succ_pos k)
    rw [← Nat.add_assoc, convert_corrupted_step env (fuel + k) n h0.1 h0.2]
    have hrest : ∀ i, i < k → reachesLock (env (n + 1 + i)) = true ∧
        lockFailure (env (n + 1 + i)) = some RTCOM_EL_DATABASE_CORRUPTED := by
      intro i hi
      have := hk (i + 1) (Nat.succ_lt_succ hi)
      rw [show n + (i + 1) = n + 1 + i by omega] at this
      exact this
    rw [ih (n + 1) hrest, show n + 1 + k = n + (k + 1) by omega]
    cases rtcom_el_db_convert_from_db0 env fuel (n + (k + 1)) <;>
      simp [List.replicate_succ]

/-- C28 (amended): in `rtcom_el_db_convert_from_db0`, when the exclusive
transaction on the temp file fails with error kind corrupted, the temp file is
deleted and the whole migration is run again from its start, and this is done
again every time the lock then fails as corrupted (the function keeps no count
of its retries: `k` such failures in a row give `k` deletions and `k` re-runs);
when it fails with error kind temporary, or any kind other than corrupted, the
function returns failure without deleting the temp file and without
retrying. -/
theorem C28_migration_lock_failure (env : Nat → Attempt) (fuel n : Nat) :
    (reachesLock (env n) = true →
      lockFailure (env n) = some RTCOM_EL_DATABASE_CORRUPTED →
      rtcom_el_db_convert_from_db0 env (fuel + 1) n =
        (rtcom_el_db_convert_from_db0 env fuel (n + 1)).map
          (fun r => (r.1, FsAction.unlinkTemp :: r.2))) ∧
    (∀ k : Nat,
      (∀ i, i < k → reachesLock (env (n + i)) = true ∧
        lockFailure (env (n + i)) = some RTCOM_EL_DATABASE_CORRUPTED) →
      rtcom_el_db_convert_from_db0 env (fuel + k) n =
        (rtcom_el_db_convert_from_db0 env fuel (n + k)).map
          (fun r => (r.1, List.replicate k FsAction.unlinkTemp ++ r.2))) ∧
    (reachesLock (env n) = true →
      lockFailure (env n) = some RTCOM_EL_TEMPORARY_ERROR →
      rtcom_el_db_convert_from_db0 env (fuel + 1) n = some (false, [])) ∧
    (∀ kind, reachesLock (env n) = true → lockFailure (env n) = some kind →
      kind ≠ RTCOM_EL_DATABASE_CORRUPTED →
      rtcom_el_db_convert_from_db0 env (fuel + 1) n = some (false, [])) := by
  have hother : ∀ kind, reachesLock (env n) = true → lockFailure (env n) = some kind →
      kind ≠ RTCOM_EL_DATABASE_CORRUPTED →
      rtcom_el_db_convert_from_db0 env (fuel + 1) n = some (false, []) := by
    intro kind hr hl hk
    simp only [reachesLock, Bool.and_eq_true, Bool.not_eq_true'] at hr
    obtain ⟨⟨⟨h1, h2⟩, h3⟩, h4⟩ := hr
    have hno : redoUpgrade kind.code = false := by
      cases hq : redoUpgrade kind.code with
      | false => rfl
      | true => exact absurd ((redoUpgrade_iff kind).1 hq) hk
    rw [rtcom_el_db_convert_from_db0]
    simp [h1, h2, h3, h4, hl, hno]
  refine ⟨convert_corrupted_step env fuel n, convert_corrupted_run env fuel n, ?_, hother⟩
  intro hr hl
  exact hother _ hr hl (by decide)

/-- C28, counterexample to the claim as stated: when the temp file reads as
corrupted in two attempts in a row, one call deletes it twice and re-runs the
migration twice before the third run succeeds. -/
theorem C28_counterexample_two_retries :
    lockFailure (twiceCorrupted 0) = some RTCOM_EL_DATABASE_CORRUPTED ∧
    lockFailure (twiceCorrupted 1) = some RTCOM_EL_DATABASE_CORRUPTED ∧
    rtcom_el_db_convert_from_db0 twiceCorrupted 3 0 =
      some (true, [FsAction.unlinkTemp, FsAction.unlinkTemp, FsAction.renameTempToNew]) := by
  decide

/-! ## C29: the contact-grouping key -/

/-- Two texts split at a separator that the left parts do not contain agree
only when both parts agree. -/
theorem split_at_separator (sep : Char) (l1 l2 r1 r2 : List Char)
    (h1 : sep ∉ l1) (h2 : sep ∉ l2) (h : l1 ++ sep :: r1 = l2 ++ sep :: r2) :
    l1 = l2 ∧ r1 = r2 := by
  induction l1 generalizing l2 with
  | nil =>
    cases l2 with
    | nil => simpa using h
    | cons c cs =>
      simp only [List.nil_append, List.cons_append, List.cons.injEq] at h
      exact absurd (h.1 ▸ List.mem_cons_self _ _) h2
  | cons a as ih =>
    cases l2 with
    | nil =>
      simp only [List.nil_append, List.cons_append, List.cons.injEq] at h
      exact absurd (h.1 ▸ List.mem_cons_self _ _) h1
    | cons c cs =>
      simp only [List.cons_append, List.cons.injEq] at h
      have := ih cs (fun hm => h1 (List.mem_cons_of_mem _ hm))
        (fun hm => h2 (List.mem_cons_of_mem _ hm)) h.2
      exact ⟨by rw [h.1, this.1], this.2⟩

/-- Strings are equal when their characters are. -/
theorem string_eq_of_data (a b : String) (h : a.data = b.data) : a = b := by
  cases a; cases b; simp_all

/-- C29: for an event with a remote uid, the key `unique_remote` is "ab:"
followed by the abook uid of the Remote row when that is not NULL, and "lr:"
followed by the local uid, ";" and the remote uid otherwise; when the local
uids hold no ';', two such events have the same key exactly when they have the
same non-NULL abook uid, or both have none and agree on the local and on the
remote uid. -/
theorem C29_unique_remote_key (a1 a2 : Option String) (l1 r1 l2 r2 : String)
    (h1 : ';' ∉ l1.toList) (h2 : ';' ∉ l2.toList) :
    unique_remote a1 (some l1) (some r1) =
      some (match a1 with
            | some a => "ab:" ++ a
            | none => "lr:" ++ l1 ++ ";" ++ r1) ∧
    (unique_remote a1 (some l1) (some r1) = unique_remote a2 (some l2) (some r2) ↔
      (a1.isSome = true ∧ a1 = a2) ∨ (a1 = none ∧ a2 = none ∧ l1 = l2 ∧ r1 = r2)) := by
  constructor
  · cases a1 <;> rfl
  · cases a1 with
    | none =>
      cases a2 with
      | none =>
        simp only [unique_remote, sqlConcat, Option.isSome_none, Bool.false_eq_true, if_false,
          Option.some.injEq, false_and, true_and, false_or]
        constructor
        · intro h
          have hd := congrArg String.data h
          simp only [String.data_append] at hd
          have hd2 : l1.data ++ ';' :: r1.data = l2.data ++ ';' :: r2.data := by
            simpa using hd
          obtain ⟨e1, e2⟩ := split_at_separator ';' _ _ _ _ h1 h2 hd2
          exact ⟨string_eq_of_data _ _ e1, string_eq_of_data _ _ e2⟩
        · rintro ⟨rfl, rfl⟩
          rfl
      | some b =>
        simp only [unique_remote, sqlConcat, Option.isSome_none, Option.isSome_some,
          Bool.false_eq_true, if_false, if_true, Option.some.injEq, false_and, and_false,
          or_false, iff_false, reduceCtorEq]
        intro h
        have hd := congrArg String.data h
        simp [String.data_append] at hd
    | some a =>
      cases a2 with
      | none =>
        simp only [unique_remote, sqlConcat, Option.isSome_none, Option.isSome_some,
          Bool.false_eq_true, if_false, if_true, Option.some.injEq, false_and, and_false,
          or_false, iff_false, reduceCtorEq, true_and]
        intro h
        have hd := congrArg String.data h
        simp [String.data_append] at hd
      | some b =>
        simp only [unique_remote, sqlConcat, Option.isSome_some, if_true, Option.some.injEq,
          true_and, false_and, or_false, reduceCtorEq]
        constructor
        · intro h
          have hd := congrArg String.data h
          simp only [String.data_append, List.append_cancel_left_eq] at hd
          exact string_eq_of_data _ _ hd
        · rintro rfl
          rfl

/-- C29 at the contacts of `test_group_by_metacontacts`: one abook contact
seen on two accounts, and an unknown contact. -/
theorem C29_unique_remote_key_witness :
    ';' ∉ "gabble/jabber/alice".toList ∧ ';' ∉ "butterfly/msn/alice".toList ∧
    unique_remote (some "abook-bob") (some "gabble/jabber/alice") (some "bob@example.com")
      = some "ab:abook-bob" ∧
    (unique_remote (some "abook-bob") (some "gabble/jabber/alice") (some "bob@example.com")
        = unique_remote (some "abook-bob") (some "butterfly/msn/alice") (some "bob@msn.invalid") ↔
      ((some "abook-bob" : Option String).isSome = true ∧
          (some "abook-bob" : Option String) = some "abook-bob") ∨
        ((some "abook-bob" : Option String) = none ∧ (some "abook-bob" : Option String) = none ∧
          "gabble/jabber/alice" = "butterfly/msn/alice" ∧
          "bob@example.com" = "bob@msn.invalid")) :=
  ⟨by decide, by decide,
    (C29_unique_remote_key (some "abook-bob") (some "abook-bob") "gabble/jabber/alice"
      "bob@example.com" "butterfly/msn/alice" "bob@msn.invalid" (by decide) (by decide)).1,
    (C29_unique_remote_key (some "abook-bob") (some "abook-bob") "gabble/jabber/alice"
      "bob@example.com" "butterfly/msn/alice" "bob@msn.invalid" (by decide) (by decide)).2⟩

/-! ## C30: the IN list of `update_group_cache` -/

/-- C30 (code defect): the first iteration of the loop of `update_group_cache`
releases the whole list with `g_slist_free`, so for every list of two or more
nodes, whatever they hold, the second iteration reads a released node: the
loop has no defined result, and neither has `update_group_cache`, on every
connection.  Only for the empty list and for lists of one node is the IN list
defined: empty for a NULL entry, the one uid in quotes otherwise. -/
theorem C30_update_group_cache_released_nodes (db : Conn) (a b : Option String)
    (rest : List (Option String)) (g : String) :
    groupUidInList (a :: b :: rest) = none ∧
    update_group_cache db (a :: b :: rest) = none ∧
    groupUidInList [] = some "" ∧
    groupUidInList [none] = some "" ∧
    groupUidInList [some g] =
      some (String.singleton quoteChar ++ g ++ String.singleton quoteChar) := by
  have h2 : groupUidInList (a :: b :: rest) = none := by
    simp [groupUidInList, groupUidLoop]
  refine ⟨h2, ?_, rfl, rfl, ?_⟩
  · unfold update_group_cache
    rw [h2]
    rfl
  · simp [groupUidInList, groupUidLoop]

/-- C30 at concrete inputs: a deletion by query that matches one ungrouped
event (id 1) and one event of group "G" (id 2).  The collector hands
`update_group_cache` a list of two nodes, "G" and NULL, and the call has no
defined result; the same deletion restricted to the event of group "G" hands
over one node and succeeds. -/
theorem C30_delete_events_mixed_undefined :
    update_group_cache (sampleLogger (sampleTables [] [] [])).db [some "G", none] = none ∧
    (get_event_group_uids_where
        (sampleLogger (sampleTables
          [sampleRow 1 1 none 0 false, sampleRow 2 1 (some "G") 0 false]
          [⟨2, 1, "G", 1, 0, 0⟩] [])).db
        "Services.name = 'CHAT'" (fun e => e.service_id == 1)).2 = [some "G", none] ∧
    (rtcom_el_delete_events
        (sampleLogger (sampleTables
          [sampleRow 1 1 none 0 false, sampleRow 2 1 (some "G") 0 false]
          [⟨2, 1, "G", 1, 0, 0⟩] []))
        (some "Services.name = 'CHAT'") (fun e => e.service_id == 1)).isNone = true ∧
    (rtcom_el_delete_events
        (sampleLogger (sampleTables
          [sampleRow 1 1 none 0 false, sampleRow 2 1 (some "G") 0 false]
          [⟨2, 1, "G", 1, 0, 0⟩] []))
        (some "Events.id = 2") (fun e => e.id == 2)).map (fun res => res.ret) = some 1 :=
  ⟨(C30_update_group_cache_released_nodes _ (some "G") none [] "G").2.1, by decide, by decide,
    by decide⟩

end RtcomEl
